import Mathlib

/-! # CMN-Cyprus driver: shallow embedding and verified properties

The definitions below follow the C sources of `module/cmn_cyprus`, one Lean
definition per C function (a long function is cut at its loops and branches,
each piece naming the source lines it stands for).

* Machine integers are natural numbers; `unsigned int` arithmetic that can
  overflow is reduced modulo `2 ^ 32`.
* Hardware registers are addressed by their byte address, computed from the
  `struct` layouts of `cmn_cyprus_reg.h`.  Registers declared `FWK_R` are read
  from a register file that no function changes; registers declared `FWK_RW`
  are part of the state.
* A table pointer of the driver context is the list of the entries it points
  to; writing past its length is a fault, as is a failed `fwk_assert` and a
  call of `fwk_trap`.
* Loops whose index is a `uint8_t` take an iteration budget `fuel`, since the
  index wraps at 256 and such a loop need not end; the other loops are folds
  over the list of their index values.
* The functions that stall and unstall the RN-SAMs and the ones that bring up
  the CCG links keep a record of events (`Machine.trace`), which no C
  statement reads; it lets a property speak of what was done, and in which
  order, also when a run stops in `fwk_trap`.
* Framework code that is not part of the module (`fwk_math_log2`,
  `fwk_mm_calloc`, `fwk_unexpected`, the timer wait) is modelled from its
  description; each such definition says so.
* Log output is left out.
-/

namespace CmnCyprus

/-! ## Framework status codes and execution outcomes -/

/-- Status code `FWK_SUCCESS` of `fwk_status.h` (the header is not part of the
module; the numeric values are the framework ones and only their being
distinct is used). -/
def FWK_SUCCESS : Int := 0
/-- Status code `FWK_E_PARAM`. -/
def FWK_E_PARAM : Int := -1
/-- Status code `FWK_E_RANGE`. -/
def FWK_E_RANGE : Int := -6
/-- Status code `FWK_E_DEVICE`. -/
def FWK_E_DEVICE : Int := -11
/-- Status code `FWK_E_DATA`. -/
def FWK_E_DATA : Int := -14

/-- Ways in which a C function can stop without returning to its caller. -/
inductive Fault where
  /-- A `fwk_assert` whose condition is false. -/
  | assertion
  /-- A call of `fwk_trap()`. -/
  | trap
  /-- An access outside the allocated length of a table. -/
  | out_of_bounds
  /-- An integer division or remainder whose divisor is zero. -/
  | division_by_zero
  /-- The iteration budget given to a loop with an 8-bit index is used up
  while the loop is still running. -/
  | out_of_fuel
  deriving DecidableEq, Repr

/-- Result of running a C function: a fault, or the returned value. -/
abbrev Exec (α : Type) : Type := Except Fault α

/-- The macro `fwk_assert(cond)`. -/
def fwk_assert (cond : Bool) : Exec Unit :=
  if cond then .ok () else .error Fault.assertion

/-- Width of `unsigned int`. -/
def UINT_MOD : Nat := 2 ^ 32

/-! ## `mod_cmn_cyprus.h`: configuration data -/

/-- Coordinate `struct node_pos` (x, y, port number, device number). -/
structure node_pos where
  pos_x : Nat
  pos_y : Nat
  port_num : Nat
  device_num : Nat
  deriving DecidableEq, Repr, Inhabited

/-- Descriptor `struct isolated_hns_node_info`. -/
structure isolated_hns_node_info where
  hns_pos : node_pos
  hns_base : Nat
  deriving DecidableEq, Repr, Inhabited

/-- Value `MOD_CMN_CYPRUS_MEM_REGION_TYPE_IO` of
`enum mod_cmn_cyprus_mem_region_type`. -/
def MOD_CMN_CYPRUS_MEM_REGION_TYPE_IO : Nat := 0
/-- Value `MOD_CMN_CYPRUS_MEM_REGION_TYPE_SYSCACHE`. -/
def MOD_CMN_CYPRUS_MEM_REGION_TYPE_SYSCACHE : Nat := 1
/-- Value `MOD_CMN_CYPRUS_MEM_REGION_TYPE_SYSCACHE_SUB`. -/
def MOD_CMN_CYPRUS_MEM_REGION_TYPE_SYSCACHE_SUB : Nat := 2
/-- Value `MOD_CMN_CYPRUS_REGION_TYPE_CCG`. -/
def MOD_CMN_CYPRUS_REGION_TYPE_CCG : Nat := 3

/-- The fields of `struct mod_cmn_cyprus_mem_region_map` read by the functions
embedded here; `type` is a value of `enum mod_cmn_cyprus_mem_region_type`. -/
structure mod_cmn_cyprus_mem_region_map where
  base : Nat
  size : Nat
  node_id : Nat
  hns_pos_start : node_pos
  hns_pos_end : node_pos
  type : Nat := 0
  deriving DecidableEq, Repr, Inhabited

/-- Value `MOD_CMN_CYPRUS_1_SN_MODE` of
`enum mod_cmn_cyprus_hns_to_snf_mem_strip_mode`. -/
def MOD_CMN_CYPRUS_1_SN_MODE : Nat := 0
/-- Value `MOD_CMN_CYPRUS_3_SN_MODE`. -/
def MOD_CMN_CYPRUS_3_SN_MODE : Nat := 1
/-- Value `MOD_CMN_CYPRUS_5_SN_MODE`. -/
def MOD_CMN_CYPRUS_5_SN_MODE : Nat := 2
/-- Value `MOD_CMN_CYPRUS_6_SN_MODE`. -/
def MOD_CMN_CYPRUS_6_SN_MODE : Nat := 3

/-- Configuration `struct mod_cmn_cyprus_hierarchical_hashing`. -/
structure mod_cmn_cyprus_hierarchical_hashing where
  hns_cluster_count : Nat
  sn_mode : Nat
  top_address_bit0 : Nat
  top_address_bit1 : Nat
  top_address_bit2 : Nat
  deriving DecidableEq, Repr, Inhabited

/-- Constant `CMN_CYPRUS_MAX_CCG_PROTOCOL_LINKS`. -/
def CMN_CYPRUS_MAX_CCG_PROTOCOL_LINKS : Nat := 3
/-- Constant `CMN_CYPRUS_MAX_RA_SAM_ADDR_REGION`. -/
def CMN_CYPRUS_MAX_RA_SAM_ADDR_REGION : Nat := 8

/-- Descriptor `struct mod_cmn_cyprus_ra_mem_region_map`; `remote_haid` is
the list of the entries the pointer points to. -/
structure mod_cmn_cyprus_ra_mem_region_map where
  base : Nat
  size : Nat
  remote_haid : List Nat
  deriving DecidableEq, Repr, Inhabited

/-- Descriptor `struct mod_cmn_cyprus_ccg_config`.  The pointers `ldid` and
`haid` are the lists of the entries they point to.  The arrays of fixed length
(`remote_mmap_table`, `ra_mmap_table`, `remote_chip_id`) list their leading
entries; an entry past the end of the list is zero, as in a C initialiser. -/
structure mod_cmn_cyprus_ccg_config where
  ldid : List Nat
  haid : List Nat
  remote_rnf_count : Nat
  remote_mmap_table : List mod_cmn_cyprus_mem_region_map
  ra_mmap_table : List mod_cmn_cyprus_ra_mem_region_map
  remote_chip_id : List Nat
  smp_mode : Bool
  ull_to_ull_mode : Bool
  cpa_mode : Bool
  cpag_id : Nat
  num_ports_in_cpag : Nat
  deriving DecidableEq, Repr, Inhabited

/-- The fields of `struct mod_cmn_cyprus_config` read by the functions embedded
here.  `clock_id_is_none` stands for
`fwk_id_is_equal(config->clock_id, FWK_ID_NONE)`; the length of
`isolated_hns_table` is the field `isolated_hns_count`.  The pointers
`mmap_table`, `snf_table` and `ccg_config_table` are the lists of the entries
they point to; the counts `mmap_count`, `snf_count` and `ccg_table_count` are
fields of their own, as in C. -/
structure mod_cmn_cyprus_config where
  base : Nat
  mesh_size_x : Nat
  mesh_size_y : Nat
  clock_id_is_none : Bool
  hns_cal_mode : Bool
  isolated_hns_table : List isolated_hns_node_info
  hierarchical_hashing_enable : Bool := false
  hierarchical_hashing_config : mod_cmn_cyprus_hierarchical_hashing := default
  mmap_table : List mod_cmn_cyprus_mem_region_map := []
  mmap_count : Nat := 0
  snf_table : List Nat := []
  snf_count : Nat := 0
  ccg_config_table : List mod_cmn_cyprus_ccg_config := []
  ccg_table_count : Nat := 0
  chip_addr_space : Nat := 0
  deriving DecidableEq, Repr, Inhabited

/-- Field `isolated_hns_count`: number of entries of `isolated_hns_table`. -/
def mod_cmn_cyprus_config.isolated_hns_count (config : mod_cmn_cyprus_config) : Nat :=
  config.isolated_hns_table.length

/-- Table `struct mod_cmn_cyprus_config_table`. -/
structure mod_cmn_cyprus_config_table where
  chip_config_data : List mod_cmn_cyprus_config
  chip_count : Nat
  deriving DecidableEq, Repr, Inhabited

/-! ## `cmn_cyprus_rnsam.c`: rectangle membership -/

/-- Function `is_hns_inside_rect` of `cmn_cyprus_rnsam.c`. -/
def is_hns_inside_rect (hns_node_pos : node_pos)
    (region : mod_cmn_cyprus_mem_region_map) : Bool :=
  let region_hns_pos_start := region.hns_pos_start
  let region_hns_pos_end := region.hns_pos_end
  if decide (hns_node_pos.pos_x ≥ region_hns_pos_start.pos_x) &&
      decide (hns_node_pos.pos_y ≥ region_hns_pos_start.pos_y) &&
      decide (hns_node_pos.pos_x ≤ region_hns_pos_end.pos_x) &&
      decide (hns_node_pos.pos_y ≤ region_hns_pos_end.pos_y) &&
      decide (hns_node_pos.port_num ≤ region_hns_pos_end.port_num) then
    if hns_node_pos.pos_y = region_hns_pos_start.pos_y then
      if hns_node_pos.port_num ≥ region_hns_pos_start.port_num then true else false
    else if hns_node_pos.pos_y = region_hns_pos_end.pos_y then
      if hns_node_pos.port_num ≤ region_hns_pos_end.port_num then true else false
    else true
  else false

/-! ## `cmn_cyprus_utils.c`: region size encoding -/

/-- Constant `FWK_MIB` of `fwk_macros.h`. -/
def FWK_MIB : Nat := 1024 * 1024

/-- Constant `SAM_GRANULARITY` of `cmn_cyprus_utils.h`. -/
def SAM_GRANULARITY : Nat := 64 * FWK_MIB

/-- Modelled from the spec: `fwk_math_log2` of the framework header
`fwk_math.h`, which is not among the sources; the spec and the comment of
`sam_encode_region_size` call it the binary logarithm (`log2`). -/
def fwk_math_log2 (num : Nat) : Nat := Nat.log2 num

/-- Function `sam_encode_region_size` of `cmn_cyprus_utils.c`; `size` is a
`uint64_t`, so `size - 1` wraps at zero. -/
def sam_encode_region_size (size : Nat) : Exec Nat := do
  fwk_assert (size % SAM_GRANULARITY == 0)
  fwk_assert (size &&& ((size + 2 ^ 64 - 1) % 2 ^ 64) == 0)
  let blocks := size / SAM_GRANULARITY
  let result := fwk_math_log2 blocks
  return result

/-! ## `cmn_cyprus_ctx.h`: driver context -/

/-- Entry `struct hns_info` of the HN-S table. -/
structure hns_info where
  hns : Nat
  node_pos : node_pos
  xp : Nat
  deriving DecidableEq, Repr, Inhabited

/-- Entry `struct ccg_ra_reg_tuple`. -/
structure ccg_ra_reg_tuple where
  node_id : Nat
  ccg_ra_reg : Nat
  deriving DecidableEq, Repr, Inhabited

/-- Entry `struct ccg_ha_reg_tuple`. -/
structure ccg_ha_reg_tuple where
  node_id : Nat
  ccg_ha_reg : Nat
  deriving DecidableEq, Repr, Inhabited

/-- Entry `struct ccla_reg_tuple`. -/
structure ccla_reg_tuple where
  node_id : Nat
  ccla_reg : Nat
  deriving DecidableEq, Repr, Inhabited

/-- Driver context `struct cmn_cyprus_ctx`.  A table pointer is the list of the
entries it points to (its length is the allocated length; `NULL` is the empty
list); a register pointer is the byte address of the register block.
`hns_table_addr` is the numeric value of the pointer `hns_table`, the byte
address of its first entry. -/
structure cmn_cyprus_ctx where
  config_table : mod_cmn_cyprus_config_table
  config : mod_cmn_cyprus_config
  root : Nat
  hns_count : Nat
  hns_table : List hns_info
  rnsam_count : Nat
  rnsam_table : List Nat
  rnd_count : Nat
  rnf_count : Nat
  rni_count : Nat
  is_initialized : Bool
  io_region_count : Nat
  scg_count : Nat
  ccg_ra_reg_table : List ccg_ra_reg_tuple
  ccg_ha_reg_table : List ccg_ha_reg_tuple
  ccla_reg_table : List ccla_reg_tuple
  ccg_node_count : Nat
  chip_id : Nat
  scg_enabled : List Bool := [false, false, false, false]
  remote_rnf_ldid_value : Nat := 0
  hns_table_addr : Nat := 0
  deriving DecidableEq, Repr, Inhabited

/-! ## Hardware registers -/

/-- Register file: the 64-bit value held at a byte address. -/
abbrev Regs : Type := Nat → Nat

/-- Record of the calls a run has made that later statements refer to, oldest
first.  It is not part of the C state. -/
inductive Event where
  /-- A call of `rnsam_stall` has completed. -/
  | stall
  /-- A call of `rnsam_unstall` has completed. -/
  | unstall
  /-- The timer API `wait` was called for condition `cond` of
  `enum ccg_link_up_wait_cond` and returned `status`. -/
  | link_wait (cond : Nat) (status : Int)
  /-- The timer API `wait` was called for `check_ccla_ull_status` and returned
  `status`. -/
  | ull_wait (status : Int)
  /-- A statement `LINK_REGS[linkid].CCG_CCPRTCL_LINK_CTRL |= mask` was run on
  the register at byte address `addr`. -/
  | link_ctrl_set (addr : Nat) (mask : Nat)
  deriving DecidableEq, Repr

/-- Software-visible state: the driver context, the file-scope variables
`encoding_bits` and `mask_bits` of `cmn_cyprus_discovery.c`, the writable
(`FWK_RW`) registers, and the record of events.  The read-only (`FWK_R`)
registers are a separate `Regs` argument `hw`, which no function changes. -/
structure Machine where
  ctx : cmn_cyprus_ctx
  encoding_bits : Nat
  mask_bits : Nat
  rw : Regs
  trace : List Event := []

/-- Byte offset of `NODE_INFO` in `struct node_header`. -/
def NODE_INFO_OFFSET : Nat := 0x0
/-- Byte offset of `PORT_CONNECT_INFO[0]` in `struct cmn_cyprus_mxp_reg`. -/
def PORT_CONNECT_INFO_OFFSET : Nat := 0x8
/-- Byte offset of `CHILD_INFO` in `struct node_header`. -/
def CHILD_INFO_OFFSET : Nat := 0x80
/-- Byte offset of `CHILD_POINTER[0]` in `struct node_header`. -/
def CHILD_POINTER_OFFSET : Nat := 0x100
/-- Byte offset of `PORT_DISABLE` in `struct cmn_cyprus_mxp_reg`. -/
def PORT_DISABLE_OFFSET : Nat := 0xA70

/-! ## `cmn_cyprus_discovery.c` -/

def MAX_HNS_COUNT : Nat := 128
def MAX_RND_COUNT : Nat := 40
def MAX_RNI_COUNT : Nat := 40
def MAX_RNF_COUNT : Nat := 256

def NODE_TYPE_CFG : Nat := 0x2
def NODE_TYPE_XP : Nat := 0x6
def NODE_TYPE_RN_I : Nat := 0xA
def NODE_TYPE_RN_D : Nat := 0xD
def NODE_TYPE_RN_SAM : Nat := 0xF
def NODE_TYPE_CXRA : Nat := 0x100
def NODE_TYPE_CXHA : Nat := 0x101
def NODE_TYPE_CXLA : Nat := 0x102
def NODE_TYPE_CCRA : Nat := 0x103
def NODE_TYPE_CCHA : Nat := 0x104
def NODE_TYPE_CCLA : Nat := 0x105
def NODE_TYPE_HN_S : Nat := 0x200

def DEVICE_TYPE_RN_F_CHIB_ESAM : Nat := 0x5
def DEVICE_TYPE_HN_F : Nat := 0xF
def DEVICE_TYPE_CXHA : Nat := 0x11
def DEVICE_TYPE_CXRA : Nat := 0x12
def DEVICE_TYPE_CXRH : Nat := 0x13
def DEVICE_TYPE_HN_S : Nat := 0x1A
def DEVICE_TYPE_RN_F_CHID_ESAM : Nat := 0x15
def DEVICE_TYPE_RN_F_CHIC_ESAM : Nat := 0x17
def DEVICE_TYPE_RN_F_CHIE_ESAM : Nat := 0x19
def DEVICE_TYPE_RN_F_CHIF_ESAM : Nat := 0x21

/-- Function `set_encoding_and_masking_bits`. -/
def set_encoding_and_masking_bits (sys : Machine) : Machine :=
  let mesh_size_x := sys.ctx.config.mesh_size_x
  let mesh_size_y := sys.ctx.config.mesh_size_y
  let encoding_bits :=
    if mesh_size_x > 8 ∨ mesh_size_y > 8 then 4
    else if mesh_size_x > 4 ∨ mesh_size_y > 4 then 3 else 2
  { sys with encoding_bits := encoding_bits, mask_bits := (1 <<< encoding_bits) - 1 }

/-- Function `get_node_pos_x`; reads the file-scope `encoding_bits`, `mask_bits`. -/
def get_node_pos_x (sys : Machine) (node_id : Nat) : Nat :=
  (node_id >>> (3 + sys.encoding_bits)) &&& sys.mask_bits

/-- Function `get_node_pos_y`. -/
def get_node_pos_y (sys : Machine) (node_id : Nat) : Nat :=
  (node_id >>> 3) &&& sys.mask_bits

/-- Function `get_node_type`. -/
def get_node_type (hw : Regs) (node_base : Nat) : Nat :=
  hw (node_base + NODE_INFO_OFFSET) &&& 0xFFFF

/-- Function `get_node_child_count`. -/
def get_node_child_count (hw : Regs) (node_base : Nat) : Nat :=
  hw (node_base + CHILD_INFO_OFFSET) &&& 0xFFFF

/-- Register `node->CHILD_POINTER[child_index]`. -/
def CHILD_POINTER (hw : Regs) (node_base child_index : Nat) : Nat :=
  hw (node_base + CHILD_POINTER_OFFSET + 8 * child_index)

/-- Function `get_child_node`; the child pointer is first narrowed to
`uint32_t`. -/
def get_child_node (hw : Regs) (base node_base child_index : Nat) : Nat :=
  let child_pointer := CHILD_POINTER hw node_base child_index % 2 ^ 32
  let offset := child_pointer &&& 0x3FFFFFFF
  base + offset

/-- Function `get_node_id` of `cmn_cyprus_utils.c`. -/
def get_node_id (hw : Regs) (node_base : Nat) : Nat :=
  (hw (node_base + NODE_INFO_OFFSET) &&& 0x00000000FFFF0000) >>> 16

/-- Function `get_node_logical_id` of `cmn_cyprus_utils.c`. -/
def get_node_logical_id (hw : Regs) (node_base : Nat) : Nat :=
  (hw (node_base + NODE_INFO_OFFSET) &&& 0x0000FFFF00000000) >>> 32

/-- Function `is_child_external`: bit 31 of the child pointer. -/
def is_child_external (hw : Regs) (node_base child_index : Nat) : Bool :=
  CHILD_POINTER hw node_base child_index &&& (1 <<< 31) != 0

/-- Function `get_child_node_id`. -/
def get_child_node_id (hw : Regs) (node_base child_index : Nat) : Nat :=
  let node_pointer := (CHILD_POINTER hw node_base child_index &&& 0x3FFF0000) >>> 16
  ((((node_pointer >>> 6) &&& 0xff) <<< 3) ||| ((node_pointer &&& 0x1) <<< 2)) |||
    ((node_pointer >>> 2) &&& 0x3)

/-- Function `get_node_device_port_count`. -/
def get_node_device_port_count (hw : Regs) (node_base : Nat) : Nat :=
  (hw (node_base + NODE_INFO_OFFSET) &&& 0xF000000000000) >>> 48

/-- Function `get_port_number`. -/
def get_port_number (child_node_id xp_port_cnt : Nat) : Nat :=
  if xp_port_cnt ≤ 2 then (child_node_id >>> 2) &&& 0x1
  else (child_node_id >>> 1) &&& 0x3

/-- Function `get_device_type`. -/
def get_device_type (hw : Regs) (mxp_base port : Nat) : Nat :=
  hw (mxp_base + PORT_CONNECT_INFO_OFFSET + 8 * port) &&& 0x3F

/-- Conversion of an unsigned value to the C type `bool`, as done for the
`bool port` parameters of `is_device_type_rnf` and `is_cal_connected`. -/
def to_bool_port (port : Nat) : Nat := if port = 0 then 0 else 1

/-- Function `is_device_type_rnf`; its parameter `port` has type `bool`. -/
def is_device_type_rnf (hw : Regs) (mxp_base port : Nat) : Bool :=
  let port := to_bool_port port
  get_device_type hw mxp_base port == DEVICE_TYPE_RN_F_CHIB_ESAM ||
  get_device_type hw mxp_base port == DEVICE_TYPE_RN_F_CHIC_ESAM ||
  get_device_type hw mxp_base port == DEVICE_TYPE_RN_F_CHID_ESAM ||
  get_device_type hw mxp_base port == DEVICE_TYPE_RN_F_CHIE_ESAM ||
  get_device_type hw mxp_base port == DEVICE_TYPE_RN_F_CHIF_ESAM

/-- Function `is_cal_connected`; its parameter `port` has type `bool`. -/
def is_cal_connected (hw : Regs) (mxp_base port : Nat) : Bool :=
  let port := to_bool_port port
  (hw (mxp_base + PORT_CONNECT_INFO_OFFSET + 8 * port) &&& 0x80) >>> 7 != 0

/-- Function `get_device_number`. -/
def get_device_number (node_id : Nat) : Nat := node_id &&& 0x3

/-- Function `enable_mxp_device`: clears one bit of `PORT_DISABLE`. -/
def enable_mxp_device (mxp_base port device : Nat) (rw : Regs) : Regs :=
  let port_offset := (port * 4) % 2 ^ 8
  let device_mask := (1 <<< device) % 2 ^ 8
  let addr := mxp_base + PORT_DISABLE_OFFSET
  fun a => if a = addr then rw addr &&& (2 ^ 64 - 1 - (device_mask <<< port_offset)) else rw a

/-- Function `is_node_pos_equal`. -/
def is_node_pos_equal (node1 node2 : node_pos) : Bool :=
  if node1.pos_x = node2.pos_x ∧ node1.pos_y = node2.pos_y then
    if node1.port_num = node2.port_num ∧ node1.device_num = node2.device_num then true
    else false
  else false

/-- Function `is_hns_isolated`: linear search of the isolation table by
position. -/
def is_hns_isolated (hns_pos : node_pos) (ctx : cmn_cyprus_ctx) : Bool :=
  ctx.config.isolated_hns_table.any (fun e => is_node_pos_equal hns_pos e.hns_pos)

/-- Function `is_node_isolated`: linear search of the isolation table by base
address. -/
def is_node_isolated (node_base : Nat) (ctx : cmn_cyprus_ctx) : Bool :=
  ctx.config.isolated_hns_table.any (fun e => node_base == e.hns_base)

/-- Control flow after a statement or loop iteration: go on with the next
one, leave the function with `return status`, or stop with a fault. -/
inductive Flow (σ : Type) where
  | next (s : σ)
  | ret (status : Int) (s : σ)
  | fault (f : Fault)

/-- Loop `for (idx = ...; ...; idx++) body` over the listed index values: a
`return` or a fault in the body leaves the loop. -/
def for_loop {σ : Type} (body : Nat → σ → Flow σ) : List Nat → σ → Flow σ
  | [], s => Flow.next s
  | idx :: rest, s =>
    match body idx s with
    | Flow.next s1 => for_loop body rest s1
    | Flow.ret status s1 => Flow.ret status s1
    | Flow.fault f => Flow.fault f

/-- Inner loop body of `disable_hns_isolation` (one device of one port). -/
def disable_hns_isolation_device (hw : Regs) (xp port_num device_num : Nat)
    (sys : Machine) : Flow Machine :=
  let hns_pos : node_pos :=
    { pos_x := get_node_pos_x sys (get_node_id hw xp)
      pos_y := get_node_pos_y sys (get_node_id hw xp)
      port_num := port_num
      device_num := device_num }
  if is_hns_isolated hns_pos sys.ctx then Flow.next sys
  else Flow.next { sys with rw := enable_mxp_device xp port_num device_num sys.rw }

/-- Outer loop body of `disable_hns_isolation` (one port). -/
def disable_hns_isolation_port (hw : Regs) (xp port_num : Nat) (sys : Machine) :
    Flow Machine :=
  let device_type := get_device_type hw xp port_num
  if device_type ≠ DEVICE_TYPE_HN_S ∧ device_type ≠ DEVICE_TYPE_HN_F then Flow.next sys
  else for_loop (disable_hns_isolation_device hw xp port_num) (List.range 4) sys

/-- Function `disable_hns_isolation`. -/
def disable_hns_isolation (hw : Regs) (xp : Nat) (sys : Machine) : Flow Machine :=
  for_loop (disable_hns_isolation_port hw xp) (List.range 6) sys

/-- State of `discover_mesh_topology` while it walks the mesh: the system state
and the local counters of the function. -/
structure discover_state where
  sys : Machine
  ccg_ra_reg_count : Nat
  ccg_ha_reg_count : Nat
  ccla_reg_count : Nat
  cxg_ra_reg_count : Nat
  cxg_ha_reg_count : Nat
  cxla_reg_count : Nat

/-- Update of the driver context inside a `discover_state`. -/
def discover_state.set_ctx (d : discover_state) (ctx : cmn_cyprus_ctx) : discover_state :=
  { d with sys := { d.sys with ctx := ctx } }

/-- Branch `case NODE_TYPE_HN_S` of the switch in `discover_mesh_topology`. -/
def discover_case_hn_s (d : discover_state) : Flow discover_state :=
  if d.sys.ctx.hns_count ≥ MAX_HNS_COUNT then Flow.ret FWK_E_DATA d
  else Flow.next (d.set_ctx { d.sys.ctx with hns_count := (d.sys.ctx.hns_count + 1) % UINT_MOD })

/-- Branch `case NODE_TYPE_RN_SAM` of the switch in `discover_mesh_topology`. -/
def discover_case_rn_sam (hw : Regs) (xp node : Nat) (d : discover_state) :
    Flow discover_state :=
  let d1 := d.set_ctx { d.sys.ctx with rnsam_count := (d.sys.ctx.rnsam_count + 1) % UINT_MOD }
  let xp_port := get_port_number (get_node_id hw node) (get_node_device_port_count hw xp)
  if is_device_type_rnf hw xp xp_port then
    if is_cal_connected hw xp xp_port then
      Flow.next (d1.set_ctx { d1.sys.ctx with rnf_count := (d1.sys.ctx.rnf_count + 2) % UINT_MOD })
    else
      Flow.next (d1.set_ctx { d1.sys.ctx with rnf_count := (d1.sys.ctx.rnf_count + 1) % UINT_MOD })
  else Flow.next d1

/-- Branch `case NODE_TYPE_RN_D` of the switch in `discover_mesh_topology`. -/
def discover_case_rn_d (d : discover_state) : Flow discover_state :=
  if d.sys.ctx.rnd_count ≥ MAX_RND_COUNT then Flow.ret FWK_E_DATA d
  else Flow.next (d.set_ctx { d.sys.ctx with rnd_count := (d.sys.ctx.rnd_count + 1) % UINT_MOD })

/-- Branch `case NODE_TYPE_RN_I` of the switch in `discover_mesh_topology`. -/
def discover_case_rn_i (d : discover_state) : Flow discover_state :=
  if d.sys.ctx.rni_count ≥ MAX_RNI_COUNT then Flow.ret FWK_E_DATA d
  else Flow.next (d.set_ctx { d.sys.ctx with rni_count := (d.sys.ctx.rni_count + 1) % UINT_MOD })

/-- The `switch (get_node_type(node))` of `discover_mesh_topology` (lines
550-643), taken for an internal child `node` of the crosspoint `xp`. -/
def discover_internal_node (hw : Regs) (xp node : Nat) (d : discover_state) :
    Flow discover_state :=
  let node_type := get_node_type hw node
  if node_type = NODE_TYPE_HN_S then discover_case_hn_s d
  else if node_type = NODE_TYPE_RN_SAM then discover_case_rn_sam hw xp node d
  else if node_type = NODE_TYPE_RN_D then discover_case_rn_d d
  else if node_type = NODE_TYPE_RN_I then discover_case_rn_i d
  else if node_type = NODE_TYPE_CCRA then
    Flow.next { d with ccg_ra_reg_count := (d.ccg_ra_reg_count + 1) % UINT_MOD }
  else if node_type = NODE_TYPE_CCHA then
    Flow.next { d with ccg_ha_reg_count := (d.ccg_ha_reg_count + 1) % UINT_MOD }
  else if node_type = NODE_TYPE_CCLA then
    Flow.next { d with ccla_reg_count := (d.ccla_reg_count + 1) % UINT_MOD }
  else if node_type = NODE_TYPE_CXRA then
    Flow.next { d with cxg_ra_reg_count := (d.cxg_ra_reg_count + 1) % UINT_MOD }
  else if node_type = NODE_TYPE_CXHA then
    Flow.next { d with cxg_ha_reg_count := (d.cxg_ha_reg_count + 1) % UINT_MOD }
  else if node_type = NODE_TYPE_CXLA then Flow.ret FWK_E_DEVICE d
  else Flow.next d

/-- Branch of `discover_mesh_topology` for an external child (lines 527-548). -/
def discover_external_node (hw : Regs) (xp node_idx : Nat) (d : discover_state) :
    Flow discover_state :=
  let xp_port :=
    get_port_number (get_child_node_id hw xp node_idx) (get_node_device_port_count hw xp)
  if get_device_type hw xp xp_port = DEVICE_TYPE_CXRH ∨
      get_device_type hw xp xp_port = DEVICE_TYPE_CXHA ∨
      get_device_type hw xp xp_port = DEVICE_TYPE_CXRA then
    Flow.next { d with cxla_reg_count := (d.cxla_reg_count + 1) % UINT_MOD }
  else Flow.next d

/-- Body of the node loop of `discover_mesh_topology` (lines 504-645): one child
`node_idx` of the crosspoint `xp`. -/
def discover_node (hw : Regs) (xp node_idx : Nat) (d : discover_state) :
    Flow discover_state :=
  if is_node_isolated (get_child_node hw d.sys.ctx.config.base xp node_idx) d.sys.ctx then
    Flow.next d
  else if is_child_external hw xp node_idx then discover_external_node hw xp node_idx d
  else discover_internal_node hw xp (get_child_node hw d.sys.ctx.config.base xp node_idx) d

/-- Body of the crosspoint loop of `discover_mesh_topology` (lines 485-646). -/
def discover_xp (hw : Regs) (xp_idx : Nat) (d : discover_state) : Flow discover_state :=
  let xp := get_child_node hw d.sys.ctx.config.base d.sys.ctx.root xp_idx
  if get_node_type hw xp ≠ NODE_TYPE_XP then Flow.fault Fault.assertion
  else
    match disable_hns_isolation hw xp d.sys with
    | Flow.next sys1 =>
      let node_count := get_node_child_count hw xp
      for_loop (discover_node hw xp) (List.range node_count) { d with sys := sys1 }
    | Flow.ret status sys1 => Flow.ret status { d with sys := sys1 }
    | Flow.fault f => Flow.fault f

/-- Start of `discover_mesh_topology` (lines 460-470): the local counters are
zero and the encoding and masking bits are set from the mesh size. -/
def discover_start (sys : Machine) : discover_state :=
  { sys := set_encoding_and_masking_bits sys
    ccg_ra_reg_count := 0, ccg_ha_reg_count := 0, ccla_reg_count := 0
    cxg_ra_reg_count := 0, cxg_ha_reg_count := 0, cxla_reg_count := 0 }

/-- First part of `discover_mesh_topology` (lines 460-646): initialisation of
the local counters and the walk over all crosspoints. -/
def discover_walk (hw : Regs) (sys : Machine) : Flow discover_state :=
  let d := discover_start sys
  if get_node_type hw d.sys.ctx.root ≠ NODE_TYPE_CFG then Flow.fault Fault.assertion
  else
    let xp_count := get_node_child_count hw d.sys.ctx.root
    for_loop (discover_xp hw) (List.range xp_count) d

/-- Compiler builtin `__builtin_popcount`: number of one bits of an
`unsigned int`. -/
def popcount_bits : Nat → Nat → Nat
  | 0, _ => 0
  | width + 1, n => n % 2 + popcount_bits width (n / 2)

/-- Compiler builtin `__builtin_popcount` on a 32-bit `unsigned int`. -/
def builtin_popcount (n : Nat) : Nat := popcount_bits 32 n

/-- Last part of `discover_mesh_topology` (lines 666-698): the checks made on
the counts once the walk is over. -/
def discover_checks (d : discover_state) : Int × Machine :=
  let ctx := { d.sys.ctx with ccg_node_count := d.ccg_ra_reg_count }
  if ctx.hns_count % 2 ≠ 0 ∧ ctx.config.hns_cal_mode = true then
    (FWK_E_DATA, { d.sys with ctx := ctx })
  else if builtin_popcount ctx.hns_count ≠ 1 then
    (FWK_E_DATA, { d.sys with ctx := ctx })
  else
    let ctx1 :=
      { ctx with hns_count := (ctx.hns_count + ctx.config.isolated_hns_count) % UINT_MOD }
    if ctx1.rnf_count > MAX_RNF_COUNT then (FWK_E_RANGE, { d.sys with ctx := ctx1 })
    else (FWK_SUCCESS, { d.sys with ctx := ctx1 })

/-- Function `discover_mesh_topology`: the returned status and the state it
leaves. -/
def discover_mesh_topology (hw : Regs) (sys : Machine) : Exec (Int × Machine) :=
  match discover_walk hw sys with
  | Flow.next d => .ok (discover_checks d)
  | Flow.ret status d => .ok (status, d.sys)
  | Flow.fault f => .error f

/-- Assignment `table[idx] = v` to a table of the context: `none` when `idx` is
not below the allocated length of the table (also when the table is `NULL`). -/
def table_write {α : Type} (table : List α) (idx : Nat) (v : α) : Option (List α) :=
  if idx < table.length then some (table.set idx v) else none

/-- State of `cmn_cyprus_init_ctx` while it walks the mesh: the system state
and the local variable `rnsam_entry`. -/
structure init_ctx_state where
  sys : Machine
  rnsam_entry : Nat

/-- Update of the driver context inside an `init_ctx_state`. -/
def init_ctx_state.set_ctx (s : init_ctx_state) (ctx : cmn_cyprus_ctx) : init_ctx_state :=
  { s with sys := { s.sys with ctx := ctx } }

/-- Branch `node_type == NODE_TYPE_RN_SAM` of `cmn_cyprus_init_ctx`. -/
def init_ctx_case_rn_sam (node : Nat) (s : init_ctx_state) : Flow init_ctx_state :=
  if ¬ s.rnsam_entry < s.sys.ctx.rnsam_count then Flow.fault Fault.assertion
  else
    match table_write s.sys.ctx.rnsam_table s.rnsam_entry node with
    | none => Flow.fault Fault.out_of_bounds
    | some table =>
      Flow.next
        { (s.set_ctx { s.sys.ctx with rnsam_table := table }) with
          rnsam_entry := (s.rnsam_entry + 1) % UINT_MOD }

/-- Branch `node_type == NODE_TYPE_HN_S` of `cmn_cyprus_init_ctx`. -/
def init_ctx_case_hn_s (hw : Regs) (xp node xp_port : Nat) (s : init_ctx_state) :
    Flow init_ctx_state :=
  let ldid := get_node_logical_id hw node
  if ¬ ldid < s.sys.ctx.hns_count then Flow.fault Fault.assertion
  else
    let entry : hns_info :=
      { hns := node
        node_pos :=
          { pos_x := get_node_pos_x s.sys (get_node_id hw node)
            pos_y := get_node_pos_y s.sys (get_node_id hw node)
            port_num := xp_port
            device_num := get_device_number (get_node_id hw node) }
        xp := xp }
    match table_write s.sys.ctx.hns_table ldid entry with
    | none => Flow.fault Fault.out_of_bounds
    | some table => Flow.next (s.set_ctx { s.sys.ctx with hns_table := table })

/-- Branch `node_type == NODE_TYPE_CCRA` of `cmn_cyprus_init_ctx`. -/
def init_ctx_case_ccra (hw : Regs) (node node_id : Nat) (s : init_ctx_state) :
    Flow init_ctx_state :=
  let ldid := get_node_logical_id hw node
  if ¬ ldid < s.sys.ctx.ccg_node_count then Flow.fault Fault.assertion
  else
    match table_write s.sys.ctx.ccg_ra_reg_table ldid
        { node_id := node_id, ccg_ra_reg := node } with
    | none => Flow.fault Fault.out_of_bounds
    | some table => Flow.next (s.set_ctx { s.sys.ctx with ccg_ra_reg_table := table })

/-- Branch `node_type == NODE_TYPE_CCHA` of `cmn_cyprus_init_ctx`. -/
def init_ctx_case_ccha (hw : Regs) (node node_id : Nat) (s : init_ctx_state) :
    Flow init_ctx_state :=
  let ldid := get_node_logical_id hw node
  if ¬ ldid < s.sys.ctx.ccg_node_count then Flow.fault Fault.assertion
  else
    match table_write s.sys.ctx.ccg_ha_reg_table ldid
        { node_id := node_id, ccg_ha_reg := node } with
    | none => Flow.fault Fault.out_of_bounds
    | some table => Flow.next (s.set_ctx { s.sys.ctx with ccg_ha_reg_table := table })

/-- Branch `node_type == NODE_TYPE_CCLA` of `cmn_cyprus_init_ctx`: the source
has no `fwk_assert` on `ldid` here. -/
def init_ctx_case_ccla (hw : Regs) (node node_id : Nat) (s : init_ctx_state) :
    Flow init_ctx_state :=
  let ldid := get_node_logical_id hw node
  match table_write s.sys.ctx.ccla_reg_table ldid { node_id := node_id, ccla_reg := node } with
  | none => Flow.fault Fault.out_of_bounds
  | some table => Flow.next (s.set_ctx { s.sys.ctx with ccla_reg_table := table })

/-- The chain of `if (node_type == ...)` of `cmn_cyprus_init_ctx` (lines
755-803), taken for an internal child `node` of the crosspoint `xp`. -/
def init_ctx_internal_node (hw : Regs) (xp node node_id xp_port : Nat) (s : init_ctx_state) :
    Flow init_ctx_state :=
  let node_type := get_node_type hw node
  if node_type = NODE_TYPE_RN_SAM then init_ctx_case_rn_sam node s
  else if node_type = NODE_TYPE_HN_S then init_ctx_case_hn_s hw xp node xp_port s
  else if node_type = NODE_TYPE_CCRA then init_ctx_case_ccra hw node node_id s
  else if node_type = NODE_TYPE_CCHA then init_ctx_case_ccha hw node node_id s
  else if node_type = NODE_TYPE_CCLA then init_ctx_case_ccla hw node node_id s
  else Flow.next s

/-- Body of the node loop of `cmn_cyprus_init_ctx` (lines 734-805): one child
`node_idx` of the crosspoint `xp`. -/
def init_ctx_node (hw : Regs) (xp node_idx : Nat) (s : init_ctx_state) :
    Flow init_ctx_state :=
  let node := get_child_node hw s.sys.ctx.config.base xp node_idx
  if is_node_isolated node s.sys.ctx then Flow.next s
  else
    let node_id := get_node_id hw node
    let xp_port :=
      get_port_number (get_child_node_id hw xp node_idx) (get_node_device_port_count hw xp)
    if !is_child_external hw xp node_idx then
      init_ctx_internal_node hw xp node node_id xp_port s
    else Flow.next s

/-- Body of the crosspoint loop of `cmn_cyprus_init_ctx` (lines 724-806). -/
def init_ctx_xp (hw : Regs) (xp_idx : Nat) (s : init_ctx_state) : Flow init_ctx_state :=
  let xp := get_child_node hw s.sys.ctx.config.base s.sys.ctx.root xp_idx
  if get_node_type hw xp ≠ NODE_TYPE_XP then Flow.fault Fault.assertion
  else
    let node_count := get_node_child_count hw xp
    for_loop (init_ctx_node hw xp) (List.range node_count) s

/-- Function `cmn_cyprus_init_ctx`. -/
def cmn_cyprus_init_ctx (hw : Regs) (sys : Machine) : Exec Machine :=
  if get_node_type hw sys.ctx.root ≠ NODE_TYPE_CFG then .error Fault.assertion
  else
    let xp_count := get_node_child_count hw sys.ctx.root
    match for_loop (init_ctx_xp hw) (List.range xp_count) { sys := sys, rnsam_entry := 0 } with
    | Flow.next s => .ok s.sys
    | Flow.ret _ s => .ok s.sys
    | Flow.fault f => .error f

/-- Modelled from the spec: `fwk_mm_calloc` of the framework (`fwk_mm.h`),
which is not among the sources.  "Tables are allocated once, sized exactly from
Discovery's counts": the call yields a table of exactly `num` zeroed entries,
and so never the `NULL` that the callers test for. -/
def fwk_mm_calloc {α : Type} [Inhabited α] (num : Nat) : List α :=
  List.replicate num default

/-- Function `cmn_cyprus_discovery`. -/
def cmn_cyprus_discovery (hw : Regs) (sys : Machine) : Exec Machine :=
  if sys.ctx.is_initialized then .ok sys
  else
    match discover_mesh_topology hw sys with
    | .error f => .error f
    | .ok (status, sys1) =>
      if status ≠ FWK_SUCCESS then .error Fault.trap
      else
        let ctx := sys1.ctx
        let ctx := { ctx with rnsam_table := fwk_mm_calloc ctx.rnsam_count }
        let ctx := { ctx with hns_table := fwk_mm_calloc ctx.hns_count }
        let ctx :=
          if ctx.ccg_node_count ≠ 0 then
            { ctx with
              ccg_ra_reg_table := fwk_mm_calloc ctx.ccg_node_count
              ccg_ha_reg_table := fwk_mm_calloc ctx.ccg_node_count
              ccla_reg_table := fwk_mm_calloc ctx.ccg_node_count }
          else ctx
        cmn_cyprus_init_ctx hw { sys1 with ctx := ctx }

/-! ## `mod_cmn_cyprus.c` -/

def CMN_CYPRUS_MESH_X_MAX : Nat := 12
def CMN_CYPRUS_MESH_Y_MAX : Nat := 12

/-- Function `validate_config_data`: reads `chip_config_data[ctx->chip_id]`. -/
def validate_config_data (ctx : cmn_cyprus_ctx) : Exec Int :=
  match ctx.config_table.chip_config_data[ctx.chip_id]? with
  | none => .error Fault.out_of_bounds
  | some config =>
    if config.base = 0 then .ok FWK_E_DATA
    else if config.mesh_size_x = 0 ∨ config.mesh_size_x > CMN_CYPRUS_MESH_X_MAX then
      .ok FWK_E_DATA
    else if config.mesh_size_y = 0 ∨ config.mesh_size_y > CMN_CYPRUS_MESH_Y_MAX then
      .ok FWK_E_DATA
    else .ok FWK_SUCCESS

/-- Function `cmn_cyprus_start`.  The collaborators that are not part of the
module are arguments: `get_system_info` is the status and the chip id given by
the system-info API, `cmn_cyprus_setup` is the mesh set-up reached through
line 154, `subscribe` is the status of `fwk_notification_subscribe`. -/
def cmn_cyprus_start (hw : Regs) (get_system_info : Int × Nat)
    (cmn_cyprus_setup : Regs → Machine → Exec (Int × Machine)) (subscribe : Int)
    (sys : Machine) : Exec (Int × Machine) :=
  let status := get_system_info.1
  if status ≠ FWK_SUCCESS then .ok (status, sys)
  else
    let ctx := { sys.ctx with chip_id := get_system_info.2 % 2 ^ 8 }
    if ctx.chip_id > ctx.config_table.chip_count then
      .ok (FWK_E_DATA, { sys with ctx := ctx })
    else
      match validate_config_data ctx with
      | .error f => .error f
      | .ok status =>
        if status ≠ FWK_SUCCESS then .ok (status, { sys with ctx := ctx })
        else
          match ctx.config_table.chip_config_data[ctx.chip_id]? with
          | none => .error Fault.out_of_bounds
          | some config =>
            let ctx := { ctx with config := config, root := config.base }
            if config.clock_id_is_none then cmn_cyprus_setup hw { sys with ctx := ctx }
            else .ok (subscribe, { sys with ctx := ctx })

/-! ## Populations of the mesh (specification side)

The walks of `discover_mesh_topology` and `cmn_cyprus_init_ctx` classify a
child of a crosspoint when it is not isolated and its child pointer is not
external.  The functions below count such children directly from the
registers, without the control flow of the walks. -/

/-- The child `node_idx` of `xp` is classified by the walks: its base address
is not in the isolation table and its child pointer is internal. -/
def node_counted (hw : Regs) (ctx : cmn_cyprus_ctx) (xp node_idx : Nat) : Bool :=
  !is_node_isolated (get_child_node hw ctx.config.base xp node_idx) ctx &&
    !is_child_external hw xp node_idx

/-- Contribution of a child to the population of node type `node_type`. -/
def type_weight (node_type : Nat) (hw : Regs) (ctx : cmn_cyprus_ctx) (xp node_idx : Nat) : Nat :=
  if node_counted hw ctx xp node_idx ∧
      get_node_type hw (get_child_node hw ctx.config.base xp node_idx) = node_type then 1
  else 0

/-- Contribution of a child to the RN-F population: an RN-SAM node on a port
whose device type is RN-F stands for one RN-F, or for two behind a CAL. -/
def rnf_weight (hw : Regs) (ctx : cmn_cyprus_ctx) (xp node_idx : Nat) : Nat :=
  let node := get_child_node hw ctx.config.base xp node_idx
  let xp_port := get_port_number (get_node_id hw node) (get_node_device_port_count hw xp)
  if node_counted hw ctx xp node_idx ∧ get_node_type hw node = NODE_TYPE_RN_SAM ∧
      is_device_type_rnf hw xp xp_port = true then
    if is_cal_connected hw xp xp_port then 2 else 1
  else 0

/-- Sum of a per-child contribution over the children of one crosspoint. -/
def xp_population (w : Nat → Nat → Nat) (hw : Regs) (xp : Nat) : Nat :=
  ((List.range (get_node_child_count hw xp)).map (w xp)).sum

/-- Sum of a per-child contribution over all crosspoints below the root. -/
def mesh_population (w : Regs → cmn_cyprus_ctx → Nat → Nat → Nat) (hw : Regs)
    (ctx : cmn_cyprus_ctx) : Nat :=
  ((List.range (get_node_child_count hw ctx.root)).map
    (fun xp_idx =>
      xp_population (w hw ctx) hw (get_child_node hw ctx.config.base ctx.root xp_idx))).sum

/-- Number of non-isolated internal HN-S nodes of the mesh. -/
def hns_population (hw : Regs) (ctx : cmn_cyprus_ctx) : Nat :=
  mesh_population (type_weight NODE_TYPE_HN_S) hw ctx

/-- Number of non-isolated internal RN-D nodes of the mesh. -/
def rnd_population (hw : Regs) (ctx : cmn_cyprus_ctx) : Nat :=
  mesh_population (type_weight NODE_TYPE_RN_D) hw ctx

/-- Number of non-isolated internal RN-I nodes of the mesh. -/
def rni_population (hw : Regs) (ctx : cmn_cyprus_ctx) : Nat :=
  mesh_population (type_weight NODE_TYPE_RN_I) hw ctx

/-- Number of RN-F agents of the mesh. -/
def rnf_population (hw : Regs) (ctx : cmn_cyprus_ctx) : Nat :=
  mesh_population rnf_weight hw ctx

/-- The driver context holds zero counts, as after `cmn_cyprus_init`. -/
def zero_counts (ctx : cmn_cyprus_ctx) : Prop :=
  ctx.hns_count = 0 ∧ ctx.rnsam_count = 0 ∧ ctx.rnd_count = 0 ∧ ctx.rnf_count = 0 ∧
    ctx.rni_count = 0

/-- The node types that the walks assert hold: the root is a configuration
node and each of its children is a crosspoint. -/
def mesh_typed (hw : Regs) (ctx : cmn_cyprus_ctx) : Prop :=
  get_node_type hw ctx.root = NODE_TYPE_CFG ∧
    ∀ xp_idx, xp_idx < get_node_child_count hw ctx.root →
      get_node_type hw (get_child_node hw ctx.config.base ctx.root xp_idx) = NODE_TYPE_XP

/-- Effect of a part of the walk of `discover_mesh_topology` on the counts of
the context, when that part met `whns` HN-S nodes, `wrnd` RN-D nodes, `wrni`
RN-I nodes and `wrnf` RN-F agents. -/
structure walk_effect (whns wrnd wrni wrnf : Nat) (d d1 : discover_state) : Prop where
  config : d1.sys.ctx.config = d.sys.ctx.config
  root : d1.sys.ctx.root = d.sys.ctx.root
  hns : d1.sys.ctx.hns_count = d.sys.ctx.hns_count + whns
  hns_le : d.sys.ctx.hns_count ≤ MAX_HNS_COUNT → d1.sys.ctx.hns_count ≤ MAX_HNS_COUNT
  rnd : d1.sys.ctx.rnd_count = d.sys.ctx.rnd_count + wrnd
  rnd_le : d.sys.ctx.rnd_count ≤ MAX_RND_COUNT → d1.sys.ctx.rnd_count ≤ MAX_RND_COUNT
  rni : d1.sys.ctx.rni_count = d.sys.ctx.rni_count + wrni
  rni_le : d.sys.ctx.rni_count ≤ MAX_RNI_COUNT → d1.sys.ctx.rni_count ≤ MAX_RNI_COUNT
  rnf : d1.sys.ctx.rnf_count % UINT_MOD = (d.sys.ctx.rnf_count + wrnf) % UINT_MOD
  flag : d1.sys.ctx.is_initialized = d.sys.ctx.is_initialized

/-- What a part of the walk of `cmn_cyprus_init_ctx` leaves unchanged in the
context: the configuration, the root, the counts, the `is_initialized` flag
and the allocated length of every table. -/
structure init_ctx_keeps (s s1 : init_ctx_state) : Prop where
  config : s1.sys.ctx.config = s.sys.ctx.config
  root : s1.sys.ctx.root = s.sys.ctx.root
  flag : s1.sys.ctx.is_initialized = s.sys.ctx.is_initialized
  hns_count : s1.sys.ctx.hns_count = s.sys.ctx.hns_count
  rnsam_count : s1.sys.ctx.rnsam_count = s.sys.ctx.rnsam_count
  ccg_node_count : s1.sys.ctx.ccg_node_count = s.sys.ctx.ccg_node_count
  hns_len : s1.sys.ctx.hns_table.length = s.sys.ctx.hns_table.length
  rnsam_len : s1.sys.ctx.rnsam_table.length = s.sys.ctx.rnsam_table.length
  ra_len : s1.sys.ctx.ccg_ra_reg_table.length = s.sys.ctx.ccg_ra_reg_table.length
  ha_len : s1.sys.ctx.ccg_ha_reg_table.length = s.sys.ctx.ccg_ha_reg_table.length
  la_len : s1.sys.ctx.ccla_reg_table.length = s.sys.ctx.ccla_reg_table.length

/-! ## Concrete meshes used in the worked examples -/

/-- Register file holding the listed (address, value) pairs and zero
elsewhere. -/
def example_regs (l : List (Nat × Nat)) : Regs := fun a => (l.lookup a).getD 0

/-- Value of a `NODE_INFO` register with the given node type, node id,
logical id and device port count. -/
def example_node_info (node_type node_id ldid ports : Nat) : Nat :=
  node_type ||| (node_id <<< 16) ||| (ldid <<< 32) ||| (ports <<< 48)

/-- Root configuration node at `0x1000` with one crosspoint at `0x11000`
(2 device ports, mesh position (0, 0)). -/
def example_root : List (Nat × Nat) :=
  [(0x1000, example_node_info NODE_TYPE_CFG 0 0 0), (0x1080, 1), (0x1100, 0x10000),
   (0x11000, example_node_info NODE_TYPE_XP 0 0 2)]

/-- Mesh with one HN-S node (logical id 0) and one RN-SAM node. -/
def example_mesh_a : Regs :=
  example_regs (example_root ++
    [(0x11080, 2), (0x11100, 0x20000), (0x11108, 0x30000),
     (0x21000, example_node_info NODE_TYPE_HN_S 0 0 0),
     (0x31000, example_node_info NODE_TYPE_RN_SAM 4 0 0)])

/-- Mesh with three HN-S nodes (logical ids 0, 1, 2) at `0x21000`, `0x31000`
and `0x41000`. -/
def example_mesh_b : Regs :=
  example_regs (example_root ++
    [(0x11080, 3), (0x11100, 0x20000), (0x11108, 0x30000), (0x11110, 0x40000),
     (0x21000, example_node_info NODE_TYPE_HN_S 0 0 0),
     (0x31000, example_node_info NODE_TYPE_HN_S 4 1 0),
     (0x41000, example_node_info NODE_TYPE_HN_S 1 2 0)])

/-- Mesh with two HN-S nodes (logical ids 0, 1) at `0x21000` and `0x31000`; the
second one is on port 1, device 0 of the crosspoint (0, 0). -/
def example_mesh_c : Regs :=
  example_regs (example_root ++
    [(0x11080, 2), (0x11100, 0x20000), (0x11108, 0x30000),
     (0x21000, example_node_info NODE_TYPE_HN_S 0 0 0),
     (0x31000, example_node_info NODE_TYPE_HN_S 4 1 0)])

/-- Mesh with one HN-S node (logical id 0), one CCRA node (logical id 0) and one
CCLA node whose logical id is 1. -/
def example_mesh_d : Regs :=
  example_regs (example_root ++
    [(0x11080, 3), (0x11100, 0x20000), (0x11108, 0x30000), (0x11110, 0x40000),
     (0x21000, example_node_info NODE_TYPE_HN_S 0 0 0),
     (0x31000, example_node_info NODE_TYPE_CCRA 4 0 0),
     (0x41000, example_node_info NODE_TYPE_CCLA 4 1 0)])

/-- Chip configuration of the examples: base `0x1000`, a 2 x 2 mesh, no CAL
mode, and the given isolation table. -/
def example_config (isolated : List isolated_hns_node_info) : mod_cmn_cyprus_config :=
  { base := 0x1000, mesh_size_x := 2, mesh_size_y := 2, clock_id_is_none := true
    hns_cal_mode := false, isolated_hns_table := isolated }

/-- State after `cmn_cyprus_init` and the first lines of `cmn_cyprus_start`:
a zeroed context in which `config` and `root` are set, and zeroed writable
registers. -/
def example_system (isolated : List isolated_hns_node_info) : Machine :=
  { ctx :=
      { (default : cmn_cyprus_ctx) with
        config_table := { chip_config_data := [example_config isolated], chip_count := 1 }
        config := example_config isolated
        root := 0x1000 }
    encoding_bits := 0
    mask_bits := 0
    rw := fun _ => 0 }

/-- State like `example_system []` whose only chip configuration declares a
mesh 13 crosspoints wide. -/
def example_system_wide : Machine :=
  { example_system [] with
    ctx :=
      { (example_system []).ctx with
        config_table :=
          { chip_config_data := [{ example_config [] with mesh_size_x := 13 }]
            chip_count := 1 } } }

/-- Store of a 64-bit value into the writable register at byte address
`addr`. -/
def reg_write (rw : Regs) (addr v : Nat) : Regs :=
  fun a => if a = addr then v % 2 ^ 64 else rw a

/-- Complement `~m` of a `uint64_t` value. -/
def not64 (m : Nat) : Nat := 2 ^ 64 - 1 - m % 2 ^ 64

/-- Read of entry `idx` of a table given by a pointer: a fault past the
allocated length. -/
def table_read {α : Type} (table : List α) (idx : Nat) : Exec α :=
  match table[idx]? with
  | some v => .ok v
  | none => .error Fault.out_of_bounds

/-- Modelled from the spec: the macro `fwk_unexpected()` of the framework
header `fwk_assert.h`, which is not among the sources.  The spec calls the
condition it marks in `map_io_region` "logged, not fatal": execution goes on
with the next statement. -/
def fwk_unexpected : Exec Unit := .ok ()

/-- A statement `if (cond) { fwk_unexpected(); }` (the log calls that come
with it are left out). -/
def unexpected_if (cond : Bool) : Exec Unit :=
  if cond then fwk_unexpected else .ok ()

/-- The function `fwk_trap()`. -/
def fwk_trap {α : Type} : Exec α := .error Fault.trap

/-- Loop `for (uint8_t i = ...; cond(i); i++) body` from index `i` on.  The
index wraps at 256, so a bound above 255 never ends the loop; `fuel` is the
number of loop tests the model follows before it gives up with
`Fault.out_of_fuel`. -/
def for_uint8 {σ : Type} (cond : Nat → Bool) (body : σ → Nat → Exec σ) :
    Nat → Nat → σ → Exec σ
  | 0, _, _ => .error Fault.out_of_fuel
  | fuel + 1, i, s =>
    if cond i then
      match body s i with
      | .ok s1 => for_uint8 cond body fuel ((i + 1) % 256) s1
      | .error f => .error f
    else .ok s

/-! ## `cmn_cyprus_reg.h`: layout of `struct cmn_cyprus_rnsam_reg` -/

/-- Byte offset of `UNIT_INFO[0]` (read-only). -/
def RNSAM_UNIT_INFO_OFFSET : Nat := 0x900
/-- Byte offset of `NON_HASH_MEM_REGION[0]`. -/
def NON_HASH_MEM_REGION_OFFSET : Nat := 0xC00
/-- Byte offset of `NON_HASH_MEM_REGION_CFG2[0]`. -/
def NON_HASH_MEM_REGION_CFG2_OFFSET : Nat := 0xCC0
/-- Byte offset of `NON_HASH_TGT_NODEID[0]`. -/
def NON_HASH_TGT_NODEID_OFFSET : Nat := 0xD80
/-- Byte offset of `SYS_CACHE_GRP_REGION[0]`. -/
def SYS_CACHE_GRP_REGION_OFFSET : Nat := 0xE00
/-- Byte offset of `SYS_CACHE_GRP_HN_COUNT`. -/
def SYS_CACHE_GRP_HN_COUNT_OFFSET : Nat := 0xEA0
/-- Byte offset of `SYS_CACHE_GRP_SN_ATTR[0]`. -/
def SYS_CACHE_GRP_SN_ATTR_OFFSET : Nat := 0xEB0
/-- Byte offset of `SYS_CACHE_GRP_HN_NODEID[0]`. -/
def SYS_CACHE_GRP_HN_NODEID_OFFSET : Nat := 0xF00
/-- Byte offset of `SYS_CACHE_GRP_SN_NODEID[0]`. -/
def SYS_CACHE_GRP_SN_NODEID_OFFSET : Nat := 0x1000
/-- Byte offset of `STATUS`. -/
def RNSAM_STATUS_OFFSET : Nat := 0x1100
/-- Byte offset of `SYS_CACHE_GRP_CAL_MODE`. -/
def SYS_CACHE_GRP_CAL_MODE_OFFSET : Nat := 0x1120
/-- Byte offset of `SYS_CACHE_GRP_SN_SAM_CFG[0]`. -/
def SYS_CACHE_GRP_SN_SAM_CFG_OFFSET : Nat := 0x1140
/-- Byte offset of `CML_PORT_AGGR_MODE_CTRL_REG[0]`. -/
def RNSAM_CML_PORT_AGGR_MODE_CTRL_REG_OFFSET : Nat := 0x11A0
/-- Byte offset of `CML_PORT_AGGR_GRP_REG[0]` of the RN-SAM. -/
def RNSAM_CML_PORT_AGGR_GRP_REG_OFFSET : Nat := 0x11F0
/-- Byte offset of `CML_PORT_AGGR_CTRL_REG[0]`. -/
def RNSAM_CML_PORT_AGGR_CTRL_REG_OFFSET : Nat := 0x1208
/-- Byte offset of `NON_HASH_MEM_REGION_GRP2[0]`. -/
def NON_HASH_MEM_REGION_GRP2_OFFSET : Nat := 0x20C0
/-- Byte offset of `NON_HASH_MEM_REGION_CFG2_GRP2[0]`. -/
def NON_HASH_MEM_REGION_CFG2_GRP2_OFFSET : Nat := 0x24C0
/-- Byte offset of `CML_CPAG_BASE_INDX_GRP_REG[0]`. -/
def CML_CPAG_BASE_INDX_GRP_REG_OFFSET : Nat := 0x2B00
/-- Byte offset of `HASHED_TGT_GRP_CFG2_REGION[0]`. -/
def HASHED_TGT_GRP_CFG2_REGION_OFFSET : Nat := 0x3100
/-- Byte offset of `HASHED_TARGET_GRP_HASH_CNTL[0]`. -/
def HASHED_TARGET_GRP_HASH_CNTL_OFFSET : Nat := 0x3400
/-- Size in bytes of `struct cmn_cyprus_rnsam_reg`. -/
def RNSAM_REG_SIZE : Nat := 0x3500

/-- Constant `NON_HASH_MEM_REG_COUNT`. -/
def NON_HASH_MEM_REG_COUNT : Nat := 24

/-! ## `cmn_cyprus_rnsam.c`: stall, unstall and region registers -/

/-- Constant `MAX_NON_HASH_REGION_COUNT`. -/
def MAX_NON_HASH_REGION_COUNT : Nat := 64
/-- Constant `MAX_SCG_COUNT` of `cmn_cyprus_ctx.h`. -/
def MAX_SCG_COUNT : Nat := 4
/-- Constant `CMN_CYPRUS_RNSAM_STATUS_UNSTALL`. -/
def CMN_CYPRUS_RNSAM_STATUS_UNSTALL : Nat := 0x02
/-- Constant `CMN_CYPRUS_RNSAM_STATUS_USE_DEFAULT_TARGET_ID`. -/
def CMN_CYPRUS_RNSAM_STATUS_USE_DEFAULT_TARGET_ID : Nat := 0x01
/-- Constant `CMN_CYPRUS_RNSAM_NON_HASH_TGT_NODEID_ENTRY_MASK`. -/
def CMN_CYPRUS_RNSAM_NON_HASH_TGT_NODEID_ENTRY_MASK : Nat := 0x0FFF
/-- Constant `CMN_CYPRUS_RNSAM_REGION_ENTRY_VALID`. -/
def CMN_CYPRUS_RNSAM_REGION_ENTRY_VALID : Nat := 0x01
/-- Value `SAM_TYPE_NON_HASH_MEM_REGION` of `enum sam_type`. -/
def SAM_TYPE_NON_HASH_MEM_REGION : Nat := 0
/-- Value `SAM_TYPE_SYS_CACHE_GRP_REGION` of `enum sam_type`. -/
def SAM_TYPE_SYS_CACHE_GRP_REGION : Nat := 1
/-- Value `SAM_NODE_TYPE_HN_F` of `enum sam_node_type`. -/
def SAM_NODE_TYPE_HN_F : Nat := 0
/-- Value `SAM_NODE_TYPE_HN_I` of `enum sam_node_type`. -/
def SAM_NODE_TYPE_HN_I : Nat := 1
/-- Value `SAM_NODE_TYPE_CXRA` of `enum sam_node_type`. -/
def SAM_NODE_TYPE_CXRA : Nat := 2

/-- Loop body of `rnsam_stall`: clear the unstall bit and set the
use-default-target bit of one `STATUS` register. -/
def rnsam_stall_body (ctx : cmn_cyprus_ctx) (rw : Regs) (rnsam_idx : Nat) : Exec Regs := do
  let rnsam ← table_read ctx.rnsam_table rnsam_idx
  let addr := rnsam + RNSAM_STATUS_OFFSET
  return reg_write rw addr
    ((rw addr &&& not64 CMN_CYPRUS_RNSAM_STATUS_UNSTALL) |||
      CMN_CYPRUS_RNSAM_STATUS_USE_DEFAULT_TARGET_ID)

/-- Function `rnsam_stall`. -/
def rnsam_stall (sys : Machine) : Exec Machine := do
  let rw ← (List.range sys.ctx.rnsam_count).foldlM (rnsam_stall_body sys.ctx) sys.rw
  return { sys with rw := rw, trace := sys.trace ++ [Event.stall] }

/-- Loop body of `rnsam_unstall`: set the unstall bit and clear the
use-default-target bit of one `STATUS` register. -/
def rnsam_unstall_body (ctx : cmn_cyprus_ctx) (rw : Regs) (rnsam_idx : Nat) : Exec Regs := do
  let rnsam ← table_read ctx.rnsam_table rnsam_idx
  let addr := rnsam + RNSAM_STATUS_OFFSET
  return reg_write rw addr
    ((rw addr ||| CMN_CYPRUS_RNSAM_STATUS_UNSTALL) &&&
      not64 CMN_CYPRUS_RNSAM_STATUS_USE_DEFAULT_TARGET_ID)

/-- Function `rnsam_unstall`. -/
def rnsam_unstall (sys : Machine) : Exec Machine := do
  let rw ← (List.range sys.ctx.rnsam_count).foldlM (rnsam_unstall_body sys.ctx) sys.rw
  return { sys with rw := rw, trace := sys.trace ++ [Event.unstall] }

/-- Function `get_rnsam_nonhash_range_comp_en_mode`. -/
def get_rnsam_nonhash_range_comp_en_mode (hw : Regs) (rnsam : Nat) : Bool :=
  (hw (rnsam + RNSAM_UNIT_INFO_OFFSET) &&& 0x80000000) >>> 31 != 0

/-- Function `get_rnsam_htg_range_comp_en_mode` of `cmn_cyprus_utils.c`. -/
def get_rnsam_htg_range_comp_en_mode (hw : Regs) (rnsam : Nat) : Bool :=
  (hw (rnsam + RNSAM_UNIT_INFO_OFFSET) &&& 0x8000000) >>> 27 != 0

/-- Function `get_rnsam_htg_rcomp_lsb_bit_pos` of `cmn_cyprus_utils.c`. -/
def get_rnsam_htg_rcomp_lsb_bit_pos (hw : Regs) (rnsam : Nat) : Nat :=
  hw (rnsam + RNSAM_UNIT_INFO_OFFSET + 8) &&& 0x1F

/-- Function `get_rnsam_nonhash_rcomp_lsb_bit_pos` of `cmn_cyprus_utils.c`. -/
def get_rnsam_nonhash_rcomp_lsb_bit_pos (hw : Regs) (rnsam : Nat) : Nat :=
  (hw (rnsam + RNSAM_UNIT_INFO_OFFSET + 8) &&& 0x3E0) >>> 5

/-- Function `get_rnsam_lsb_addr_mask` of `cmn_cyprus_utils.c`:
`(1 << lsb_bit_pos) - 1`, the bit position being at most 31. -/
def get_rnsam_lsb_addr_mask (hw : Regs) (rnsam sam_type : Nat) : Nat :=
  let lsb_bit_pos :=
    if sam_type = SAM_TYPE_NON_HASH_MEM_REGION then get_rnsam_nonhash_rcomp_lsb_bit_pos hw rnsam
    else get_rnsam_htg_rcomp_lsb_bit_pos hw rnsam
  (1 <<< lsb_bit_pos) - 1

/-- Function `get_non_hashed_region_registers`: the byte addresses of the
region register and of its `CFG2` companion. -/
def get_non_hashed_region_registers (rnsam region_idx : Nat) : Exec (Nat × Nat) := do
  fwk_assert (decide (region_idx < MAX_NON_HASH_REGION_COUNT))
  if region_idx < NON_HASH_MEM_REG_COUNT then
    return (rnsam + NON_HASH_MEM_REGION_OFFSET + 8 * region_idx,
      rnsam + NON_HASH_MEM_REGION_CFG2_OFFSET + 8 * region_idx)
  else
    return (rnsam + NON_HASH_MEM_REGION_GRP2_OFFSET + 8 * (region_idx - NON_HASH_MEM_REG_COUNT),
      rnsam + NON_HASH_MEM_REGION_CFG2_GRP2_OFFSET + 8 * (region_idx - NON_HASH_MEM_REG_COUNT))

/-- Function `get_scg_region_registers`. -/
def get_scg_region_registers (rnsam region_idx : Nat) : Exec (Nat × Nat) := do
  fwk_assert (decide (region_idx < MAX_SCG_COUNT))
  return (rnsam + SYS_CACHE_GRP_REGION_OFFSET + 8 * region_idx,
    rnsam + HASHED_TGT_GRP_CFG2_REGION_OFFSET + 8 * region_idx)

/-- The alignment check of `configure_rnsam_region` (lines 250-254):
`base % size` is computed only in size-encoded mode; a misaligned base is
reported with `fwk_unexpected`. -/
def check_region_alignment (prog_start_and_end_addr : Bool) (base size : Nat) : Exec Unit :=
  if prog_start_and_end_addr then .ok ()
  else if size = 0 then .error Fault.division_by_zero
  else if base % size ≠ 0 then fwk_unexpected
  else .ok ()

/-- The register writes of `configure_rnsam_region` (lines 259-276). -/
def write_rnsam_region (prog_start_and_end_addr : Bool) (lsb_addr_mask reg reg_cfg2 : Nat)
    (base size node_type : Nat) (rw : Regs) : Exec Regs :=
  let value := CMN_CYPRUS_RNSAM_REGION_ENTRY_VALID ||| (node_type <<< 2)
  if prog_start_and_end_addr then
    let value := value ||| (base &&& not64 lsb_addr_mask)
    let rw := reg_write rw reg_cfg2 (((base + size + 2 ^ 64 - 1) % 2 ^ 64) &&& not64 lsb_addr_mask)
    .ok (reg_write rw reg value)
  else do
    let encoded ← sam_encode_region_size size
    let value := value ||| (encoded <<< 56)
    let value := value ||| ((base / SAM_GRANULARITY) <<< 26)
    return reg_write rw reg value

/-- Function `configure_rnsam_region`. -/
def configure_rnsam_region (hw : Regs) (rnsam region_idx base size node_type sam_type : Nat)
    (rw : Regs) : Exec Regs := do
  fwk_assert (rnsam != 0)
  if sam_type ≠ SAM_TYPE_NON_HASH_MEM_REGION ∧ sam_type ≠ SAM_TYPE_SYS_CACHE_GRP_REGION then
    fwk_unexpected
    return rw
  else
    let regs ←
      (if sam_type = SAM_TYPE_NON_HASH_MEM_REGION then
        get_non_hashed_region_registers rnsam region_idx
      else get_scg_region_registers rnsam region_idx)
    let prog_start_and_end_addr :=
      if sam_type = SAM_TYPE_NON_HASH_MEM_REGION then get_rnsam_nonhash_range_comp_en_mode hw rnsam
      else get_rnsam_htg_range_comp_en_mode hw rnsam
    check_region_alignment prog_start_and_end_addr base size
    let lsb_addr_mask := get_rnsam_lsb_addr_mask hw rnsam sam_type
    write_rnsam_region prog_start_and_end_addr lsb_addr_mask regs.1 regs.2 base size node_type rw

/-- Function `set_non_hashed_region_target`. -/
def set_non_hashed_region_target (rnsam region_idx node_id : Nat) (rw : Regs) : Regs :=
  let register_idx := region_idx / 4
  let bit_pos := 12 * (region_idx % 4)
  let addr := rnsam + NON_HASH_TGT_NODEID_OFFSET + 8 * register_idx
  let rw1 := reg_write rw addr
    (rw addr &&& not64 (CMN_CYPRUS_RNSAM_NON_HASH_TGT_NODEID_ENTRY_MASK <<< bit_pos))
  reg_write rw1 addr
    (rw1 addr ||| ((node_id &&& CMN_CYPRUS_RNSAM_NON_HASH_TGT_NODEID_ENTRY_MASK) <<< bit_pos))

/-- Loop body of `configure_non_hashed_region` (one RN-SAM). -/
def configure_non_hashed_region_body (hw : Regs) (ctx : cmn_cyprus_ctx)
    (base region_size region_idx target_node_id : Nat) (rw : Regs) (idx : Nat) : Exec Regs := do
  let rnsam ← table_read ctx.rnsam_table idx
  let rw ← configure_rnsam_region hw rnsam region_idx base region_size SAM_NODE_TYPE_HN_I
    SAM_TYPE_NON_HASH_MEM_REGION rw
  return set_non_hashed_region_target rnsam region_idx target_node_id rw

/-- Function `configure_non_hashed_region`; the base is offset by
`chip_addr_space * chip_id` in 64-bit arithmetic. -/
def configure_non_hashed_region (hw : Regs) (ctx : cmn_cyprus_ctx)
    (region_base region_size region_idx target_node_id : Nat) (rw : Regs) : Exec Regs := do
  unexpected_if (decide (region_idx ≥ MAX_NON_HASH_REGION_COUNT))
  let base := ((ctx.config.chip_addr_space * ctx.chip_id) % 2 ^ 64 + region_base) % 2 ^ 64
  (List.range ctx.rnsam_count).foldlM
    (configure_non_hashed_region_body hw ctx base region_size region_idx target_node_id) rw

/-! ## `cmn_cyprus_rnsam.c`: system cache groups -/

/-- Function `set_htg_target_hn_node`; the register is updated with `+=`. -/
def set_htg_target_hn_node (rnsam hn_node_id hn_node_id_idx : Nat) (rw : Regs) : Exec Regs := do
  let register_idx := hn_node_id_idx / 4
  let bit_pos := 12 * (hn_node_id_idx % 4)
  fwk_assert (decide (register_idx < 16))
  let addr := rnsam + SYS_CACHE_GRP_HN_NODEID_OFFSET + 8 * register_idx
  return reg_write rw addr (rw addr + (hn_node_id <<< bit_pos) % 2 ^ 64)

/-- Function `set_htg_target_sn_node`; the register is updated with `+=`. -/
def set_htg_target_sn_node (rnsam sn_node_id sn_node_id_idx : Nat) (rw : Regs) : Exec Regs := do
  let register_idx := sn_node_id_idx / 4
  let bit_pos := 12 * (sn_node_id_idx % 4)
  fwk_assert (decide (register_idx < 32))
  let addr := rnsam + SYS_CACHE_GRP_SN_NODEID_OFFSET + 8 * register_idx
  return reg_write rw addr (rw addr + (sn_node_id <<< bit_pos) % 2 ^ 64)

/-- Local variables of `configure_scg_target_nodes` that its loop changes,
with the registers. -/
structure scg_target_state where
  rw : Regs
  hns_count_in_scg : Nat
  hn_node_id_idx : Nat

/-- Loop body of `configure_scg_target_nodes` (one entry of the HN-S
table). -/
def configure_scg_target_node (hw : Regs) (ctx : cmn_cyprus_ctx) (rnsam : Nat)
    (region : mod_cmn_cyprus_mem_region_map) (st : scg_target_state) (hns_idx : Nat) :
    Exec scg_target_state := do
  let entry ← table_read ctx.hns_table hns_idx
  if entry.hns = 0 then return st
  else
    let hns_nodeid := get_node_id hw entry.hns
    let hns_ldid := get_node_logical_id hw entry.hns
    if ctx.config.hns_cal_mode = true ∧ hns_nodeid % 2 = 1 then return st
    else if is_hns_inside_rect entry.node_pos region then
      let rw ← set_htg_target_hn_node rnsam hns_nodeid st.hn_node_id_idx st.rw
      let sn_node_id ← table_read ctx.config.snf_table hns_ldid
      let rw ← set_htg_target_sn_node rnsam sn_node_id st.hn_node_id_idx rw
      return { rw := rw
               hns_count_in_scg := (st.hns_count_in_scg + 1) % UINT_MOD
               hn_node_id_idx := (st.hn_node_id_idx + 1) % UINT_MOD }
    else return st

/-- Function `configure_scg_target_nodes`; its loop index `hns_idx` is a
`uint8_t`. -/
def configure_scg_target_nodes (fuel : Nat) (hw : Regs) (ctx : cmn_cyprus_ctx) (rnsam : Nat)
    (region : mod_cmn_cyprus_mem_region_map) (scg_idx : Nat) (rw : Regs) : Exec Regs := do
  let st ← for_uint8 (fun hns_idx => decide (hns_idx < ctx.hns_count))
    (configure_scg_target_node hw ctx rnsam region) fuel 0
    { rw := rw, hns_count_in_scg := 0, hn_node_id_idx := 0 }
  let addr := rnsam + SYS_CACHE_GRP_HN_COUNT_OFFSET
  return reg_write st.rw addr (st.rw addr ||| (st.hns_count_in_scg <<< (8 * scg_idx)) % 2 ^ 64)

/-- Function `configure_scg_cal_mode`: the flag `scg_enabled[scg_idx]`
multiplies the enable bit. -/
def configure_scg_cal_mode (ctx : cmn_cyprus_ctx) (rnsam scg_idx : Nat) (rw : Regs) :
    Exec Regs := do
  let enabled ← table_read ctx.scg_enabled scg_idx
  let addr := rnsam + SYS_CACHE_GRP_CAL_MODE_OFFSET
  return reg_write rw addr
    (rw addr ||| ((if enabled then 1 else 0) * ((0x01 <<< (scg_idx * 16)) % 2 ^ 64)))

/-- Left shift of an `unsigned int` (32 bits). -/
def shl_uint (x n : Nat) : Nat := (x <<< n) % UINT_MOD

/-- Function `configure_scg_hier_hashing`.  `HASHED_TARGET_GRP_HASH_CNTL` is
assigned four times in a row, so the last value stays. -/
def configure_scg_hier_hashing (ctx : cmn_cyprus_ctx) (rnsam scg_idx : Nat)
    (hier_hash_cfg : mod_cmn_cyprus_hierarchical_hashing) (rw : Regs) : Exec Regs := do
  let hns_count := if ctx.config.hns_cal_mode then ctx.hns_count / 2 else ctx.hns_count
  let hns_cluster_count := hier_hash_cfg.hns_cluster_count
  if hns_cluster_count = 0 ∨ ctx.scg_count = 0 then .error Fault.division_by_zero
  else
    let hns_count_per_cluster := (hns_count / hns_cluster_count) / ctx.scg_count
    let cntl := rnsam + HASHED_TARGET_GRP_HASH_CNTL_OFFSET + 8 * scg_idx
    let rw := reg_write rw cntl (0x01 <<< 2)
    let rw := reg_write rw cntl (shl_uint (fwk_math_log2 hns_count_per_cluster) 3)
    let rw := reg_write rw cntl (shl_uint hier_hash_cfg.hns_cluster_count 8)
    let rw := reg_write rw cntl (shl_uint hns_count_per_cluster 16)
    let attr := rnsam + SYS_CACHE_GRP_SN_ATTR_OFFSET + 8 * (scg_idx / 4)
    let rw := reg_write rw attr
      (rw attr ||| shl_uint hier_hash_cfg.sn_mode ((4 + scg_idx * 16) % 64))
    let cfg := rnsam + SYS_CACHE_GRP_SN_SAM_CFG_OFFSET + 8 * (scg_idx / 2)
    let rw := reg_write rw cfg
      (rw cfg ||| shl_uint hier_hash_cfg.top_address_bit0 ((0 + scg_idx * 24) % 64))
    let rw := reg_write rw cfg
      (rw cfg ||| shl_uint hier_hash_cfg.top_address_bit1 ((8 + scg_idx * 24) % 64))
    let rw := reg_write rw cfg
      (rw cfg ||| shl_uint hier_hash_cfg.top_address_bit2 ((16 + scg_idx * 24) % 64))
    return rw

/-- Loop body of `configure_scg_region` (one RN-SAM). -/
def configure_scg_region_body (fuel : Nat) (hw : Regs) (ctx : cmn_cyprus_ctx)
    (scg_region : mod_cmn_cyprus_mem_region_map) (scg_idx : Nat) (rw : Regs) (idx : Nat) :
    Exec Regs := do
  let rnsam ← table_read ctx.rnsam_table idx
  let rw ← configure_rnsam_region hw rnsam scg_idx scg_region.base scg_region.size
    SAM_NODE_TYPE_HN_F SAM_TYPE_SYS_CACHE_GRP_REGION rw
  let rw ← configure_scg_target_nodes fuel hw ctx rnsam scg_region scg_idx rw
  let rw ← (if ctx.config.hns_cal_mode then configure_scg_cal_mode ctx rnsam scg_idx rw
    else .ok rw)
  if ctx.config.hierarchical_hashing_enable then
    configure_scg_hier_hashing ctx rnsam scg_idx ctx.config.hierarchical_hashing_config rw
  else .ok rw

/-- Function `configure_scg_region`; the flag `scg_enabled[scg_idx]` is set
after the loop. -/
def configure_scg_region (fuel : Nat) (hw : Regs)
    (scg_region : mod_cmn_cyprus_mem_region_map) (scg_idx : Nat) (sys : Machine) :
    Exec Machine := do
  unexpected_if (decide (scg_idx ≥ MAX_SCG_COUNT))
  let rw ← (List.range sys.ctx.rnsam_count).foldlM
    (configure_scg_region_body fuel hw sys.ctx scg_region scg_idx) sys.rw
  match table_write sys.ctx.scg_enabled scg_idx true with
  | some flags => return { sys with ctx := { sys.ctx with scg_enabled := flags }, rw := rw }
  | none => .error Fault.out_of_bounds

/-- Function `program_rnsam_region`. -/
def program_rnsam_region (fuel : Nat) (hw : Regs) (region : mod_cmn_cyprus_mem_region_map)
    (sys : Machine) : Exec Machine :=
  if region.type = MOD_CMN_CYPRUS_MEM_REGION_TYPE_SYSCACHE_SUB then .ok sys
  else if region.type = MOD_CMN_CYPRUS_MEM_REGION_TYPE_IO then do
    let region_idx := sys.ctx.io_region_count
    let ctx := { sys.ctx with io_region_count := (sys.ctx.io_region_count + 1) % UINT_MOD }
    let rw ← configure_non_hashed_region hw ctx region.base region.size region_idx
      region.node_id sys.rw
    return { sys with ctx := ctx, rw := rw }
  else if region.type = MOD_CMN_CYPRUS_MEM_REGION_TYPE_SYSCACHE then
    let region_idx := sys.ctx.scg_count
    let ctx := { sys.ctx with scg_count := (sys.ctx.scg_count + 1) % UINT_MOD }
    configure_scg_region fuel hw region region_idx { sys with ctx := ctx }
  else fwk_trap

/-! ## `cmn_cyprus_rnsam.c`: the exported operation `map_io_region` -/

/-- Function `get_non_hashed_region_target_id`. -/
def get_non_hashed_region_target_id (region_idx rnsam : Nat) (rw : Regs) : Nat :=
  let register_idx := region_idx / 4
  let bit_pos := 12 * (region_idx % 4)
  ((rw (rnsam + NON_HASH_TGT_NODEID_OFFSET + 8 * register_idx) % 2 ^ 64) >>> bit_pos) &&&
    CMN_CYPRUS_RNSAM_NON_HASH_TGT_NODEID_ENTRY_MASK

/-- Result of `is_non_hashed_region_mapped`: the returned flag, the value
stored through `region_index`, and the descriptor `*mmap`, whose `node_id` the
function masks in place. -/
structure region_lookup where
  found : Bool
  region_index : Nat
  mmap : mod_cmn_cyprus_mem_region_map
  deriving DecidableEq, Repr

/-- The loop of `is_non_hashed_region_mapped` over the listed slot numbers.
The slot register is read as `NON_HASH_MEM_REGION[idx]` whatever `idx` is. -/
def is_non_hashed_region_mapped_loop (rnsam lsb_addr_mask : Nat) (rw : Regs)
    (region_index : Nat) :
    List Nat → mod_cmn_cyprus_mem_region_map → Exec region_lookup
  | [], mmap => .ok { found := false, region_index := region_index, mmap := mmap }
  | idx :: rest, mmap =>
    let reg := rnsam + NON_HASH_MEM_REGION_OFFSET + 8 * idx
    if mmap.base = (rw reg &&& not64 lsb_addr_mask) then
      let programmed_node_id := get_non_hashed_region_target_id idx rnsam rw
      let mmap := { mmap with
        node_id := mmap.node_id &&& CMN_CYPRUS_RNSAM_NON_HASH_TGT_NODEID_ENTRY_MASK }
      if programmed_node_id = mmap.node_id then
        .ok { found := true, region_index := idx, mmap := mmap }
      else do
        fwk_unexpected
        is_non_hashed_region_mapped_loop rnsam lsb_addr_mask rw region_index rest mmap
    else is_non_hashed_region_mapped_loop rnsam lsb_addr_mask rw region_index rest mmap

/-- Slot numbers visited by `for (idx = io_region_count - 1; idx >= 0; idx--)`
for an `int idx`: none when the converted start value is negative. -/
def mapped_region_indices (io_region_count : Nat) : List Nat :=
  let start := (io_region_count + UINT_MOD - 1) % UINT_MOD
  if start < 2 ^ 31 then (List.range (start + 1)).reverse else []

/-- Function `is_non_hashed_region_mapped`; `region_index` is the value the
caller's variable holds before the call. -/
def is_non_hashed_region_mapped (hw : Regs) (ctx : cmn_cyprus_ctx) (rnsam : Nat)
    (mmap : mod_cmn_cyprus_mem_region_map) (region_index : Nat) (rw : Regs) :
    Exec region_lookup :=
  let lsb_addr_mask := get_rnsam_lsb_addr_mask hw rnsam SAM_TYPE_NON_HASH_MEM_REGION
  is_non_hashed_region_mapped_loop rnsam lsb_addr_mask rw region_index
    (mapped_region_indices ctx.io_region_count) mmap

/-- Loop body of `update_io_region` (one RN-SAM). -/
def update_io_region_body (hw : Regs) (ctx : cmn_cyprus_ctx)
    (mmap : mod_cmn_cyprus_mem_region_map) (region_idx : Nat) (rw : Regs) (idx : Nat) :
    Exec Regs := do
  let rnsam ← table_read ctx.rnsam_table idx
  configure_rnsam_region hw rnsam region_idx mmap.base mmap.size SAM_NODE_TYPE_HN_I
    SAM_TYPE_NON_HASH_MEM_REGION rw

/-- Function `update_io_region`. -/
def update_io_region (hw : Regs) (ctx : cmn_cyprus_ctx) (mmap : mod_cmn_cyprus_mem_region_map)
    (region_idx : Nat) (rw : Regs) : Exec Regs :=
  (List.range ctx.rnsam_count).foldlM (update_io_region_body hw ctx mmap region_idx) rw

/-- The statements of `map_io_region` between `rnsam_stall()` and
`rnsam_unstall()` (lines 753-769). -/
def map_io_region_update (fuel : Nat) (hw : Regs) (mmap : mod_cmn_cyprus_mem_region_map)
    (sys : Machine) : Exec Machine := do
  let rnsam ← table_read sys.ctx.rnsam_table 0
  let r ← is_non_hashed_region_mapped hw sys.ctx rnsam mmap 0 sys.rw
  if r.found then
    let rw ← update_io_region hw sys.ctx r.mmap r.region_index sys.rw
    return { sys with rw := rw }
  else program_rnsam_region fuel hw r.mmap sys

/-- Function `map_io_region`, the operation exported through
`struct mod_cmn_cyprus_rnsam_memmap_api`. -/
def map_io_region (fuel : Nat) (hw : Regs) (base size node_id : Nat) (sys : Machine) :
    Exec (Int × Machine) := do
  let mmap : mod_cmn_cyprus_mem_region_map :=
    { base := base, size := size, type := MOD_CMN_CYPRUS_MEM_REGION_TYPE_IO, node_id := node_id
      hns_pos_start := default, hns_pos_end := default }
  let sys ← rnsam_stall sys
  let sys ← map_io_region_update fuel hw mmap sys
  let sys ← rnsam_unstall sys
  return (FWK_SUCCESS, sys)

/-! ## `cmn_cyprus_rnsam.c`: CCG regions and the boot-time set-up -/

/-- Conversion of a C `int` to `uint64_t` (sign extension). -/
def int_to_uint64 (n : Int) : Nat := (n % 2 ^ 64).toNat

/-- Left shift of a C `int`, the result wrapped to 32 bits. -/
def shl_int (x : Int) (n : Nat) : Int := (x * 2 ^ n + 2 ^ 31) % 2 ^ 32 - 2 ^ 31

/-- Function `configure_ccg_region`. -/
def configure_ccg_region (hw : Regs) (rnsam region_base region_size region_idx
    target_node_id : Nat) (rw : Regs) : Exec Regs := do
  let rw ← configure_rnsam_region hw rnsam region_idx region_base region_size
    SAM_NODE_TYPE_CXRA SAM_TYPE_NON_HASH_MEM_REGION rw
  return set_non_hashed_region_target rnsam region_idx target_node_id rw

/-- Loop body of `program_rnsam_ccg_region` (one RN-SAM). -/
def program_rnsam_ccg_region_body (hw : Regs) (ctx : cmn_cyprus_ctx) (target_node_id : Nat)
    (region : mod_cmn_cyprus_mem_region_map) (region_idx : Nat) (rw : Regs) (rnsam_idx : Nat) :
    Exec Regs := do
  let rnsam ← table_read ctx.rnsam_table rnsam_idx
  configure_ccg_region hw rnsam region.base region.size region_idx target_node_id rw

/-- Function `program_rnsam_ccg_region`. -/
def program_rnsam_ccg_region (hw : Regs) (ctx : cmn_cyprus_ctx) (target_node_id : Nat)
    (region : mod_cmn_cyprus_mem_region_map) (region_idx : Nat) (rw : Regs) : Exec Regs :=
  (List.range ctx.rnsam_count).foldlM
    (program_rnsam_ccg_region_body hw ctx target_node_id region region_idx) rw

/-- Loop body of `configure_rnsam_cpag` (one CCG port of the group); the
index and the bound are both `uint8_t`. -/
def configure_rnsam_cpag_target (ctx : cmn_cyprus_ctx) (rnsam : Nat)
    (ccg_config : mod_cmn_cyprus_ccg_config) (rw : Regs) (idx : Nat) : Exec Regs := do
  let ccg_ra_ldid ← table_read ccg_config.ldid idx
  let entry ← table_read ctx.ccg_ra_reg_table ccg_ra_ldid
  let ccg_ra_node_id := entry.node_id
  let n := ccg_config.cpag_id * ccg_config.num_ports_in_cpag + idx
  let register_idx := n / 5
  let bit_pos := (n * 12) % 60
  fwk_assert (decide (register_idx < 3))
  let addr := rnsam + RNSAM_CML_PORT_AGGR_GRP_REG_OFFSET + 8 * register_idx
  return reg_write rw addr (rw addr ||| (ccg_ra_node_id <<< bit_pos) % 2 ^ 64)

/-- Function `configure_rnsam_cpag`.  The operands written without a cast
are C `int`s, shifted at 32 bits and sign-extended when they meet the 64-bit
register. -/
def configure_rnsam_cpag (ctx : cmn_cyprus_ctx) (rnsam region_idx : Nat)
    (ccg_config : mod_cmn_cyprus_ccg_config) (rw : Regs) : Exec Regs := do
  let register_idx := region_idx / 10
  let bit_pos := (region_idx % 10) * 6
  fwk_assert (decide (register_idx < 4))
  let mode := rnsam + RNSAM_CML_PORT_AGGR_MODE_CTRL_REG_OFFSET + 8 * register_idx
  let rw := reg_write rw mode (rw mode ||| (0x1 <<< bit_pos) % 2 ^ 64)
  let rw := reg_write rw mode (rw mode ||| (ccg_config.cpag_id <<< (bit_pos + 1)) % 2 ^ 64)
  let register_idx := ccg_config.cpag_id / 5
  let ctrl := rnsam + RNSAM_CML_PORT_AGGR_CTRL_REG_OFFSET + 8 * register_idx
  let rw := reg_write rw ctrl (rw ctrl |||
    int_to_uint64 (shl_int ((ccg_config.num_ports_in_cpag : Int) - 1)
      ((ccg_config.cpag_id % 5) * 12)))
  let rw := reg_write rw ctrl (rw ctrl |||
    int_to_uint64 (shl_int 0x1 ((ccg_config.cpag_id % 5) * 12 + 5)))
  let rw ← (List.range ccg_config.num_ports_in_cpag).foldlM
    (configure_rnsam_cpag_target ctx rnsam ccg_config) rw
  let register_idx := ccg_config.cpag_id / 8
  let bit_pos := (ccg_config.cpag_id % 8) * 8
  let indx := rnsam + CML_CPAG_BASE_INDX_GRP_REG_OFFSET + 8 * register_idx
  let rw := reg_write rw indx (rw indx &&& int_to_uint64 (-(shl_int 0x3F bit_pos) - 1))
  let rw := reg_write rw indx (rw indx |||
    int_to_uint64 (shl_int ((ccg_config.cpag_id * ccg_config.num_ports_in_cpag : Nat) : Int)
      bit_pos))
  return rw

/-- Loop body of `program_rnsam_cpag` (one RN-SAM). -/
def program_rnsam_cpag_body (ctx : cmn_cyprus_ctx) (ccg_config : mod_cmn_cyprus_ccg_config)
    (rw : Regs) (rnsam_idx : Nat) : Exec Regs := do
  let rnsam ← table_read ctx.rnsam_table rnsam_idx
  configure_rnsam_cpag ctx rnsam ctx.io_region_count ccg_config rw

/-- Function `program_rnsam_cpag`. -/
def program_rnsam_cpag (ctx : cmn_cyprus_ctx) (ccg_config : mod_cmn_cyprus_ccg_config)
    (rw : Regs) : Exec Regs :=
  (List.range ctx.rnsam_count).foldlM (program_rnsam_cpag_body ctx ccg_config) rw

/-- Inner loop body of `setup_rnsam_ccg_regions` (one remote memory map
entry of one CCG configuration). -/
def setup_rnsam_ccg_region (hw : Regs) (ccg_idx : Nat) (sys : Machine) (region_idx : Nat) :
    Exec Machine := do
  let ccg_config ← table_read sys.ctx.config.ccg_config_table ccg_idx
  let region := ccg_config.remote_mmap_table.getD region_idx default
  if region.size = 0 then return sys
  else
    fwk_assert (region.type == MOD_CMN_CYPRUS_REGION_TYPE_CCG)
    let ccg_ra_ldid ← table_read ccg_config.ldid 0
    let entry ← table_read sys.ctx.ccg_ra_reg_table ccg_ra_ldid
    let target_node_id := entry.node_id
    let rw ← program_rnsam_ccg_region hw sys.ctx target_node_id region
      sys.ctx.io_region_count sys.rw
    let rw ← (if ccg_config.cpa_mode then program_rnsam_cpag sys.ctx ccg_config rw else .ok rw)
    return { sys with
      ctx := { sys.ctx with io_region_count := (sys.ctx.io_region_count + 1) % UINT_MOD }
      rw := rw }

/-- Function `setup_rnsam_ccg_regions`. -/
def setup_rnsam_ccg_regions (hw : Regs) (sys : Machine) : Exec Machine :=
  (List.range sys.ctx.config.ccg_table_count).foldlM
    (fun sys ccg_idx =>
      (List.range CMN_CYPRUS_MAX_RA_SAM_ADDR_REGION).foldlM (setup_rnsam_ccg_region hw ccg_idx)
        sys)
    sys

/-- Loop body of `cmn_cyprus_setup_rnsam` (one entry of `mmap_table`). -/
def cmn_cyprus_setup_rnsam_body (fuel : Nat) (hw : Regs) (sys : Machine) (region_idx : Nat) :
    Exec Machine := do
  let region ← table_read sys.ctx.config.mmap_table region_idx
  program_rnsam_region fuel hw region sys

/-- Function `cmn_cyprus_setup_rnsam`. -/
def cmn_cyprus_setup_rnsam (fuel : Nat) (hw : Regs) (sys : Machine) : Exec Machine := do
  let sys ← rnsam_stall sys
  let sys ← (List.range sys.ctx.config.mmap_count).foldlM
    (cmn_cyprus_setup_rnsam_body fuel hw) sys
  let sys ← setup_rnsam_ccg_regions hw sys
  rnsam_unstall sys

/-! ## `cmn_cyprus_hnsam.c`: programming of the HN-S SAM -/

/-- Byte offset of `UNIT_INFO[0]` in `struct cmn_cyprus_hns_reg` (read-only). -/
def HNS_UNIT_INFO_OFFSET : Nat := 0x900
/-- Byte offset of `SAM_CONTROL`. -/
def HNS_SAM_CONTROL_OFFSET : Nat := 0xD00
/-- Byte offset of `SAM_MEMREGION[0]`. -/
def HNS_SAM_MEMREGION_OFFSET : Nat := 0xD08
/-- Byte offset of `SAM_MEMREGION_END_ADDR[0]`. -/
def HNS_SAM_MEMREGION_END_ADDR_OFFSET : Nat := 0xD38
/-- Byte offset of `CML_PORT_AGGR_GRP_REG[0]` of the HN-S. -/
def HNS_CML_PORT_AGGR_GRP_REG_OFFSET : Nat := 0xFB0
/-- Byte offset of `PPU_PWPR`. -/
def HNS_PPU_PWPR_OFFSET : Nat := 0x1900
/-- Byte offset of `HNS_RN_CLUSTER_PHYSID[0][0]`. -/
def HNS_RN_CLUSTER_PHYSID_OFFSET : Nat := 0x3C00
/-- Macro `CMN_CYPRUS_HNS_SAM_CONTROL_SN_MODE_POS(sn_mode)`. -/
def CMN_CYPRUS_HNS_SAM_CONTROL_SN_MODE_POS (sn_mode : Nat) : Nat := 36 + sn_mode - 1
/-- Constant `CMN_CYPRUS_HNS_SAM_CONTROL_TOP_ADDR_BIT0_POS`. -/
def CMN_CYPRUS_HNS_SAM_CONTROL_TOP_ADDR_BIT0_POS : Nat := 40
/-- Constant `CMN_CYPRUS_HNS_SAM_CONTROL_TOP_ADDR_BIT1_POS`. -/
def CMN_CYPRUS_HNS_SAM_CONTROL_TOP_ADDR_BIT1_POS : Nat := 48
/-- Macro `CMN_CYPRUS_HNS_SAM_CONTROL_SN_NODE_ID_POS(sn_idx)`. -/
def CMN_CYPRUS_HNS_SAM_CONTROL_SN_NODE_ID_POS (sn_idx : Nat) : Nat := sn_idx * 12
/-- Constant `CMN_CYPRUS_HNS_SAM_MEMREGION_VALID`. -/
def CMN_CYPRUS_HNS_SAM_MEMREGION_VALID : Nat := 0x8000000000000000

/-- Loop body of `setup_hierarchichal_hashing`: OR one SN-F node id into the
value under construction. -/
def sam_control_add_snf (ctx : cmn_cyprus_ctx) (hns_cluster_index snf_count_per_cluster : Nat)
    (sam_control_value : Nat) (snf_idx_in_cluster : Nat) : Exec Nat := do
  let snf_table_idx := (hns_cluster_index * snf_count_per_cluster + snf_idx_in_cluster) % UINT_MOD
  let snf ← table_read ctx.config.snf_table snf_table_idx
  return sam_control_value |||
    (snf <<< CMN_CYPRUS_HNS_SAM_CONTROL_SN_NODE_ID_POS snf_idx_in_cluster) % 2 ^ 64

/-- Function `setup_hierarchichal_hashing`. -/
def setup_hierarchichal_hashing (ctx : cmn_cyprus_ctx) (hns logical_id : Nat)
    (hier_hash_cfg : mod_cmn_cyprus_hierarchical_hashing) (rw : Regs) : Exec Regs := do
  let sn_mode := hier_hash_cfg.sn_mode
  let top_address_bit0 := hier_hash_cfg.top_address_bit0
  let top_address_bit1 := hier_hash_cfg.top_address_bit1
  if hier_hash_cfg.hns_cluster_count = 0 then .error Fault.division_by_zero
  else
    let snf_count_per_cluster := ctx.config.snf_count / hier_hash_cfg.hns_cluster_count
    fwk_assert (snf_count_per_cluster == 3)
    let hns_count_per_cluster := ctx.hns_count / hier_hash_cfg.hns_cluster_count
    unexpected_if (decide (top_address_bit1 ≤ top_address_bit0))
    if hns_count_per_cluster = 0 then .error Fault.division_by_zero
    else
      let hns_cluster_index := logical_id / hns_count_per_cluster
      let sam_control_value := (1 <<< CMN_CYPRUS_HNS_SAM_CONTROL_SN_MODE_POS sn_mode) % 2 ^ 64
      let sam_control_value := sam_control_value |||
        (top_address_bit0 <<< CMN_CYPRUS_HNS_SAM_CONTROL_TOP_ADDR_BIT0_POS) % 2 ^ 64
      let sam_control_value := sam_control_value |||
        (top_address_bit1 <<< CMN_CYPRUS_HNS_SAM_CONTROL_TOP_ADDR_BIT1_POS) % 2 ^ 64
      let sam_control_value ← (List.range snf_count_per_cluster).foldlM
        (sam_control_add_snf ctx hns_cluster_index snf_count_per_cluster) sam_control_value
      return reg_write rw (hns + HNS_SAM_CONTROL_OFFSET) sam_control_value

/-- Function `configure_default_hashed_region`. -/
def configure_default_hashed_region (hns snf_node_id : Nat) (rw : Regs) : Regs :=
  reg_write rw (hns + HNS_SAM_CONTROL_OFFSET) snf_node_id

/-- Function `get_hnsam_range_comp_en_mode`. -/
def get_hnsam_range_comp_en_mode (hw : Regs) (hns : Nat) : Bool :=
  (hw (hns + HNS_UNIT_INFO_OFFSET + 8) &&& 0x10000000) >>> 28 != 0

/-- The writes of `map_syscache_sub_region` that depend on the range
comparison mode (lines 160-176). -/
def map_syscache_sub_region_range (hw : Regs) (hns base size region_idx : Nat) (rw : Regs) :
    Exec Regs :=
  let reg := hns + HNS_SAM_MEMREGION_OFFSET + 8 * region_idx
  if get_hnsam_range_comp_en_mode hw hns then
    let rw := reg_write rw (hns + HNS_SAM_MEMREGION_END_ADDR_OFFSET + 8 * region_idx)
      (base + size + 2 ^ 64 - 1)
    .ok (reg_write rw reg (rw reg ||| ((base / SAM_GRANULARITY) <<< 20)))
  else do
    let encoded ← sam_encode_region_size size
    let rw := reg_write rw reg (rw reg ||| (encoded <<< 12))
    return reg_write rw reg (rw reg ||| ((base / SAM_GRANULARITY) <<< 20))

/-- Function `map_syscache_sub_region`. -/
def map_syscache_sub_region (hw : Regs) (ctx : cmn_cyprus_ctx) (hns : Nat)
    (region : mod_cmn_cyprus_mem_region_map) (region_idx : Nat) (rw : Regs) : Exec Regs := do
  let base := ((ctx.config.chip_addr_space * ctx.chip_id) % 2 ^ 64 + region.base) % 2 ^ 64
  fwk_assert (decide (region_idx < 2))
  let reg := hns + HNS_SAM_MEMREGION_OFFSET + 8 * region_idx
  let rw ← map_syscache_sub_region_range hw hns base region.size region_idx rw
  let rw := reg_write rw reg (rw reg ||| region.node_id)
  return reg_write rw reg (rw reg ||| CMN_CYPRUS_HNS_SAM_MEMREGION_VALID)

/-- Loop body of `configure_syscache_sub_regions`; the state is the registers
and the counter `syscache_sub_region_count`. -/
def configure_syscache_sub_region (hw : Regs) (ctx : cmn_cyprus_ctx) (hns : Nat)
    (st : Regs × Nat) (region_idx : Nat) : Exec (Regs × Nat) := do
  let region ← table_read ctx.config.mmap_table region_idx
  if region.type ≠ MOD_CMN_CYPRUS_MEM_REGION_TYPE_SYSCACHE_SUB then return st
  else
    let rw ← map_syscache_sub_region hw ctx hns region st.2 st.1
    return (rw, (st.2 + 1) % UINT_MOD)

/-- Function `configure_syscache_sub_regions`. -/
def configure_syscache_sub_regions (hw : Regs) (ctx : cmn_cyprus_ctx) (hns : Nat) (rw : Regs) :
    Exec Regs := do
  let st ← (List.range ctx.config.mmap_count).foldlM
    (configure_syscache_sub_region hw ctx hns) (rw, 0)
  return st.1

/-- Function `configure_hns_pwpr`. -/
def configure_hns_pwpr (hns : Nat) (rw : Regs) : Regs :=
  reg_write rw (hns + HNS_PPU_PWPR_OFFSET) (0x8 ||| 0x30 ||| 0x100)

/-- The choice of `cmn_cyprus_setup_hnf_sam` between hierarchical hashing and
the direct mapping (lines 239-248). -/
def setup_hnf_sam_control (hw : Regs) (ctx : cmn_cyprus_ctx) (hns : Nat) (rw : Regs) :
    Exec Regs := do
  let config := ctx.config
  let hier_hash_cfg := config.hierarchical_hashing_config
  let logical_id := get_node_logical_id hw hns
  if config.hierarchical_hashing_enable = true ∧ hier_hash_cfg.sn_mode ≠ 0 then
    setup_hierarchichal_hashing ctx hns logical_id hier_hash_cfg rw
  else
    fwk_assert (decide (logical_id < config.snf_count))
    let snf ← table_read config.snf_table logical_id
    return configure_default_hashed_region hns snf rw

/-- Loop body of `cmn_cyprus_setup_hnf_sam` (one entry of the HN-S table). -/
def cmn_cyprus_setup_hnf_sam_body (hw : Regs) (ctx : cmn_cyprus_ctx) (rw : Regs)
    (hns_idx : Nat) : Exec Regs := do
  let entry ← table_read ctx.hns_table hns_idx
  let hns := entry.hns
  if hns = 0 then return rw
  else
    let rw ← setup_hnf_sam_control hw ctx hns rw
    let rw ← configure_syscache_sub_regions hw ctx hns rw
    return configure_hns_pwpr hns rw

/-- Byte offset of `CCG_RA_SAM_ADDR_REGION_REG[0]` in
`struct cmn_cyprus_ccg_ra_reg`. -/
def CCG_RA_SAM_ADDR_REGION_REG_OFFSET : Nat := 0xC00
/-- Byte offset of `CCG_RA_AGENTID_TO_LINKID_VAL`. -/
def CCG_RA_AGENTID_TO_LINKID_VAL_OFFSET : Nat := 0xD00
/-- Byte offset of `CCG_RA_AGENTID_TO_LINKID_REG[0]`. -/
def CCG_RA_AGENTID_TO_LINKID_REG_OFFSET : Nat := 0xD10
/-- Byte offset of `CCG_RA_RNI_LDID_TO_EXP_RAID_REG[0]`. -/
def CCG_RA_RNI_LDID_TO_EXP_RAID_REG_OFFSET : Nat := 0xE00
/-- Byte offset of `CCG_RA_RND_LDID_TO_EXP_RAID_REG[0]`. -/
def CCG_RA_RND_LDID_TO_EXP_RAID_REG_OFFSET : Nat := 0xF00
/-- Byte offset of `CCG_RA_RNF_LDID_TO_EXP_RAID_REG[0]`. -/
def CCG_RA_RNF_LDID_TO_EXP_RAID_REG_OFFSET : Nat := 0x1000
/-- Byte offset of `LINK_REGS[0]` in `struct cmn_cyprus_ccg_ra_reg`. -/
def CCG_RA_LINK_REGS_OFFSET : Nat := 0x4000
/-- Byte offset of `CCG_HA_ID` in `struct cmn_cyprus_ccg_ha_reg`. -/
def CCG_HA_ID_OFFSET : Nat := 0x8
/-- Byte offset of `CCG_HA_RNF_EXP_RAID_TO_LDID_REG[0]` (256 registers). -/
def CCG_HA_RNF_EXP_RAID_TO_LDID_REG_OFFSET : Nat := 0xC00
/-- Byte offset of `LINK_REGS[0]` in `struct cmn_cyprus_ccg_ha_reg`. -/
def CCG_HA_LINK_REGS_OFFSET : Nat := 0x1900
/-- Byte offset of `CCG_HA_AGENTID_TO_LINKID_REG[0]`. -/
def CCG_HA_AGENTID_TO_LINKID_REG_OFFSET : Nat := 0x1C00
/-- Byte offset of `CCG_HA_AGENTID_TO_LINKID_VAL`. -/
def CCG_HA_AGENTID_TO_LINKID_VAL_OFFSET : Nat := 0x1CF8
/-- Byte offset of `CCLA_ULL_CTL` in `struct cmn_cyprus_ccla_reg`. -/
def CCLA_ULL_CTL_OFFSET : Nat := 0xE20
/-- Size in bytes of `struct ccg_link_regs`. -/
def CCG_LINK_REGS_SIZE : Nat := 16

/-- Constant `FWK_KIB` of `fwk_macros.h`. -/
def FWK_KIB : Nat := 1024
/-- Constant `SAM_ADDR_TARGET_HAID_SHIFT`. -/
def SAM_ADDR_TARGET_HAID_SHIFT : Nat := 52
/-- Constant `SAM_ADDR_REG_VALID_MASK`. -/
def SAM_ADDR_REG_VALID_MASK : Nat := 0x8000000000000000
/-- Constant `MAX_AGENT_ID`. -/
def MAX_AGENT_ID : Nat := 63
/-- Constant `NUM_BITS_RESERVED_FOR_LINKID`. -/
def NUM_BITS_RESERVED_FOR_LINKID : Nat := 8
/-- Constant `EXP_RAID_TO_LDID_VALID_MASK`. -/
def EXP_RAID_TO_LDID_VALID_MASK : Nat := 1 <<< 15
/-- Constant `NUM_BITS_RESERVED_FOR_LDID`. -/
def NUM_BITS_RESERVED_FOR_LDID : Nat := 16
/-- Constant `CCG_HA_RAID_TO_LDID_RNF_MASK`. -/
def CCG_HA_RAID_TO_LDID_RNF_MASK : Nat := 0x4000
/-- Constant `NUM_BITS_RESERVED_FOR_RAID`. -/
def NUM_BITS_RESERVED_FOR_RAID : Nat := 16
/-- Constant `LDID_TO_EXP_RAID_VALID_MASK`. -/
def LDID_TO_EXP_RAID_VALID_MASK : Nat := 1 <<< 15

/-- Index values of a loop `idx = 0; do { ... idx++; } while (idx <
ccg_config->num_ports_in_cpag);` whose index and bound are both `uint8_t`: the
body runs once even for a bound of zero. -/
def cpag_ports (ccg_config : mod_cmn_cyprus_ccg_config) : List Nat :=
  List.range (max ccg_config.num_ports_in_cpag 1)

/-- Function `get_local_ra_count`. -/
def get_local_ra_count (ctx : cmn_cyprus_ctx) : Nat :=
  if ctx.rnf_count > ctx.rnd_count ∧ ctx.rnf_count > ctx.rni_count then ctx.rnf_count
  else if ctx.rnd_count > ctx.rni_count then ctx.rnd_count
  else ctx.rni_count

/-- Function `configure_ra_sam_region`. -/
def configure_ra_sam_region (ccg_ra_reg region_idx base size target_haid : Nat) (rw : Regs) :
    Exec Regs := do
  fwk_assert (size % (64 * FWK_KIB) == 0)
  fwk_assert (size &&& ((size + 2 ^ 64 - 1) % 2 ^ 64) == 0)
  let blocks := size / (64 * FWK_KIB)
  let size := fwk_math_log2 blocks
  let reg := ccg_ra_reg + CCG_RA_SAM_ADDR_REGION_REG_OFFSET + 8 * region_idx
  let rw := reg_write rw reg (size ||| base)
  let rw := reg_write rw reg (rw reg ||| (target_haid <<< SAM_ADDR_TARGET_HAID_SHIFT) % 2 ^ 64)
  return reg_write rw reg (rw reg ||| SAM_ADDR_REG_VALID_MASK)

/-- Inner loop body of `program_ra_sam` (one remote region of one port). -/
def program_ra_sam_region (ccg_config : mod_cmn_cyprus_ccg_config) (ccg_ra_reg idx : Nat)
    (rw : Regs) (region_idx : Nat) : Exec Regs := do
  let ra_mmap := ccg_config.ra_mmap_table.getD region_idx default
  if ra_mmap.size = 0 then return rw
  else
    let remote_haid ← table_read ra_mmap.remote_haid idx
    configure_ra_sam_region ccg_ra_reg region_idx ra_mmap.base ra_mmap.size remote_haid rw

/-- Outer loop body of `program_ra_sam` (one port of the group). -/
def program_ra_sam_port (ctx : cmn_cyprus_ctx) (ccg_config : mod_cmn_cyprus_ccg_config)
    (rw : Regs) (idx : Nat) : Exec Regs := do
  let ccg_ldid ← table_read ccg_config.ldid idx
  let entry ← table_read ctx.ccg_ra_reg_table ccg_ldid
  (List.range CMN_CYPRUS_MAX_RA_SAM_ADDR_REGION).foldlM
    (program_ra_sam_region ccg_config entry.ccg_ra_reg idx) rw

/-- Function `program_ra_sam`. -/
def program_ra_sam (ctx : cmn_cyprus_ctx) (ccg_config : mod_cmn_cyprus_ccg_config) (rw : Regs) :
    Exec Regs :=
  (cpag_ports ccg_config).foldlM (program_ra_sam_port ctx ccg_config) rw

/-- Function `configure_linkid_reg`. -/
def configure_linkid_reg (ctx : cmn_cyprus_ctx) (ccg_ldid linkid agentid : Nat) (rw : Regs) :
    Exec Regs := do
  let ra ← table_read ctx.ccg_ra_reg_table ccg_ldid
  let ha ← table_read ctx.ccg_ha_reg_table ccg_ldid
  fwk_assert (decide (agentid ≤ MAX_AGENT_ID))
  let register_idx := agentid / 8
  let agentid_bit_offset := agentid % 8
  let ra_reg := ra.ccg_ra_reg + CCG_RA_AGENTID_TO_LINKID_REG_OFFSET + 8 * register_idx
  let rw := reg_write rw ra_reg
    (rw ra_reg ||| (linkid <<< (agentid_bit_offset * NUM_BITS_RESERVED_FOR_LINKID)) % 2 ^ 64)
  let ha_reg := ha.ccg_ha_reg + CCG_HA_AGENTID_TO_LINKID_REG_OFFSET + 8 * register_idx
  let rw := reg_write rw ha_reg
    (rw ha_reg ||| (linkid <<< (agentid_bit_offset * NUM_BITS_RESERVED_FOR_LINKID)) % 2 ^ 64)
  let ra_val := ra.ccg_ra_reg + CCG_RA_AGENTID_TO_LINKID_VAL_OFFSET
  let rw := reg_write rw ra_val (rw ra_val ||| (0x1 <<< agentid) % 2 ^ 64)
  let ha_val := ha.ccg_ha_reg + CCG_HA_AGENTID_TO_LINKID_VAL_OFFSET
  return reg_write rw ha_val (rw ha_val ||| (0x1 <<< agentid) % 2 ^ 64)

/-- Inner loop body of `program_agentid_to_linkid_lut`; the state is the
registers and the `uint8_t` variable `offset_id`. -/
def program_agentid_to_linkid (ctx : cmn_cyprus_ctx) (ccg_config : mod_cmn_cyprus_ccg_config)
    (idx linkid remote_chip_id offset_pos : Nat) (st : Regs × Nat) (_rnf_idx : Nat) :
    Exec (Regs × Nat) := do
  let agent_id := (remote_chip_id ||| (st.2 <<< offset_pos)) % 2 ^ 16
  let agent_id := agent_id &&& 0x3F
  let ccg_ldid ← table_read ccg_config.ldid idx
  let rw ← configure_linkid_reg ctx ccg_ldid linkid agent_id st.1
  return (rw, (st.2 + 1) % 2 ^ 8)

/-- Function `program_agentid_to_linkid_lut`; the loop over the RN-Fs has a
`uint8_t` index and the test `rnf_idx <= rnf_count`. -/
def program_agentid_to_linkid_lut (fuel : Nat) (ctx : cmn_cyprus_ctx)
    (ccg_config : mod_cmn_cyprus_ccg_config) (rw : Regs) : Exec Regs :=
  let linkid := 0
  let remote_chip_id := ccg_config.remote_chip_id.getD linkid 0 % 2 ^ 8
  let offset_pos := fwk_math_log2 ctx.config_table.chip_count % 2 ^ 8
  (cpag_ports ccg_config).foldlM
    (fun rw idx => do
      let offset_id := (remote_chip_id * get_local_ra_count ctx) % 2 ^ 8
      let st ← for_uint8 (fun rnf_idx => decide (rnf_idx ≤ ctx.rnf_count))
        (program_agentid_to_linkid ctx ccg_config idx linkid remote_chip_id offset_pos)
        fuel 0 (rw, offset_id)
      return st.1)
    rw

/-- Function `configure_ccg_ha_raid_to_ldid_reg`; the parameters `raid_id`
and `ldid_value` are `uint8_t`, so the arguments are reduced modulo 256 on
entry. -/
def configure_ccg_ha_raid_to_ldid_reg (ctx : cmn_cyprus_ctx) (ccg_ldid raid_id ldid_value : Nat)
    (rw : Regs) : Exec Regs := do
  let raid_id := raid_id % 2 ^ 8
  let ldid_value := ldid_value % 2 ^ 8
  let ha ← table_read ctx.ccg_ha_reg_table ccg_ldid
  let register_idx := raid_id / 4
  let raid_bit_offset := raid_id % 4
  let reg := ha.ccg_ha_reg + CCG_HA_RNF_EXP_RAID_TO_LDID_REG_OFFSET + 8 * register_idx
  return reg_write rw reg
    (rw reg |||
      ((ldid_value ||| CCG_HA_RAID_TO_LDID_RNF_MASK ||| EXP_RAID_TO_LDID_VALID_MASK) <<<
        (raid_bit_offset * NUM_BITS_RESERVED_FOR_LDID)) % 2 ^ 64)

/-- Local variables of `program_raid_to_ldid_lut` that its loops change, with
the registers: `offset_id` is a `uint8_t`, `unique_remote_rnf_ldid_value` an
`unsigned int`. -/
structure raid_to_ldid_state where
  rw : Regs
  offset_id : Nat
  unique_remote_rnf_ldid_value : Nat

/-- Innermost loop body of `program_raid_to_ldid_lut` (one RN-F of one remote
chip); `raid` is a `uint16_t`. -/
def program_raid_to_ldid_rnf (ctx : cmn_cyprus_ctx) (ccg_config : mod_cmn_cyprus_ccg_config)
    (idx chip offset_pos : Nat) (st : raid_to_ldid_state) (_rnf_idx : Nat) :
    Exec raid_to_ldid_state := do
  let raid := (chip ||| (st.offset_id <<< offset_pos)) % 2 ^ 16
  let ccg_ldid ← table_read ccg_config.ldid idx
  let rw ← configure_ccg_ha_raid_to_ldid_reg ctx ccg_ldid raid st.unique_remote_rnf_ldid_value
    st.rw
  return { rw := rw
           offset_id := (st.offset_id + 1) % 2 ^ 8
           unique_remote_rnf_ldid_value := (st.unique_remote_rnf_ldid_value + 1) % UINT_MOD }

/-- Loop body of `program_raid_to_ldid_lut` over the chips (one chip). -/
def program_raid_to_ldid_chip (ctx : cmn_cyprus_ctx) (ccg_config : mod_cmn_cyprus_ccg_config)
    (idx local_ra_count offset_pos : Nat) (st : raid_to_ldid_state) (chip : Nat) :
    Exec raid_to_ldid_state :=
  if chip = ctx.chip_id then .ok st
  else
    (List.range ctx.rnf_count).foldlM
      (program_raid_to_ldid_rnf ctx ccg_config idx chip offset_pos)
      { st with offset_id := (chip * local_ra_count) % 2 ^ 8 }

/-- Loop body of `program_raid_to_ldid_lut` over the ports of the group. -/
def program_raid_to_ldid_port (fuel : Nat) (ctx : cmn_cyprus_ctx)
    (ccg_config : mod_cmn_cyprus_ccg_config) (local_ra_count : Nat) (rw : Regs) (idx : Nat) :
    Exec Regs := do
  let offset_pos := fwk_math_log2 ctx.config_table.chip_count % 2 ^ 8
  let st ← for_uint8 (fun chip => decide (chip < ctx.config_table.chip_count))
    (program_raid_to_ldid_chip ctx ccg_config idx local_ra_count offset_pos) fuel 0
    { rw := rw, offset_id := 0, unique_remote_rnf_ldid_value := ctx.rnf_count }
  return st.rw

/-- Function `program_raid_to_ldid_lut`; the loop over the chips has a
`uint8_t` index. -/
def program_raid_to_ldid_lut (fuel : Nat) (ctx : cmn_cyprus_ctx)
    (ccg_config : mod_cmn_cyprus_ccg_config) (rw : Regs) : Exec Regs := do
  let local_ra_count := get_local_ra_count ctx
  unexpected_if (decide (ccg_config.remote_rnf_count ≠ 0 ∧ ctx.rnf_count = 0))
  (cpag_ports ccg_config).foldlM (program_raid_to_ldid_port fuel ctx ccg_config local_ra_count)
    rw

/-- Size in bytes of `struct hns_info` on the 32-bit SCP core: two
`uintptr_t` fields and a `struct node_pos` of four `unsigned int`. -/
def SIZEOF_HNS_INFO : Nat := 24

/-- Constant `HNS_RN_PHYS_RN_ID_VALID_SHIFT_VAL`. -/
def HNS_RN_PHYS_RN_ID_VALID_SHIFT_VAL : Nat := 31
/-- Constant `HNS_RN_PHYS_RN_LOCAL_REMOTE_SHIFT_VAL`. -/
def HNS_RN_PHYS_RN_LOCAL_REMOTE_SHIFT_VAL : Nat := 16
/-- Constant `REMOTE_CCG_NODE`. -/
def REMOTE_CCG_NODE : Nat := 1
/-- Constant `HNF_RN_PHYS_CPA_GRP_RA_SHIFT_VAL`. -/
def HNF_RN_PHYS_CPA_GRP_RA_SHIFT_VAL : Nat := 17
/-- Constant `HNF_RN_PHYS_CPA_EN_RA_SHIFT_VAL`. -/
def HNF_RN_PHYS_CPA_EN_RA_SHIFT_VAL : Nat := 30

/-- Function `configure_hns_cpag`; `register_idx` and `bit_pos` are
`uint8_t`. -/
def configure_hns_cpag (hns ccg_ha_node_id cpag_id num_ports_in_cpag ccg_idx : Nat)
    (rw : Regs) : Exec Regs := do
  let register_idx := ((cpag_id * num_ports_in_cpag + ccg_idx) / 5) % 2 ^ 8
  let bit_pos := (((cpag_id * num_ports_in_cpag + ccg_idx) * 12) % 60) % 2 ^ 8
  fwk_assert (decide (register_idx < 2))
  let reg := hns + HNS_CML_PORT_AGGR_GRP_REG_OFFSET + 8 * register_idx
  return reg_write rw reg (rw reg ||| (ccg_ha_node_id <<< bit_pos) % 2 ^ 64)

/-- The block `if (ccg_config->cpa_mode) { ... }` of
`program_hns_ldid_to_chi_node_id` (lines 422-443); `reg` is the address of
`HNS_RN_CLUSTER_PHYSID[register_idx][0]`. -/
def program_hns_cpa (ctx : cmn_cyprus_ctx) (ccg_config : mod_cmn_cyprus_ccg_config)
    (hns_reg reg idx : Nat) (rw : Regs) : Exec Regs :=
  if ccg_config.cpa_mode then do
    let rw := reg_write rw reg (rw reg ||| (1 <<< HNF_RN_PHYS_CPA_EN_RA_SHIFT_VAL))
    let rw := reg_write rw reg
      (rw reg ||| (ccg_config.cpag_id <<< HNF_RN_PHYS_CPA_GRP_RA_SHIFT_VAL))
    let ccg_ha_ldid ← table_read ccg_config.ldid idx
    let ra ← table_read ctx.ccg_ra_reg_table ccg_ha_ldid
    configure_hns_cpag hns_reg ra.node_id ccg_config.cpag_id ccg_config.num_ports_in_cpag
      idx rw
  else .ok rw

/-- Inner loop body of `program_hns_ldid_to_chi_node_id` (one entry of the
HN-S table).  The source takes the ADDRESS of the field `hns` of the table
entry (`&shared_ctx->hns_table[hns_idx].hns`) as the register block. -/
def program_hns_ldid_to_chi_node (ctx : cmn_cyprus_ctx)
    (ccg_config : mod_cmn_cyprus_ccg_config) (register_idx idx : Nat) (rw : Regs)
    (hns_idx : Nat) : Exec Regs := do
  let hns_reg := ctx.hns_table_addr + SIZEOF_HNS_INFO * hns_idx
  if hns_reg = 0 then return rw
  else
    let ccg_ldid ← table_read ccg_config.ldid idx
    let ha ← table_read ctx.ccg_ha_reg_table ccg_ldid
    let request_agent_nodeid := ha.node_id
    let reg := hns_reg + HNS_RN_CLUSTER_PHYSID_OFFSET + 32 * register_idx
    let rw := reg_write rw reg (rw reg ||| request_agent_nodeid)
    let rw := reg_write rw reg
      (rw reg ||| (REMOTE_CCG_NODE <<< HNS_RN_PHYS_RN_LOCAL_REMOTE_SHIFT_VAL))
    let rw ← program_hns_cpa ctx ccg_config hns_reg reg idx rw
    return reg_write rw reg (rw reg ||| (0x1 <<< HNS_RN_PHYS_RN_ID_VALID_SHIFT_VAL))

/-- Function `program_hns_ldid_to_chi_node_id`. -/
def program_hns_ldid_to_chi_node_id (ctx : cmn_cyprus_ctx)
    (ccg_config : mod_cmn_cyprus_ccg_config) (register_idx : Nat) (rw : Regs) : Exec Regs :=
  (cpag_ports ccg_config).foldlM
    (fun rw idx =>
      (List.range ctx.hns_count).foldlM
        (program_hns_ldid_to_chi_node ctx ccg_config register_idx idx) rw)
    rw

/-- Loop body of `program_ccg_ha_id` (one port of the group). -/
def program_ccg_ha_id_port (ctx : cmn_cyprus_ctx) (ccg_config : mod_cmn_cyprus_ccg_config)
    (rw : Regs) (idx : Nat) : Exec Regs := do
  let ccg_ldid ← table_read ccg_config.ldid idx
  let ha ← table_read ctx.ccg_ha_reg_table ccg_ldid
  let haid ← table_read ccg_config.haid idx
  return reg_write rw (ha.ccg_ha_reg + CCG_HA_ID_OFFSET) haid

/-- Function `program_ccg_ha_id`. -/
def program_ccg_ha_id (ctx : cmn_cyprus_ctx) (ccg_config : mod_cmn_cyprus_ccg_config)
    (rw : Regs) : Exec Regs :=
  (cpag_ports ccg_config).foldlM (program_ccg_ha_id_port ctx ccg_config) rw

/-- Function `program_hns_ldid_to_rn_nodeid`; the loop index `i` is a
`uint8_t`.  The state is the registers and `remote_rnf_ldid_value`. -/
def program_hns_ldid_to_rn_nodeid (fuel : Nat) (ctx : cmn_cyprus_ctx)
    (ccg_config : mod_cmn_cyprus_ccg_config) (rw : Regs) : Exec Regs := do
  let linkid := 0
  let remote_rnf_ldid_value := (ccg_config.remote_chip_id.getD linkid 0 * ctx.rnf_count) % UINT_MOD
  let st ← for_uint8 (fun i => decide (i < ctx.rnf_count))
    (fun (st : Regs × Nat) _i => do
      let rw ← program_hns_ldid_to_chi_node_id ctx ccg_config st.2 st.1
      return (rw, (st.2 + 1) % UINT_MOD))
    fuel 0 (rw, remote_rnf_ldid_value)
  return st.1

/-- The body shared by `configure_ccg_ra_rnf_ldid_to_exp_raid_reg`,
`configure_ccg_ra_rnd_ldid_to_exp_raid_reg` and
`configure_ccg_ra_rni_ldid_to_exp_raid_reg`, which differ in the register
array (`array_offset`) and in the asserted number of registers.  The
parameters `ccg_ldid` and `ldid_value` are `uint8_t`, `raid` is `uint16_t`. -/
def configure_ccg_ra_ldid_to_exp_raid_reg (array_offset register_count : Nat)
    (ctx : cmn_cyprus_ctx) (ccg_ldid ldid_value raid : Nat) (rw : Regs) : Exec Regs := do
  let ccg_ldid := ccg_ldid % 2 ^ 8
  let ldid_value := ldid_value % 2 ^ 8
  let raid := raid % 2 ^ 16
  let ra ← table_read ctx.ccg_ra_reg_table ccg_ldid
  let register_offset := ldid_value / 4
  let ldid_value_offset := ldid_value % 4
  fwk_assert (decide (register_offset < register_count))
  let reg := ra.ccg_ra_reg + array_offset + 8 * register_offset
  let rw := reg_write rw reg
    (rw reg ||| (raid <<< (ldid_value_offset * NUM_BITS_RESERVED_FOR_RAID)))
  return reg_write rw reg
    (rw reg ||| (LDID_TO_EXP_RAID_VALID_MASK <<< (ldid_value_offset * NUM_BITS_RESERVED_FOR_RAID)))

/-- Function `configure_ccg_ra_rnf_ldid_to_exp_raid_reg`. -/
def configure_ccg_ra_rnf_ldid_to_exp_raid_reg :
    cmn_cyprus_ctx → Nat → Nat → Nat → Regs → Exec Regs :=
  configure_ccg_ra_ldid_to_exp_raid_reg CCG_RA_RNF_LDID_TO_EXP_RAID_REG_OFFSET 128

/-- Function `configure_ccg_ra_rnd_ldid_to_exp_raid_reg`. -/
def configure_ccg_ra_rnd_ldid_to_exp_raid_reg :
    cmn_cyprus_ctx → Nat → Nat → Nat → Regs → Exec Regs :=
  configure_ccg_ra_ldid_to_exp_raid_reg CCG_RA_RND_LDID_TO_EXP_RAID_REG_OFFSET 10

/-- Function `configure_ccg_ra_rni_ldid_to_exp_raid_reg`. -/
def configure_ccg_ra_rni_ldid_to_exp_raid_reg :
    cmn_cyprus_ctx → Nat → Nat → Nat → Regs → Exec Regs :=
  configure_ccg_ra_ldid_to_exp_raid_reg CCG_RA_RNI_LDID_TO_EXP_RAID_REG_OFFSET 10

/-- The request-agent id `raid = (shared_ctx->chip_id | (offset_id <<
offset_id_pos))` of `program_ldid_to_raid_lut` (lines 604, 622 and 640); `raid`
is a `uint16_t`. -/
def ldid_to_raid_id (chip_id offset_id offset_id_pos : Nat) : Nat :=
  (chip_id ||| (offset_id <<< offset_id_pos)) % 2 ^ 16

/-- Body of the three request-node loops of `program_ldid_to_raid_lut`: one
logical id `ldid` gets the id `raid = chip_id | (offset_id << offset_id_pos)`,
then `offset_id` (a `uint16_t`) is incremented.  The state is the registers
and `offset_id`. -/
def program_ldid_to_raid (configure : cmn_cyprus_ctx → Nat → Nat → Nat → Regs → Exec Regs)
    (ctx : cmn_cyprus_ctx) (ccg_config : mod_cmn_cyprus_ccg_config) (idx offset_id_pos : Nat)
    (st : Regs × Nat) (ldid : Nat) : Exec (Regs × Nat) := do
  let raid := ldid_to_raid_id ctx.chip_id st.2 offset_id_pos
  let ccg_ldid ← table_read ccg_config.ldid idx
  let rw ← configure ctx ccg_ldid ldid raid st.1
  return (rw, (st.2 + 1) % 2 ^ 16)

/-- Loop body of `program_ldid_to_raid_lut` over the ports of the group: the
RN-F, RN-D and RN-I loops, each with a `uint8_t` index and each starting again
from `offset_id = chip_id * local_ra_count`. -/
def program_ldid_to_raid_port (fuel : Nat) (ctx : cmn_cyprus_ctx)
    (ccg_config : mod_cmn_cyprus_ccg_config) (local_ra_count offset_id_pos : Nat) (rw : Regs)
    (idx : Nat) : Exec Regs := do
  let offset_id := (ctx.chip_id * local_ra_count) % 2 ^ 16
  let st ← for_uint8 (fun rnf_ldid => decide (rnf_ldid < ctx.rnf_count))
    (program_ldid_to_raid configure_ccg_ra_rnf_ldid_to_exp_raid_reg ctx ccg_config idx
      offset_id_pos) fuel 0 (rw, offset_id)
  let st ← for_uint8 (fun rnd_ldid => decide (rnd_ldid < ctx.rnd_count))
    (program_ldid_to_raid configure_ccg_ra_rnd_ldid_to_exp_raid_reg ctx ccg_config idx
      offset_id_pos) fuel 0 (st.1, offset_id)
  let st ← for_uint8 (fun rni_ldid => decide (rni_ldid < ctx.rni_count))
    (program_ldid_to_raid configure_ccg_ra_rni_ldid_to_exp_raid_reg ctx ccg_config idx
      offset_id_pos) fuel 0 (st.1, offset_id)
  return st.1

/-- Function `program_ldid_to_raid_lut`. -/
def program_ldid_to_raid_lut (fuel : Nat) (ctx : cmn_cyprus_ctx)
    (ccg_config : mod_cmn_cyprus_ccg_config) (rw : Regs) : Exec Regs :=
  let local_ra_count := get_local_ra_count ctx
  let offset_id_pos := fwk_math_log2 ctx.config_table.chip_count % 2 ^ 8
  (cpag_ports ccg_config).foldlM
    (program_ldid_to_raid_port fuel ctx ccg_config local_ra_count offset_id_pos) rw

/-! ## `cmn_cyprus_ccg.c`: link bring-up

The functions below wait on the timer and stop in `fwk_trap` when a wait fails.
Their outcome keeps the record of events also when they stop, so that one can
tell what had been done by then. -/

/-- Outcome of a function that records events: a fault comes with the record
of events at the moment of the fault. -/
abbrev Run (α : Type) : Type := Except (Fault × List Event) α

/-- A step that records no event, taken when the record is `trace`. -/
def with_trace {α : Type} (trace : List Event) : Exec α → Run α
  | .ok a => .ok a
  | .error f => .error (f, trace)

/-- A step that changes the registers only and records no event. -/
def on_regs (f : Regs → Exec Regs) (sys : Machine) : Run Machine :=
  match f sys.rw with
  | .ok rw => .ok { sys with rw := rw }
  | .error e => .error (e, sys.trace)

/-- Value `CCG_LINK_CTRL_EN_BIT_SET` of `enum ccg_link_up_wait_cond`. -/
def CCG_LINK_CTRL_EN_BIT_SET : Nat := 0
/-- Value `CCG_LINK_CTRL_UP_BIT_CLR`. -/
def CCG_LINK_CTRL_UP_BIT_CLR : Nat := 1
/-- Value `CCG_LINK_STATUS_DWN_BIT_SET`. -/
def CCG_LINK_STATUS_DWN_BIT_SET : Nat := 2
/-- Value `CCG_LINK_STATUS_DWN_BIT_CLR`. -/
def CCG_LINK_STATUS_DWN_BIT_CLR : Nat := 3
/-- Value `CCG_LINK_STATUS_ACK_BIT_SET`. -/
def CCG_LINK_STATUS_ACK_BIT_SET : Nat := 4
/-- Value `CCG_LINK_STATUS_ACK_BIT_CLR`. -/
def CCG_LINK_STATUS_ACK_BIT_CLR : Nat := 5
/-- Value `CCG_LINK_STATUS_HA_DVMDOMAIN_ACK_BIT_SET`. -/
def CCG_LINK_STATUS_HA_DVMDOMAIN_ACK_BIT_SET : Nat := 6
/-- Value `CCG_LINK_STATUS_RA_DVMDOMAIN_ACK_BIT_SET`. -/
def CCG_LINK_STATUS_RA_DVMDOMAIN_ACK_BIT_SET : Nat := 7

/-- Constant `CCG_LINK_CTRL_EN_MASK`. -/
def CCG_LINK_CTRL_EN_MASK : Nat := 0x1
/-- Constant `CCG_LINK_CTRL_REQ_MASK`. -/
def CCG_LINK_CTRL_REQ_MASK : Nat := 0x2
/-- Constant `CCG_LINK_CTRL_UP_MASK`. -/
def CCG_LINK_CTRL_UP_MASK : Nat := 0x4
/-- Constant `CCG_LINK_CTRL_DVMDOMAIN_REQ_MASK`. -/
def CCG_LINK_CTRL_DVMDOMAIN_REQ_MASK : Nat := 0x8
/-- Constant `CCG_RA_CCPRTCL_LINK_CTRL_SMP_MODE_EN_SHIFT_VAL` (and the equal
`CCG_HA_CCPRTCL_LINK_CTRL_SMP_MODE_EN_SHIFT_VAL`). -/
def CCG_CCPRTCL_LINK_CTRL_SMP_MODE_EN_SHIFT_VAL : Nat := 16

/-- Statement `LINK_REGS[linkid].CCG_CCPRTCL_LINK_CTRL |= mask` on the CCG
register block `block` whose link registers start at `link_regs_offset`. -/
def link_ctrl_set (block link_regs_offset linkid mask : Nat) (sys : Machine) : Machine :=
  let addr := block + link_regs_offset + CCG_LINK_REGS_SIZE * linkid
  { sys with
    rw := reg_write sys.rw addr (sys.rw addr ||| mask)
    trace := sys.trace ++ [Event.link_ctrl_set addr mask] }

/-- Modelled from the spec: the call `shared_ctx->timer_api->wait(...,
ccg_link_wait_condition, &wait_data)` of the timer module, which is not among
the sources.  The spec describes a bounded poll of the condition that reports
a timeout; whether the hardware meets the condition in time is not decided by
the driver, so the status is given by `timer`, a function of the record of
events so far. -/
def link_wait (timer : List Event → Int) (cond : Nat) (sys : Machine) : Int × Machine :=
  let status := timer sys.trace
  (status, { sys with trace := sys.trace ++ [Event.link_wait cond status] })

/-- A timer wait on a link condition followed by `if (status != FWK_SUCCESS)
fwk_trap();`. -/
def link_wait_or_trap (timer : List Event → Int) (cond : Nat) (sys : Machine) : Run Machine :=
  let r := link_wait timer cond sys
  if r.1 ≠ FWK_SUCCESS then .error (Fault.trap, r.2.trace) else .ok r.2

/-- Loop body of `enable_smp_mode` (one port of the group). -/
def enable_smp_mode_port (ccg_config : mod_cmn_cyprus_ccg_config) (sys : Machine) (idx : Nat) :
    Run Machine := do
  let ccg_ldid ← with_trace sys.trace (table_read ccg_config.ldid idx)
  let ra ← with_trace sys.trace (table_read sys.ctx.ccg_ra_reg_table ccg_ldid)
  let ha ← with_trace sys.trace (table_read sys.ctx.ccg_ha_reg_table ccg_ldid)
  let sys := link_ctrl_set ra.ccg_ra_reg CCG_RA_LINK_REGS_OFFSET 0
    (1 <<< CCG_CCPRTCL_LINK_CTRL_SMP_MODE_EN_SHIFT_VAL) sys
  return link_ctrl_set ha.ccg_ha_reg CCG_HA_LINK_REGS_OFFSET 0
    (1 <<< CCG_CCPRTCL_LINK_CTRL_SMP_MODE_EN_SHIFT_VAL) sys

/-- Function `enable_smp_mode`. -/
def enable_smp_mode (ccg_config : mod_cmn_cyprus_ccg_config) (sys : Machine) : Run Machine :=
  (cpag_ports ccg_config).foldlM (enable_smp_mode_port ccg_config) sys

/-- Loop body of `enable_ull_to_ull_mode` (one port of the group). -/
def enable_ull_to_ull_mode_port (timer : List Event → Int)
    (ccg_config : mod_cmn_cyprus_ccg_config) (sys : Machine) (idx : Nat) : Run Machine := do
  let ccg_ldid ← with_trace sys.trace (table_read ccg_config.ldid idx)
  let ccla ← with_trace sys.trace (table_read sys.ctx.ccla_reg_table ccg_ldid)
  let ctl := ccla.ccla_reg + CCLA_ULL_CTL_OFFSET
  let rw := reg_write sys.rw ctl (1 <<< 1)
  let rw := reg_write rw ctl (rw ctl ||| (1 <<< 0))
  let status := timer sys.trace
  let sys := { sys with rw := rw, trace := sys.trace ++ [Event.ull_wait status] }
  if status ≠ FWK_SUCCESS then .error (Fault.trap, sys.trace) else return sys

/-- Function `enable_ull_to_ull_mode`. -/
def enable_ull_to_ull_mode (timer : List Event → Int) (ccg_config : mod_cmn_cyprus_ccg_config)
    (sys : Machine) : Run Machine :=
  (cpag_ports ccg_config).foldlM (enable_ull_to_ull_mode_port timer ccg_config) sys

/-- Loop body of `enable_ccg_link` (one port of the group). -/
def enable_ccg_link_port (timer : List Event → Int) (linkid : Nat)
    (ccg_config : mod_cmn_cyprus_ccg_config) (sys : Machine) (idx : Nat) : Run Machine := do
  let ccg_ldid ← with_trace sys.trace (table_read ccg_config.ldid idx)
  let ra ← with_trace sys.trace (table_read sys.ctx.ccg_ra_reg_table ccg_ldid)
  let ha ← with_trace sys.trace (table_read sys.ctx.ccg_ha_reg_table ccg_ldid)
  let sys := link_ctrl_set ra.ccg_ra_reg CCG_RA_LINK_REGS_OFFSET linkid CCG_LINK_CTRL_EN_MASK sys
  let sys := link_ctrl_set ha.ccg_ha_reg CCG_HA_LINK_REGS_OFFSET linkid CCG_LINK_CTRL_EN_MASK sys
  link_wait_or_trap timer CCG_LINK_CTRL_EN_BIT_SET sys

/-- Function `enable_ccg_link`. -/
def enable_ccg_link (timer : List Event → Int) (linkid : Nat)
    (ccg_config : mod_cmn_cyprus_ccg_config) (sys : Machine) : Run Machine :=
  (cpag_ports ccg_config).foldlM (enable_ccg_link_port timer linkid ccg_config) sys

/-- Loop body of `verify_ccg_link_is_down` (one port of the group): three
waits in a row. -/
def verify_ccg_link_is_down_port (timer : List Event → Int) (sys : Machine) (_idx : Nat) :
    Run Machine := do
  let sys ← link_wait_or_trap timer CCG_LINK_CTRL_UP_BIT_CLR sys
  let sys ← link_wait_or_trap timer CCG_LINK_STATUS_DWN_BIT_SET sys
  link_wait_or_trap timer CCG_LINK_STATUS_ACK_BIT_CLR sys

/-- Function `verify_ccg_link_is_down`. -/
def verify_ccg_link_is_down (timer : List Event → Int)
    (ccg_config : mod_cmn_cyprus_ccg_config) (sys : Machine) : Run Machine :=
  (cpag_ports ccg_config).foldlM (verify_ccg_link_is_down_port timer) sys

/-- Loop body of `bring_up_ccg_link` (one port of the group). -/
def bring_up_ccg_link_port (timer : List Event → Int) (linkid : Nat)
    (ccg_config : mod_cmn_cyprus_ccg_config) (sys : Machine) (idx : Nat) : Run Machine := do
  let ccg_ldid ← with_trace sys.trace (table_read ccg_config.ldid idx)
  let ra ← with_trace sys.trace (table_read sys.ctx.ccg_ra_reg_table ccg_ldid)
  let ha ← with_trace sys.trace (table_read sys.ctx.ccg_ha_reg_table ccg_ldid)
  let sys := link_ctrl_set ra.ccg_ra_reg CCG_RA_LINK_REGS_OFFSET linkid CCG_LINK_CTRL_REQ_MASK sys
  let sys := link_ctrl_set ha.ccg_ha_reg CCG_HA_LINK_REGS_OFFSET linkid CCG_LINK_CTRL_REQ_MASK sys
  let sys ← link_wait_or_trap timer CCG_LINK_STATUS_ACK_BIT_SET sys
  link_wait_or_trap timer CCG_LINK_STATUS_DWN_BIT_CLR sys

/-- Function `bring_up_ccg_link`. -/
def bring_up_ccg_link (timer : List Event → Int) (linkid : Nat)
    (ccg_config : mod_cmn_cyprus_ccg_config) (sys : Machine) : Run Machine :=
  (cpag_ports ccg_config).foldlM (bring_up_ccg_link_port timer linkid ccg_config) sys

/-- Loop body of `ccg_exchange_protocol_credit` (one port of the group). -/
def ccg_exchange_protocol_credit_port (linkid : Nat) (ccg_config : mod_cmn_cyprus_ccg_config)
    (sys : Machine) (idx : Nat) : Run Machine := do
  let ccg_ldid ← with_trace sys.trace (table_read ccg_config.ldid idx)
  let ra ← with_trace sys.trace (table_read sys.ctx.ccg_ra_reg_table ccg_ldid)
  let ha ← with_trace sys.trace (table_read sys.ctx.ccg_ha_reg_table ccg_ldid)
  let sys := link_ctrl_set ra.ccg_ra_reg CCG_RA_LINK_REGS_OFFSET linkid CCG_LINK_CTRL_UP_MASK sys
  return link_ctrl_set ha.ccg_ha_reg CCG_HA_LINK_REGS_OFFSET linkid CCG_LINK_CTRL_UP_MASK sys

/-- Function `ccg_exchange_protocol_credit`. -/
def ccg_exchange_protocol_credit (linkid : Nat) (ccg_config : mod_cmn_cyprus_ccg_config)
    (sys : Machine) : Run Machine :=
  (cpag_ports ccg_config).foldlM (ccg_exchange_protocol_credit_port linkid ccg_config) sys

/-- Loop body of `ccg_enter_system_coherency` (one port of the group). -/
def ccg_enter_system_coherency_port (timer : List Event → Int) (linkid : Nat)
    (ccg_config : mod_cmn_cyprus_ccg_config) (sys : Machine) (idx : Nat) : Run Machine := do
  let ccg_ldid ← with_trace sys.trace (table_read ccg_config.ldid idx)
  let ha ← with_trace sys.trace (table_read sys.ctx.ccg_ha_reg_table ccg_ldid)
  let sys := link_ctrl_set ha.ccg_ha_reg CCG_HA_LINK_REGS_OFFSET linkid
    CCG_LINK_CTRL_DVMDOMAIN_REQ_MASK sys
  link_wait_or_trap timer CCG_LINK_STATUS_HA_DVMDOMAIN_ACK_BIT_SET sys

/-- Function `ccg_enter_system_coherency`. -/
def ccg_enter_system_coherency (timer : List Event → Int) (linkid : Nat)
    (ccg_config : mod_cmn_cyprus_ccg_config) (sys : Machine) : Run Machine :=
  (cpag_ports ccg_config).foldlM (ccg_enter_system_coherency_port timer linkid ccg_config) sys

/-- Loop body of `ccg_enter_dvm_domain` (one port of the group). -/
def ccg_enter_dvm_domain_port (timer : List Event → Int) (linkid : Nat)
    (ccg_config : mod_cmn_cyprus_ccg_config) (sys : Machine) (idx : Nat) : Run Machine := do
  let ccg_ldid ← with_trace sys.trace (table_read ccg_config.ldid idx)
  let ra ← with_trace sys.trace (table_read sys.ctx.ccg_ra_reg_table ccg_ldid)
  let sys := link_ctrl_set ra.ccg_ra_reg CCG_RA_LINK_REGS_OFFSET linkid
    CCG_LINK_CTRL_DVMDOMAIN_REQ_MASK sys
  link_wait_or_trap timer CCG_LINK_STATUS_RA_DVMDOMAIN_ACK_BIT_SET sys

/-- Function `ccg_enter_dvm_domain`. -/
def ccg_enter_dvm_domain (timer : List Event → Int) (linkid : Nat)
    (ccg_config : mod_cmn_cyprus_ccg_config) (sys : Machine) : Run Machine :=
  (cpag_ports ccg_config).foldlM (ccg_enter_dvm_domain_port timer linkid ccg_config) sys

/-- Function `bring_up_cml_protocol_links`. -/
def bring_up_cml_protocol_links (timer : List Event → Int) (linkid : Nat)
    (ccg_config : mod_cmn_cyprus_ccg_config) (sys : Machine) : Run Machine := do
  let sys ← enable_ccg_link timer linkid ccg_config sys
  let sys ← verify_ccg_link_is_down timer ccg_config sys
  bring_up_ccg_link timer linkid ccg_config sys

/-- Loop body of `setup_cml_protocol_links` (one CCG configuration). -/
def setup_cml_protocol_link (timer : List Event → Int) (sys : Machine) (ccg_idx : Nat) :
    Run Machine := do
  let linkid := 0
  let ccg_config ← with_trace sys.trace (table_read sys.ctx.config.ccg_config_table ccg_idx)
  let sys ← ccg_exchange_protocol_credit linkid ccg_config sys
  let sys ← ccg_enter_system_coherency timer linkid ccg_config sys
  ccg_enter_dvm_domain timer linkid ccg_config sys

/-- Function `setup_cml_protocol_links`. -/
def setup_cml_protocol_links (timer : List Event → Int) (sys : Machine) : Run Machine :=
  (List.range sys.ctx.config.ccg_table_count).foldlM (setup_cml_protocol_link timer) sys

/-- The programming steps of one CCG configuration in `cmn_cyprus_setup_cml`
that only write registers (lines 1248-1270). -/
def program_ccg_luts (fuel : Nat) (ctx : cmn_cyprus_ctx)
    (ccg_config : mod_cmn_cyprus_ccg_config) (rw : Regs) : Exec Regs := do
  let rw ← program_ra_sam ctx ccg_config rw
  let rw ← program_agentid_to_linkid_lut fuel ctx ccg_config rw
  let rw ← program_ccg_ha_id ctx ccg_config rw
  let rw ← program_raid_to_ldid_lut fuel ctx ccg_config rw
  let rw ← program_hns_ldid_to_rn_nodeid fuel ctx ccg_config rw
  program_ldid_to_raid_lut fuel ctx ccg_config rw

/-- Loop body of `cmn_cyprus_setup_cml` (one CCG configuration). -/
def cmn_cyprus_setup_cml_body (timer : List Event → Int) (fuel : Nat) (sys : Machine)
    (ccg_idx : Nat) : Run Machine := do
  let ccg_config ← with_trace sys.trace (table_read sys.ctx.config.ccg_config_table ccg_idx)
  let sys ← on_regs (program_ccg_luts fuel sys.ctx ccg_config) sys
  let sys ← (if ccg_config.smp_mode then enable_smp_mode ccg_config sys else .ok sys)
  let sys ← (if ccg_config.ull_to_ull_mode then enable_ull_to_ull_mode timer ccg_config sys
    else .ok sys)
  let linkid := 0
  bring_up_cml_protocol_links timer linkid ccg_config sys

/-- Function `cmn_cyprus_setup_cml`. -/
def cmn_cyprus_setup_cml (timer : List Event → Int) (fuel : Nat) (sys : Machine) :
    Run Machine := do
  let sys : Machine :=
    { sys with ctx := { sys.ctx with remote_rnf_ldid_value := sys.ctx.rnf_count } }
  let sys ← (List.range sys.ctx.config.ccg_table_count).foldlM
    (cmn_cyprus_setup_cml_body timer fuel) sys
  setup_cml_protocol_links timer sys

/-! ## Concrete states used in the worked examples of the SAM and CCG claims -/

/-- Read-only registers that are all zero: every RN-SAM is in size-encoded
mode (range comparison disabled) with an LSB position of zero. -/
def example_hw_size_mode : Regs := fun _ => 0

/-- The I/O region of the worked example: base `0x08000000`, size 128 MiB,
target node 7. -/
def example_io_region : mod_cmn_cyprus_mem_region_map :=
  { base := 0x08000000, size := 128 * FWK_MIB, node_id := 7
    hns_pos_start := default, hns_pos_end := default
    type := MOD_CMN_CYPRUS_MEM_REGION_TYPE_IO }

/-- State before `cmn_cyprus_setup_rnsam` in the worked example: chip 0, two
RN-SAMs at `0x10000` and `0x20000`, a memory map holding only
`example_io_region`, no CCG configuration, all writable registers zero. -/
def example_rnsam_system : Machine :=
  { ctx :=
      { (default : cmn_cyprus_ctx) with
        config :=
          { (default : mod_cmn_cyprus_config) with
            mmap_table := [example_io_region]
            mmap_count := 1 }
        rnsam_count := 2
        rnsam_table := [0x10000, 0x20000] }
    encoding_bits := 0
    mask_bits := 0
    rw := fun _ => 0 }

/-- What the examples observe of a run of `map_io_region`: the returned
status, `io_region_count`, the record of events and the values of the listed
registers. -/
def observe_map (r : Exec (Int × Machine)) (addrs : List Nat) :
    Option (Int × Nat × List Event × List Nat) :=
  r.toOption.map (fun p => (p.1, p.2.ctx.io_region_count, p.2.trace, addrs.map p.2.rw))

/-- Two calls of `map_io_region` in a row with the same arguments. -/
def map_io_region_twice (fuel : Nat) (hw : Regs) (base size node_id : Nat) (sys : Machine) :
    Exec (Int × Machine) := do
  let r ← map_io_region fuel hw base size node_id sys
  map_io_region fuel hw base size node_id r.2

/-- The fault in which a run stopped, if it did. -/
def fault_of {α : Type} (r : Exec α) : Option Fault :=
  match r with
  | .ok _ => none
  | .error f => some f

/-- State like `example_rnsam_system` in which all 64 non-hashed slots are
taken. -/
def example_rnsam_system_full : Machine :=
  { example_rnsam_system with
    ctx := { example_rnsam_system.ctx with io_region_count := 64 } }

/-- Context of the CCG examples: the given chip count, local chip id and
RN-F count, no RN-D and no RN-I, and one CCG gateway whose request agent,
home agent and link agent blocks are at `0x200000`, `0x300000` and
`0x400000`. -/
def example_ccg_ctx (chip_count chip_id rnf_count : Nat) : cmn_cyprus_ctx :=
  { (default : cmn_cyprus_ctx) with
    config_table := { chip_config_data := [], chip_count := chip_count }
    chip_id := chip_id
    rnf_count := rnf_count
    ccg_ra_reg_table := [{ node_id := 0x48, ccg_ra_reg := 0x200000 }]
    ccg_ha_reg_table := [{ node_id := 0x49, ccg_ha_reg := 0x300000 }]
    ccla_reg_table := [{ node_id := 0x4A, ccla_reg := 0x400000 }] }

/-- CCG configuration of the examples: one port (logical id 0, HAID 1) linked
to the given remote chip. -/
def example_ccg_config (remote_chip_id : Nat) : mod_cmn_cyprus_ccg_config :=
  { (default : mod_cmn_cyprus_ccg_config) with
    ldid := [0], haid := [1], remote_chip_id := [remote_chip_id], num_ports_in_cpag := 1 }

/-- What the examples observe of a run that writes registers: the values of
the listed registers. -/
def observe_regs (r : Exec Regs) (addrs : List Nat) : Option (List Nat) :=
  r.toOption.map (fun rw => addrs.map rw)

/-! ## Records of events (specification side) -/

/-- The record of events of a run, whether it returned or stopped in a
fault. -/
def final_trace (r : Run Machine) : List Event :=
  match r with
  | .ok sys => sys.trace
  | .error (_, trace) => trace

/-- The event is a write that sets the link-up bit (bit 2) or the DVM-domain
request bit (bit 3) of a CCG link control register. -/
def sets_up_or_dvm : Event → Bool
  | Event.link_ctrl_set _ mask => mask.testBit 2 || mask.testBit 3
  | _ => false

/-- The event is a timer wait of `bring_up_cml_protocol_links` (one of the six
conditions polled by `enable_ccg_link`, `verify_ccg_link_is_down` and
`bring_up_ccg_link`) that did not return `FWK_SUCCESS`. -/
def failed_bring_up_wait : Event → Bool
  | Event.link_wait cond status =>
    decide (status ≠ FWK_SUCCESS) &&
      (cond == CCG_LINK_CTRL_EN_BIT_SET || cond == CCG_LINK_CTRL_UP_BIT_CLR ||
        cond == CCG_LINK_STATUS_DWN_BIT_SET || cond == CCG_LINK_STATUS_ACK_BIT_CLR ||
        cond == CCG_LINK_STATUS_ACK_BIT_SET || cond == CCG_LINK_STATUS_DWN_BIT_CLR)
  | _ => false

/-- A run meets `P` on the record it returns with and `E` on the fault and
record it stops with. -/
def run_sat (P : List Event → Prop) (E : Fault → List Event → Prop) (r : Run Machine) : Prop :=
  match r with
  | .ok sys => P sys.trace
  | .error (f, trace) => E f trace

/-- No event of the record sets a link-up or DVM-domain request bit, and no
wait of the bring-up has failed. -/
def quiet_trace (trace : List Event) : Prop :=
  ∀ e ∈ trace, sets_up_or_dvm e = false ∧ failed_bring_up_wait e = false

/-- No event of the record sets a link-up or DVM-domain request bit, and if a
wait of the bring-up has failed then the fault is `fwk_trap`. -/
def quiet_halt (f : Fault) (trace : List Event) : Prop :=
  (∀ e ∈ trace, sets_up_or_dvm e = false) ∧
    ((∀ e ∈ trace, failed_bring_up_wait e = false) ∨ f = Fault.trap)

/-- No wait of the bring-up has failed. -/
def no_failed_wait (trace : List Event) : Prop :=
  ∀ e ∈ trace, failed_bring_up_wait e = false

/-- Status code `FWK_E_TIMEOUT`. -/
def FWK_E_TIMEOUT : Int := -7

/-- Timer of the worked example of the link bring-up: a wait called when
fewer than 9 events are on record succeeds (the first five waits), every later
one times out. -/
def example_timer (trace : List Event) : Int :=
  if trace.length < 9 then FWK_SUCCESS else FWK_E_TIMEOUT

/-- State of the worked example of the link bring-up: chip 0 of 2, no RN-F,
one CCG configuration `example_ccg_config 1`. -/
def example_cml_system : Machine :=
  { ctx :=
      { example_ccg_ctx 2 0 0 with
        config :=
          { (default : mod_cmn_cyprus_config) with
            ccg_config_table := [example_ccg_config 1]
            ccg_table_count := 1 } }
    encoding_bits := 0
    mask_bits := 0
    rw := fun _ => 0 }

/-! ## Register blocks (specification side) -/

/-- The register blocks of the RN-SAMs of the table do not overlap: two
entries of `rnsam_table` are equal or a whole block apart. -/
def rnsam_blocks_apart (ctx : cmn_cyprus_ctx) : Prop :=
  ∀ (i j a b : Nat), ctx.rnsam_table[i]? = some a → ctx.rnsam_table[j]? = some b →
    a = b ∨ a + RNSAM_REG_SIZE ≤ b ∨ b + RNSAM_REG_SIZE ≤ a

/-- Read-only registers of the worked example of the cache group tables: four
home nodes at `0x100000` to `0x130000` with node ids `0x40, 0x48, 0x50, 0x58`
and logical ids 0 to 3. -/
def example_scg_hw : Regs :=
  example_regs
    [(0x100000, (0x40 <<< 16) ||| (0 <<< 32)), (0x110000, (0x48 <<< 16) ||| (1 <<< 32)),
     (0x120000, (0x50 <<< 16) ||| (2 <<< 32)), (0x130000, (0x58 <<< 16) ||| (3 <<< 32))]

/-- Hashed region of the worked example: the rectangle from `(0, 0)` to
`(1, 1)`, ports 0 to 1. -/
def example_scg_region : mod_cmn_cyprus_mem_region_map :=
  { base := 0, size := 4096 * FWK_MIB, node_id := 0
    hns_pos_start := { pos_x := 0, pos_y := 0, port_num := 0, device_num := 0 }
    hns_pos_end := { pos_x := 1, pos_y := 1, port_num := 1, device_num := 0 }
    type := MOD_CMN_CYPRUS_MEM_REGION_TYPE_SYSCACHE }

/-- Context of the worked example of the cache group tables: five entries in
the HN-S table, the second isolated and the fourth outside the rectangle of
`example_scg_region`; one RN-SAM at `0x10000`. -/
def example_scg_ctx : cmn_cyprus_ctx :=
  { (default : cmn_cyprus_ctx) with
    config :=
      { (default : mod_cmn_cyprus_config) with
        snf_table := [0x80, 0x84, 0x88, 0x8C]
        snf_count := 4 }
    hns_count := 5
    hns_table :=
      [{ hns := 0x100000, node_pos := { pos_x := 0, pos_y := 0, port_num := 0, device_num := 0 },
         xp := 0 },
       { hns := 0, node_pos := { pos_x := 0, pos_y := 0, port_num := 1, device_num := 0 },
         xp := 0 },
       { hns := 0x110000, node_pos := { pos_x := 1, pos_y := 0, port_num := 0, device_num := 0 },
         xp := 0 },
       { hns := 0x120000, node_pos := { pos_x := 2, pos_y := 1, port_num := 0, device_num := 0 },
         xp := 0 },
       { hns := 0x130000, node_pos := { pos_x := 1, pos_y := 1, port_num := 1, device_num := 0 },
         xp := 0 }]
    rnsam_count := 1
    rnsam_table := [0x10000] }

/-- State like `example_system []` whose configuration declares a mesh of 12
by 9 crosspoints. -/
def example_system_12x9 : Machine :=
  { example_system [] with
    ctx :=
      { (example_system []).ctx with
        config := { example_config [] with mesh_size_x := 12, mesh_size_y := 9 } } }

/-! ## Worked examples of the port derivations of the discovery walks -/

/-- Mesh with one crosspoint of four device ports at `0x11000`, one HN-S node
(logical id 0) and one RN-SAM node with node id 4, which is on port 2 of the
crosspoint.  `PORT_CONNECT_INFO[2]` holds the RN-F device type `0x19` with the
CAL bit clear; `PORT_CONNECT_INFO[1]` holds no device. -/
def example_mesh_e : Regs :=
  example_regs
    [(0x1000, example_node_info NODE_TYPE_CFG 0 0 0), (0x1080, 1), (0x1100, 0x10000),
     (0x11000, example_node_info NODE_TYPE_XP 0 0 4),
     (0x11080, 2), (0x11100, 0x20000), (0x11108, 0x30000),
     (0x11010, 0), (0x11018, DEVICE_TYPE_RN_F_CHIE_ESAM),
     (0x21000, example_node_info NODE_TYPE_HN_S 0 0 0),
     (0x31000, example_node_info NODE_TYPE_RN_SAM 4 0 0)]

/-- Mesh with one internal HN-S node (logical id 0) whose node id 4 puts it on
port 1 of the crosspoint `0x11000`, while its child pointer `0x20000` has bit
16 clear. -/
def example_mesh_f : Regs :=
  example_regs (example_root ++
    [(0x11080, 1), (0x11100, 0x20000),
     (0x21000, example_node_info NODE_TYPE_HN_S 4 0 0)])

/-! ## Worked examples of the later programming passes -/

/-- Context with two entries in the HN-S table, the first isolated (null
register pointer) and the second with its registers at `0x100000`; the table
itself lies at `0x20001000`; one CCG gateway. -/
def example_hns_by_address_ctx : cmn_cyprus_ctx :=
  { example_ccg_ctx 2 0 1 with
    hns_count := 2
    hns_table :=
      [{ hns := 0, node_pos := default, xp := 0 },
       { hns := 0x100000, node_pos := default, xp := 0 }]
    hns_table_addr := 0x20001000 }

/-- Context of the hierarchical hashing example of a cache group: eight home
nodes, two clusters, one cache group. -/
def example_hier_ctx : cmn_cyprus_ctx :=
  { (default : cmn_cyprus_ctx) with
    config :=
      { (default : mod_cmn_cyprus_config) with
        hierarchical_hashing_enable := true
        hierarchical_hashing_config :=
          { hns_cluster_count := 2, sn_mode := MOD_CMN_CYPRUS_3_SN_MODE
            top_address_bit0 := 28, top_address_bit1 := 30, top_address_bit2 := 0 } }
    hns_count := 8
    scg_count := 1 }

/-- System of the CAL mode example: the context of `example_scg_ctx` with
`hns_cal_mode` set, one cache group counted, and all writable registers
zero; every flag of `scg_enabled` is clear, as after initialisation. -/
def example_cal_system : Machine :=
  { ctx :=
      { example_scg_ctx with
        config := { example_scg_ctx.config with hns_cal_mode := true }
        scg_count := 1
        scg_enabled := [false, false, false, false] }
    encoding_bits := 0
    mask_bits := 0
    rw := fun _ => 0 }

/-- What the CAL mode example observes of a run of `configure_scg_region`: the
flags `scg_enabled` and the values of the listed registers. -/
def observe_scg (r : Exec Machine) (addrs : List Nat) : Option (List Bool × List Nat) :=
  r.toOption.map (fun s => (s.ctx.scg_enabled, addrs.map s.rw))

/-- Context of the remote slot example: chip 1 of 2 with two local RN-Fs, one
HN-S table entry, the table at `0x20001000`, and one CCG gateway. -/
def example_remote_slots_ctx : cmn_cyprus_ctx :=
  { example_ccg_ctx 2 1 2 with
    hns_count := 1
    hns_table := [{ hns := 0x100000, node_pos := default, xp := 0 }]
    hns_table_addr := 0x20001000 }

/-- Context of the hierarchical hashing examples of the HN-S SAM: the given
number of home nodes, two clusters and six SN-F nodes. -/
def example_hier_hns_ctx (hns_count : Nat) : cmn_cyprus_ctx :=
  { (default : cmn_cyprus_ctx) with
    config :=
      { (default : mod_cmn_cyprus_config) with
        hierarchical_hashing_enable := true
        hierarchical_hashing_config :=
          { hns_cluster_count := 2, sn_mode := MOD_CMN_CYPRUS_3_SN_MODE
            top_address_bit0 := 28, top_address_bit1 := 30, top_address_bit2 := 0 }
        snf_table := [0x10, 0x14, 0x18, 0x20, 0x24, 0x28]
        snf_count := 6 }
    hns_count := hns_count }

/-! # Theorems -/

/-! ## Loops -/

theorem for_loop_next_rec {σ : Type} (body : Nat → σ → Flow σ)
    (Q : List Nat → σ → σ → Prop)
    (hnil : ∀ s, Q [] s s)
    (hcons : ∀ i l s s1 s2, body i s = Flow.next s1 → Q l s1 s2 → Q (i :: l) s s2) :
    ∀ (l : List Nat) (s s2 : σ), for_loop body l s = Flow.next s2 → Q l s s2 := by
  intro l
  induction l with
  | nil =>
    intro s s2 h
    simp only [for_loop, Flow.next.injEq] at h
    subst h
    exact hnil s
  | cons i l ih =>
    intro s s2 h
    simp only [for_loop] at h
    cases hb : body i s with
    | next s1 =>
      rw [hb] at h
      exact hcons i l s s1 s2 hb (ih s1 s2 h)
    | ret st s1 => rw [hb] at h; cases h
    | fault f => rw [hb] at h; cases h

theorem for_loop_ret {σ : Type} (body : Nat → σ → Flow σ) (P : Int → Prop)
    (hbody : ∀ i s st s1, body i s = Flow.ret st s1 → P st) :
    ∀ (l : List Nat) (s : σ) (st : Int) (s2 : σ),
      for_loop body l s = Flow.ret st s2 → P st := by
  intro l
  induction l with
  | nil => intro s st s2 h; simp only [for_loop] at h; cases h
  | cons i l ih =>
    intro s st s2 h
    simp only [for_loop] at h
    cases hb : body i s with
    | next s1 => rw [hb] at h; exact ih s1 st s2 h
    | ret st1 s1 =>
      rw [hb] at h
      cases h
      exact hbody i s st s2 hb
    | fault f => rw [hb] at h; cases h

theorem for_loop_total {σ : Type} (body : Nat → σ → Flow σ) (I : σ → Prop)
    (hbody : ∀ i s, I s → ∃ s1, body i s = Flow.next s1 ∧ I s1) :
    ∀ (l : List Nat) (s : σ), I s → ∃ s2, for_loop body l s = Flow.next s2 ∧ I s2 := by
  intro l
  induction l with
  | nil => intro s hs; exact ⟨s, rfl, hs⟩
  | cons i l ih =>
    intro s hs
    obtain ⟨s1, h1, hI1⟩ := hbody i s hs
    obtain ⟨s2, h2, hI2⟩ := ih s1 hI1
    exact ⟨s2, by simp only [for_loop, h1, h2], hI2⟩

/-! ## popcount -/

theorem popcount_bits_eq_zero :
    ∀ (w n : Nat), popcount_bits w n = 0 → n % 2 ^ w = 0 := by
  intro w
  induction w with
  | zero => intro n _; simp [Nat.mod_one]
  | succ w ih =>
    intro n h
    simp only [popcount_bits] at h
    have h1 : n / 2 % 2 ^ w = 0 := ih (n / 2) (by omega)
    rw [pow_succ, Nat.mul_comm, Nat.mod_mul, h1]
    omega

theorem popcount_bits_eq_one :
    ∀ (w n : Nat), popcount_bits w n = 1 → ∃ k, k < w ∧ n % 2 ^ w = 2 ^ k := by
  intro w
  induction w with
  | zero => intro n h; simp [popcount_bits] at h
  | succ w ih =>
    intro n h
    simp only [popcount_bits] at h
    rcases Nat.mod_two_eq_zero_or_one n with h0 | h1
    · obtain ⟨k, hk, hmod⟩ := ih (n / 2) (by omega)
      refine ⟨k + 1, by omega, ?_⟩
      rw [pow_succ 2 w, Nat.mul_comm (2 ^ w) 2, Nat.mod_mul, hmod, h0, pow_succ]
      omega
    · have h2 := popcount_bits_eq_zero w (n / 2) (by omega)
      refine ⟨0, by omega, ?_⟩
      rw [pow_succ 2 w, Nat.mul_comm (2 ^ w) 2, Nat.mod_mul, h2, h1]
      rfl

theorem builtin_popcount_eq_one (n : Nat) (h : builtin_popcount n = 1) :
    ∃ k, k < 32 ∧ n % UINT_MOD = 2 ^ k :=
  popcount_bits_eq_one 32 n h

/-! ## walk effects -/

theorem walk_effect_refl (d : discover_state) : walk_effect 0 0 0 0 d d :=
  ⟨rfl, rfl, rfl, id, rfl, id, rfl, id, rfl, rfl⟩

theorem walk_effect_trans {a b c e a1 b1 c1 e1 : Nat} {d d1 d2 : discover_state}
    (h1 : walk_effect a b c e d d1) (h2 : walk_effect a1 b1 c1 e1 d1 d2) :
    walk_effect (a + a1) (b + b1) (c + c1) (e + e1) d d2 where
  config := h2.config.trans h1.config
  root := h2.root.trans h1.root
  hns := by rw [h2.hns, h1.hns]; omega
  hns_le := fun h => h2.hns_le (h1.hns_le h)
  rnd := by rw [h2.rnd, h1.rnd]; omega
  rnd_le := fun h => h2.rnd_le (h1.rnd_le h)
  rni := by rw [h2.rni, h1.rni]; omega
  rni_le := fun h => h2.rni_le (h1.rni_le h)
  rnf := by
    rw [h2.rnf, Nat.add_mod, h1.rnf, ← Nat.add_mod, Nat.add_assoc]
  flag := h2.flag.trans h1.flag


theorem discover_case_hn_s_next (d d1 : discover_state)
    (h : discover_case_hn_s d = Flow.next d1) : walk_effect 1 0 0 0 d d1 := by
  unfold discover_case_hn_s at h
  split_ifs at h with hmax
  cases h
  simp only [MAX_HNS_COUNT, ge_iff_le, not_le] at hmax
  constructor <;> simp [discover_state.set_ctx, UINT_MOD, MAX_HNS_COUNT] <;> omega

theorem discover_case_rn_d_next (d d1 : discover_state)
    (h : discover_case_rn_d d = Flow.next d1) : walk_effect 0 1 0 0 d d1 := by
  unfold discover_case_rn_d at h
  split_ifs at h with hmax
  cases h
  simp only [MAX_RND_COUNT, ge_iff_le, not_le] at hmax
  constructor <;> simp [discover_state.set_ctx, UINT_MOD, MAX_RND_COUNT] <;> omega

theorem discover_case_rn_i_next (d d1 : discover_state)
    (h : discover_case_rn_i d = Flow.next d1) : walk_effect 0 0 1 0 d d1 := by
  unfold discover_case_rn_i at h
  split_ifs at h with hmax
  cases h
  simp only [MAX_RNI_COUNT, ge_iff_le, not_le] at hmax
  constructor <;> simp [discover_state.set_ctx, UINT_MOD, MAX_RNI_COUNT] <;> omega

theorem discover_case_rn_sam_next (hw : Regs) (xp node : Nat) (d d1 : discover_state)
    (h : discover_case_rn_sam hw xp node d = Flow.next d1) :
    walk_effect 0 0 0
      (if is_device_type_rnf hw xp
          (get_port_number (get_node_id hw node) (get_node_device_port_count hw xp)) = true then
        if is_cal_connected hw xp
          (get_port_number (get_node_id hw node) (get_node_device_port_count hw xp)) = true then 2
        else 1
      else 0) d d1 := by
  unfold discover_case_rn_sam at h
  simp only at h
  split_ifs at h <;> cases h <;>
    constructor <;> simp_all [discover_state.set_ctx]

theorem walk_effect_of_ctx_eq {d d1 : discover_state} (h : d1.sys.ctx = d.sys.ctx) :
    walk_effect 0 0 0 0 d d1 := by
  constructor <;> simp [h]


theorem discover_internal_node_next (hw : Regs) (xp node : Nat) (d d1 : discover_state)
    (h : discover_internal_node hw xp node d = Flow.next d1) :
    walk_effect (if get_node_type hw node = NODE_TYPE_HN_S then 1 else 0)
      (if get_node_type hw node = NODE_TYPE_RN_D then 1 else 0)
      (if get_node_type hw node = NODE_TYPE_RN_I then 1 else 0)
      (if get_node_type hw node = NODE_TYPE_RN_SAM ∧
          is_device_type_rnf hw xp
            (get_port_number (get_node_id hw node) (get_node_device_port_count hw xp)) = true then
        if is_cal_connected hw xp
          (get_port_number (get_node_id hw node) (get_node_device_port_count hw xp)) = true then 2
        else 1
      else 0) d d1 := by
  unfold discover_internal_node at h
  simp only at h
  by_cases h1 : get_node_type hw node = NODE_TYPE_HN_S
  · rw [if_pos h1] at h
    have := discover_case_hn_s_next d d1 h
    simpa [h1, NODE_TYPE_HN_S, NODE_TYPE_RN_D, NODE_TYPE_RN_I, NODE_TYPE_RN_SAM] using this
  rw [if_neg h1] at h
  by_cases h2 : get_node_type hw node = NODE_TYPE_RN_SAM
  · rw [if_pos h2] at h
    have := discover_case_rn_sam_next hw xp node d d1 h
    simpa [h2, NODE_TYPE_HN_S, NODE_TYPE_RN_D, NODE_TYPE_RN_I, NODE_TYPE_RN_SAM] using this
  rw [if_neg h2] at h
  by_cases h3 : get_node_type hw node = NODE_TYPE_RN_D
  · rw [if_pos h3] at h
    have := discover_case_rn_d_next d d1 h
    simpa [h3, NODE_TYPE_HN_S, NODE_TYPE_RN_D, NODE_TYPE_RN_I, NODE_TYPE_RN_SAM] using this
  rw [if_neg h3] at h
  by_cases h4 : get_node_type hw node = NODE_TYPE_RN_I
  · rw [if_pos h4] at h
    have := discover_case_rn_i_next d d1 h
    simpa [h4, NODE_TYPE_HN_S, NODE_TYPE_RN_D, NODE_TYPE_RN_I, NODE_TYPE_RN_SAM] using this
  rw [if_neg h4] at h
  rw [if_neg h1, if_neg h3, if_neg h4, if_neg (fun hc => h2 hc.1)]
  apply walk_effect_of_ctx_eq
  apply congrArg Machine.ctx
  split_ifs at h <;> cases h <;> rfl

theorem discover_external_node_next (hw : Regs) (xp node_idx : Nat) (d d1 : discover_state)
    (h : discover_external_node hw xp node_idx d = Flow.next d1) :
    walk_effect 0 0 0 0 d d1 := by
  unfold discover_external_node at h
  simp only at h
  apply walk_effect_of_ctx_eq
  apply congrArg Machine.ctx
  split_ifs at h <;> cases h <;> rfl

theorem discover_node_next (hw : Regs) (xp i : Nat) (d d1 : discover_state)
    (h : discover_node hw xp i d = Flow.next d1) :
    walk_effect (type_weight NODE_TYPE_HN_S hw d.sys.ctx xp i)
      (type_weight NODE_TYPE_RN_D hw d.sys.ctx xp i)
      (type_weight NODE_TYPE_RN_I hw d.sys.ctx xp i)
      (rnf_weight hw d.sys.ctx xp i) d d1 := by
  unfold discover_node at h
  by_cases hiso : is_node_isolated (get_child_node hw d.sys.ctx.config.base xp i) d.sys.ctx = true
  · rw [if_pos hiso] at h
    cases h
    simpa [type_weight, rnf_weight, node_counted, hiso] using walk_effect_refl d
  rw [if_neg hiso] at h
  by_cases hext : is_child_external hw xp i = true
  · rw [if_pos hext] at h
    simpa [type_weight, rnf_weight, node_counted, hext] using
      discover_external_node_next hw xp i d d1 h
  rw [if_neg hext] at h
  simpa [type_weight, rnf_weight, node_counted, hiso, hext] using
    discover_internal_node_next hw xp _ d d1 h

theorem discover_internal_node_ret (hw : Regs) (xp node : Nat) (d d1 : discover_state)
    (st : Int) (h : discover_internal_node hw xp node d = Flow.ret st d1) :
    st ≠ FWK_SUCCESS := by
  unfold discover_internal_node at h
  simp only at h
  by_cases h1 : get_node_type hw node = NODE_TYPE_HN_S
  · rw [if_pos h1] at h
    unfold discover_case_hn_s at h
    split_ifs at h
    cases h
    decide
  rw [if_neg h1] at h
  by_cases h2 : get_node_type hw node = NODE_TYPE_RN_SAM
  · rw [if_pos h2] at h
    unfold discover_case_rn_sam at h
    simp only at h
    split_ifs at h
  rw [if_neg h2] at h
  by_cases h3 : get_node_type hw node = NODE_TYPE_RN_D
  · rw [if_pos h3] at h
    unfold discover_case_rn_d at h
    split_ifs at h
    cases h
    decide
  rw [if_neg h3] at h
  by_cases h4 : get_node_type hw node = NODE_TYPE_RN_I
  · rw [if_pos h4] at h
    unfold discover_case_rn_i at h
    split_ifs at h
    cases h
    decide
  rw [if_neg h4] at h
  split_ifs at h
  cases h
  decide

theorem discover_node_ret (hw : Regs) (xp i : Nat) (d d1 : discover_state) (st : Int)
    (h : discover_node hw xp i d = Flow.ret st d1) : st ≠ FWK_SUCCESS := by
  unfold discover_node at h
  by_cases hiso : is_node_isolated (get_child_node hw d.sys.ctx.config.base xp i) d.sys.ctx = true
  · rw [if_pos hiso] at h
    cases h
  rw [if_neg hiso] at h
  by_cases hext : is_child_external hw xp i = true
  · rw [if_pos hext] at h
    unfold discover_external_node at h
    simp only at h
    split_ifs at h
  rw [if_neg hext] at h
  exact discover_internal_node_ret hw xp _ d d1 st h

theorem type_weight_congr (t : Nat) (hw : Regs) (ctx ctx1 : cmn_cyprus_ctx)
    (h : ctx1.config = ctx.config) : type_weight t hw ctx1 = type_weight t hw ctx := by
  funext xp i
  simp only [type_weight, node_counted, is_node_isolated, h]

theorem rnf_weight_congr (hw : Regs) (ctx ctx1 : cmn_cyprus_ctx)
    (h : ctx1.config = ctx.config) : rnf_weight hw ctx1 = rnf_weight hw ctx := by
  funext xp i
  simp only [rnf_weight, node_counted, is_node_isolated, h]

theorem discover_node_loop_next (hw : Regs) (xp : Nat) (l : List Nat) (d d1 : discover_state)
    (h : for_loop (discover_node hw xp) l d = Flow.next d1) :
    walk_effect ((l.map (type_weight NODE_TYPE_HN_S hw d.sys.ctx xp)).sum)
      ((l.map (type_weight NODE_TYPE_RN_D hw d.sys.ctx xp)).sum)
      ((l.map (type_weight NODE_TYPE_RN_I hw d.sys.ctx xp)).sum)
      ((l.map (rnf_weight hw d.sys.ctx xp)).sum) d d1 := by
  refine for_loop_next_rec (discover_node hw xp)
    (fun l d d1 =>
      walk_effect ((l.map (type_weight NODE_TYPE_HN_S hw d.sys.ctx xp)).sum)
        ((l.map (type_weight NODE_TYPE_RN_D hw d.sys.ctx xp)).sum)
        ((l.map (type_weight NODE_TYPE_RN_I hw d.sys.ctx xp)).sum)
        ((l.map (rnf_weight hw d.sys.ctx xp)).sum) d d1) ?_ ?_ l d d1 h
  · intro s
    exact walk_effect_refl s
  · intro i l s s1 s2 hb hq
    have h1 := discover_node_next hw xp i s s1 hb
    simp only [type_weight_congr _ hw s.sys.ctx s1.sys.ctx h1.config,
      rnf_weight_congr hw s.sys.ctx s1.sys.ctx h1.config] at hq
    simpa only [List.map_cons, List.sum_cons] using walk_effect_trans h1 hq

theorem disable_hns_isolation_next (hw : Regs) (xp : Nat) (sys : Machine) :
    ∃ sys1, disable_hns_isolation hw xp sys = Flow.next sys1 ∧ sys1.ctx = sys.ctx ∧
      sys1.encoding_bits = sys.encoding_bits ∧ sys1.mask_bits = sys.mask_bits := by
  have hdev : ∀ port_num i (s : Machine),
      (s.ctx = sys.ctx ∧ s.encoding_bits = sys.encoding_bits ∧ s.mask_bits = sys.mask_bits) →
      ∃ s1, disable_hns_isolation_device hw xp port_num i s = Flow.next s1 ∧
        (s1.ctx = sys.ctx ∧ s1.encoding_bits = sys.encoding_bits ∧
          s1.mask_bits = sys.mask_bits) := by
    intro port_num i s hs
    unfold disable_hns_isolation_device
    simp only
    split_ifs
    · exact ⟨s, rfl, hs⟩
    · exact ⟨_, rfl, hs⟩
  have hport : ∀ i (s : Machine),
      (s.ctx = sys.ctx ∧ s.encoding_bits = sys.encoding_bits ∧ s.mask_bits = sys.mask_bits) →
      ∃ s1, disable_hns_isolation_port hw xp i s = Flow.next s1 ∧
        (s1.ctx = sys.ctx ∧ s1.encoding_bits = sys.encoding_bits ∧
          s1.mask_bits = sys.mask_bits) := by
    intro i s hs
    unfold disable_hns_isolation_port
    simp only
    split_ifs
    · exact ⟨s, rfl, hs⟩
    · exact for_loop_total _ _ (hdev i) _ s hs
  exact for_loop_total _ _ hport _ sys ⟨rfl, rfl, rfl⟩

theorem discover_xp_next (hw : Regs) (i : Nat) (d d1 : discover_state)
    (h : discover_xp hw i d = Flow.next d1) :
    walk_effect
      (xp_population (type_weight NODE_TYPE_HN_S hw d.sys.ctx) hw
        (get_child_node hw d.sys.ctx.config.base d.sys.ctx.root i))
      (xp_population (type_weight NODE_TYPE_RN_D hw d.sys.ctx) hw
        (get_child_node hw d.sys.ctx.config.base d.sys.ctx.root i))
      (xp_population (type_weight NODE_TYPE_RN_I hw d.sys.ctx) hw
        (get_child_node hw d.sys.ctx.config.base d.sys.ctx.root i))
      (xp_population (rnf_weight hw d.sys.ctx) hw
        (get_child_node hw d.sys.ctx.config.base d.sys.ctx.root i)) d d1 := by
  unfold discover_xp at h
  simp only at h
  split_ifs at h with hty
  obtain ⟨sys1, hdis, hctx, -, -⟩ :=
    disable_hns_isolation_next hw (get_child_node hw d.sys.ctx.config.base d.sys.ctx.root i) d.sys
  rw [hdis] at h
  simp only at h
  have h1 := discover_node_loop_next hw _ _ _ d1 h
  dsimp only at h1
  rw [hctx] at h1
  have h0 : walk_effect 0 0 0 0 d { d with sys := sys1 } := walk_effect_of_ctx_eq hctx
  simpa only [xp_population, Nat.zero_add] using walk_effect_trans h0 h1

theorem discover_xp_ret (hw : Regs) (i : Nat) (d d1 : discover_state) (st : Int)
    (h : discover_xp hw i d = Flow.ret st d1) : st ≠ FWK_SUCCESS := by
  unfold discover_xp at h
  simp only at h
  split_ifs at h with hty
  obtain ⟨sys1, hdis, -⟩ :=
    disable_hns_isolation_next hw (get_child_node hw d.sys.ctx.config.base d.sys.ctx.root i) d.sys
  rw [hdis] at h
  simp only at h
  exact for_loop_ret _ (fun st => st ≠ FWK_SUCCESS)
    (fun i s st s1 hb => discover_node_ret hw _ i s s1 st hb) _ _ st d1 h

theorem discover_xp_loop_next (hw : Regs) (l : List Nat) (d d1 : discover_state)
    (h : for_loop (discover_xp hw) l d = Flow.next d1) :
    walk_effect
      ((l.map (fun i => xp_population (type_weight NODE_TYPE_HN_S hw d.sys.ctx) hw
        (get_child_node hw d.sys.ctx.config.base d.sys.ctx.root i))).sum)
      ((l.map (fun i => xp_population (type_weight NODE_TYPE_RN_D hw d.sys.ctx) hw
        (get_child_node hw d.sys.ctx.config.base d.sys.ctx.root i))).sum)
      ((l.map (fun i => xp_population (type_weight NODE_TYPE_RN_I hw d.sys.ctx) hw
        (get_child_node hw d.sys.ctx.config.base d.sys.ctx.root i))).sum)
      ((l.map (fun i => xp_population (rnf_weight hw d.sys.ctx) hw
        (get_child_node hw d.sys.ctx.config.base d.sys.ctx.root i))).sum) d d1 := by
  refine for_loop_next_rec (discover_xp hw)
    (fun l d d1 =>
      walk_effect
        ((l.map (fun i => xp_population (type_weight NODE_TYPE_HN_S hw d.sys.ctx) hw
          (get_child_node hw d.sys.ctx.config.base d.sys.ctx.root i))).sum)
        ((l.map (fun i => xp_population (type_weight NODE_TYPE_RN_D hw d.sys.ctx) hw
          (get_child_node hw d.sys.ctx.config.base d.sys.ctx.root i))).sum)
        ((l.map (fun i => xp_population (type_weight NODE_TYPE_RN_I hw d.sys.ctx) hw
          (get_child_node hw d.sys.ctx.config.base d.sys.ctx.root i))).sum)
        ((l.map (fun i => xp_population (rnf_weight hw d.sys.ctx) hw
          (get_child_node hw d.sys.ctx.config.base d.sys.ctx.root i))).sum) d d1) ?_ ?_ l d d1 h
  · intro s
    exact walk_effect_refl s
  · intro i l s s1 s2 hb hq
    have h1 := discover_xp_next hw i s s1 hb
    simp only [type_weight_congr _ hw s.sys.ctx s1.sys.ctx h1.config,
      rnf_weight_congr hw s.sys.ctx s1.sys.ctx h1.config, h1.config, h1.root] at hq
    simpa only [List.map_cons, List.sum_cons] using walk_effect_trans h1 hq

theorem discover_walk_next (hw : Regs) (sys : Machine) (d : discover_state)
    (h : discover_walk hw sys = Flow.next d) :
    walk_effect (hns_population hw sys.ctx) (rnd_population hw sys.ctx)
      (rni_population hw sys.ctx) (rnf_population hw sys.ctx) (discover_start sys) d := by
  unfold discover_walk at h
  simp only at h
  split_ifs at h with hty
  exact discover_xp_loop_next hw _ _ d h

theorem discover_walk_ret (hw : Regs) (sys : Machine) (d : discover_state) (st : Int)
    (h : discover_walk hw sys = Flow.ret st d) : st ≠ FWK_SUCCESS := by
  unfold discover_walk at h
  simp only at h
  split_ifs at h with hty
  exact for_loop_ret _ (fun st => st ≠ FWK_SUCCESS)
    (fun i s st s1 hb => discover_xp_ret hw i s s1 st hb) _ _ st d h

theorem for_loop_no_fault {σ : Type} (body : Nat → σ → Flow σ) (I : σ → Prop)
    (hnext : ∀ i s s1, I s → body i s = Flow.next s1 → I s1) :
    ∀ (l : List Nat), (∀ i ∈ l, ∀ s f, I s → body i s ≠ Flow.fault f) →
      ∀ s f, I s → for_loop body l s ≠ Flow.fault f := by
  intro l
  induction l with
  | nil => intro _ s f _ h; simp only [for_loop] at h; cases h
  | cons i l ih =>
    intro hbody s f hs h
    simp only [for_loop] at h
    cases hb : body i s with
    | next s1 =>
      rw [hb] at h
      exact ih (fun j hj => hbody j (List.mem_cons_of_mem i hj)) s1 f (hnext i s s1 hs hb) h
    | ret st s1 => rw [hb] at h; cases h
    | fault f1 => exact hbody i (List.mem_cons_self i l) s f1 hs hb

theorem discover_internal_node_no_fault (hw : Regs) (xp node : Nat) (d : discover_state)
    (f : Fault) : discover_internal_node hw xp node d ≠ Flow.fault f := by
  intro h
  unfold discover_internal_node at h
  simp only at h
  by_cases h1 : get_node_type hw node = NODE_TYPE_HN_S
  · rw [if_pos h1] at h
    unfold discover_case_hn_s at h
    split_ifs at h
  rw [if_neg h1] at h
  by_cases h2 : get_node_type hw node = NODE_TYPE_RN_SAM
  · rw [if_pos h2] at h
    unfold discover_case_rn_sam at h
    simp only at h
    split_ifs at h
  rw [if_neg h2] at h
  by_cases h3 : get_node_type hw node = NODE_TYPE_RN_D
  · rw [if_pos h3] at h
    unfold discover_case_rn_d at h
    split_ifs at h
  rw [if_neg h3] at h
  by_cases h4 : get_node_type hw node = NODE_TYPE_RN_I
  · rw [if_pos h4] at h
    unfold discover_case_rn_i at h
    split_ifs at h
  rw [if_neg h4] at h
  split_ifs at h

theorem discover_node_no_fault (hw : Regs) (xp i : Nat) (d : discover_state) (f : Fault) :
    discover_node hw xp i d ≠ Flow.fault f := by
  intro h
  unfold discover_node at h
  by_cases hiso : is_node_isolated (get_child_node hw d.sys.ctx.config.base xp i) d.sys.ctx = true
  · rw [if_pos hiso] at h
    cases h
  rw [if_neg hiso] at h
  by_cases hext : is_child_external hw xp i = true
  · rw [if_pos hext] at h
    unfold discover_external_node at h
    simp only at h
    split_ifs at h
  rw [if_neg hext] at h
  exact discover_internal_node_no_fault hw xp _ d f h

theorem discover_xp_no_fault (hw : Regs) (i : Nat) (d : discover_state) (f : Fault)
    (hty : get_node_type hw (get_child_node hw d.sys.ctx.config.base d.sys.ctx.root i) =
      NODE_TYPE_XP) :
    discover_xp hw i d ≠ Flow.fault f := by
  intro h
  unfold discover_xp at h
  simp only at h
  rw [if_neg (not_not.mpr hty)] at h
  obtain ⟨sys1, hdis, -⟩ :=
    disable_hns_isolation_next hw (get_child_node hw d.sys.ctx.config.base d.sys.ctx.root i) d.sys
  rw [hdis] at h
  simp only at h
  exact for_loop_no_fault _ (fun _ => True) (fun _ _ _ _ _ => trivial) _
    (fun j _ s f1 _ => discover_node_no_fault hw _ j s f1) _ f trivial h

theorem discover_walk_no_fault (hw : Regs) (sys : Machine) (f : Fault)
    (hty : mesh_typed hw sys.ctx) : discover_walk hw sys ≠ Flow.fault f := by
  intro h
  unfold discover_walk at h
  simp only at h
  have hroot : get_node_type hw (discover_start sys).sys.ctx.root = NODE_TYPE_CFG := hty.1
  rw [if_neg (not_not.mpr hroot)] at h
  refine for_loop_no_fault (discover_xp hw)
    (fun d => d.sys.ctx.config = sys.ctx.config ∧ d.sys.ctx.root = sys.ctx.root) ?_ _ ?_ _ f
    ⟨rfl, rfl⟩ h
  · intro i s s1 hs hb
    have h1 := discover_xp_next hw i s s1 hb
    exact ⟨h1.config.trans hs.1, h1.root.trans hs.2⟩
  · intro i hi s f1 hs
    apply discover_xp_no_fault
    rw [hs.1, hs.2]
    exact hty.2 i (List.mem_range.mp hi)

theorem discover_mesh_topology_returns (hw : Regs) (sys : Machine)
    (hty : mesh_typed hw sys.ctx) :
    ∃ st sys1, discover_mesh_topology hw sys = .ok (st, sys1) := by
  unfold discover_mesh_topology
  cases hwalk : discover_walk hw sys with
  | next d => exact ⟨_, _, rfl⟩
  | ret st d => exact ⟨_, _, rfl⟩
  | fault f => exact absurd hwalk (discover_walk_no_fault hw sys f hty)

theorem discover_checks_not_pow2 (d : discover_state)
    (h : builtin_popcount d.sys.ctx.hns_count ≠ 1) :
    (discover_checks d).1 = FWK_E_DATA := by
  unfold discover_checks
  simp only
  split_ifs with hcal
  · rfl
  · rfl

theorem discover_start_ctx (sys : Machine) : (discover_start sys).sys.ctx = sys.ctx := rfl

/-- What a successful `discover_mesh_topology` tells about the walk. -/
theorem discover_success_walk (hw : Regs) (sys sys1 : Machine)
    (h : discover_mesh_topology hw sys = .ok (FWK_SUCCESS, sys1)) :
    ∃ d, discover_walk hw sys = Flow.next d ∧ discover_checks d = (FWK_SUCCESS, sys1) := by
  unfold discover_mesh_topology at h
  cases hwalk : discover_walk hw sys with
  | next d =>
    rw [hwalk] at h
    simp only [Except.ok.injEq] at h
    exact ⟨d, rfl, h⟩
  | ret st d =>
    rw [hwalk] at h
    simp only [Except.ok.injEq, Prod.mk.injEq] at h
    exact absurd h.1 (discover_walk_ret hw sys d st hwalk)
  | fault f => rw [hwalk] at h; cases h

theorem discover_status_ne_success_of_walk (hw : Regs) (sys : Machine)
    (hno : ∀ d, discover_walk hw sys = Flow.next d → (discover_checks d).1 ≠ FWK_SUCCESS)
    (st : Int) (sys1 : Machine) (h : discover_mesh_topology hw sys = .ok (st, sys1)) :
    st ≠ FWK_SUCCESS := by
  intro hst
  subst hst
  obtain ⟨d, hwalk, hchk⟩ := discover_success_walk hw sys sys1 h
  exact hno d hwalk (by rw [hchk])

/-! ## Discovery: power-of-two check and population maxima -/

theorem discover_walk_counts (hw : Regs) (sys : Machine) (hz : zero_counts sys.ctx)
    (d : discover_state) (h : discover_walk hw sys = Flow.next d) :
    d.sys.ctx.config = sys.ctx.config ∧
    d.sys.ctx.hns_count = hns_population hw sys.ctx ∧
    d.sys.ctx.hns_count ≤ MAX_HNS_COUNT ∧
    d.sys.ctx.rnd_count = rnd_population hw sys.ctx ∧
    d.sys.ctx.rnd_count ≤ MAX_RND_COUNT ∧
    d.sys.ctx.rni_count = rni_population hw sys.ctx ∧
    d.sys.ctx.rni_count ≤ MAX_RNI_COUNT ∧
    d.sys.ctx.rnf_count % UINT_MOD = rnf_population hw sys.ctx % UINT_MOD := by
  have hw1 := discover_walk_next hw sys d h
  obtain ⟨h1, -, h3, h4, h5⟩ := hz
  have e := discover_start_ctx sys
  refine ⟨hw1.config.trans (by rw [e]), ?_, ?_, ?_, ?_, ?_, ?_, ?_⟩
  · rw [hw1.hns, e, h1, Nat.zero_add]
  · exact hw1.hns_le (by rw [e, h1]; exact Nat.zero_le _)
  · rw [hw1.rnd, e, h3, Nat.zero_add]
  · exact hw1.rnd_le (by rw [e, h3]; exact Nat.zero_le _)
  · rw [hw1.rni, e, h5, Nat.zero_add]
  · exact hw1.rni_le (by rw [e, h5]; exact Nat.zero_le _)
  · rw [hw1.rnf, e, h4, Nat.zero_add]

/-- C2: starting from zero counts, a mesh whose number of non-isolated internal
HN-S nodes is not a power of two (zero included) never makes
`discover_mesh_topology` return `FWK_SUCCESS`; when the walk over the mesh
finishes without an earlier error the status is `FWK_E_DATA`; when the node
type assertions of the walk hold the function does return; and
`cmn_cyprus_discovery` then stops in a fault (`fwk_trap` whenever the status
was returned) before any table is allocated or filled. -/
theorem discover_mesh_topology_rejects_non_power_of_two (hw : Regs) (sys : Machine)
    (hz : zero_counts sys.ctx) (hn : ¬ ∃ k, hns_population hw sys.ctx = 2 ^ k) :
    (∀ st sys1, discover_mesh_topology hw sys = .ok (st, sys1) → st ≠ FWK_SUCCESS) ∧
    (∀ d, discover_walk hw sys = Flow.next d →
      ∃ sys1, discover_mesh_topology hw sys = .ok (FWK_E_DATA, sys1)) ∧
    (mesh_typed hw sys.ctx →
      ∃ st sys1, discover_mesh_topology hw sys = .ok (st, sys1) ∧ st ≠ FWK_SUCCESS) ∧
    (sys.ctx.is_initialized = false → ∃ f, cmn_cyprus_discovery hw sys = .error f) ∧
    (sys.ctx.is_initialized = false → mesh_typed hw sys.ctx →
      cmn_cyprus_discovery hw sys = .error Fault.trap) := by
  have hpop : ∀ d, discover_walk hw sys = Flow.next d →
      builtin_popcount d.sys.ctx.hns_count ≠ 1 := by
    intro d hd hp
    obtain ⟨-, h2, h3, -⟩ := discover_walk_counts hw sys hz d hd
    obtain ⟨k, -, hk⟩ := builtin_popcount_eq_one _ hp
    have hlt : d.sys.ctx.hns_count < UINT_MOD := by
      have : MAX_HNS_COUNT < UINT_MOD := by norm_num [MAX_HNS_COUNT, UINT_MOD]
      omega
    rw [Nat.mod_eq_of_lt hlt, h2] at hk
    exact hn ⟨k, hk⟩
  have hne : ∀ st sys1, discover_mesh_topology hw sys = .ok (st, sys1) → st ≠ FWK_SUCCESS :=
    discover_status_ne_success_of_walk hw sys (fun d hd => by
      rw [discover_checks_not_pow2 d (hpop d hd)]
      decide)
  have htrap : ∀ st sys1, sys.ctx.is_initialized = false →
      discover_mesh_topology hw sys = .ok (st, sys1) →
      cmn_cyprus_discovery hw sys = .error Fault.trap := by
    intro st sys1 hinit h
    unfold cmn_cyprus_discovery
    rw [hinit, h]
    simp only [Bool.false_eq_true, if_false]
    rw [if_pos (hne st sys1 h)]
  refine ⟨hne, ?_, ?_, ?_, ?_⟩
  · intro d hd
    refine ⟨(discover_checks d).2, ?_⟩
    unfold discover_mesh_topology
    rw [hd]
    simp only
    rw [← discover_checks_not_pow2 d (hpop d hd)]
  · intro hty
    obtain ⟨st, sys1, h⟩ := discover_mesh_topology_returns hw sys hty
    exact ⟨st, sys1, h, hne st sys1 h⟩
  · intro hinit
    cases h : discover_mesh_topology hw sys with
    | error f =>
      refine ⟨f, ?_⟩
      unfold cmn_cyprus_discovery
      rw [hinit, h]
      rfl
    | ok r => exact ⟨Fault.trap, htrap r.1 r.2 hinit h⟩
  · intro hinit hty
    obtain ⟨st, sys1, h⟩ := discover_mesh_topology_returns hw sys hty
    exact htrap st sys1 hinit h

theorem table_write_length {α : Type} (table table1 : List α) (idx : Nat) (v : α)
    (h : table_write table idx v = some table1) : table1.length = table.length := by
  unfold table_write at h
  split_ifs at h
  cases h
  exact List.length_set _ _ _

theorem table_write_in_bounds {α : Type} (table : List α) (idx : Nat) (v : α)
    (h : idx < table.length) : table_write table idx v ≠ none := by
  unfold table_write
  rw [if_pos h]
  exact Option.some_ne_none _

theorem init_ctx_keeps_refl (s : init_ctx_state) : init_ctx_keeps s s :=
  ⟨rfl, rfl, rfl, rfl, rfl, rfl, rfl, rfl, rfl, rfl, rfl⟩

theorem init_ctx_keeps_trans {s s1 s2 : init_ctx_state} (h1 : init_ctx_keeps s s1)
    (h2 : init_ctx_keeps s1 s2) : init_ctx_keeps s s2 where
  config := h2.config.trans h1.config
  root := h2.root.trans h1.root
  flag := h2.flag.trans h1.flag
  hns_count := h2.hns_count.trans h1.hns_count
  rnsam_count := h2.rnsam_count.trans h1.rnsam_count
  ccg_node_count := h2.ccg_node_count.trans h1.ccg_node_count
  hns_len := h2.hns_len.trans h1.hns_len
  rnsam_len := h2.rnsam_len.trans h1.rnsam_len
  ra_len := h2.ra_len.trans h1.ra_len
  ha_len := h2.ha_len.trans h1.ha_len
  la_len := h2.la_len.trans h1.la_len

theorem init_ctx_case_rn_sam_next (node : Nat) (s s1 : init_ctx_state)
    (h : init_ctx_case_rn_sam node s = Flow.next s1) : init_ctx_keeps s s1 := by
  unfold init_ctx_case_rn_sam at h
  split_ifs at h
  cases hw : table_write s.sys.ctx.rnsam_table s.rnsam_entry node with
  | none => rw [hw] at h; cases h
  | some table =>
    rw [hw] at h
    cases h
    have hlen := table_write_length _ _ _ _ hw
    constructor <;> simp [init_ctx_state.set_ctx, hlen]

theorem init_ctx_case_hn_s_next (hw : Regs) (xp node xp_port : Nat) (s s1 : init_ctx_state)
    (h : init_ctx_case_hn_s hw xp node xp_port s = Flow.next s1) : init_ctx_keeps s s1 := by
  unfold init_ctx_case_hn_s at h
  simp only at h
  split_ifs at h
  split at h
  · cases h
  · rename_i table hwr
    cases h
    have hlen := table_write_length _ _ _ _ hwr
    constructor <;> simp [init_ctx_state.set_ctx, hlen]

theorem init_ctx_case_ccra_next (hw : Regs) (node node_id : Nat) (s s1 : init_ctx_state)
    (h : init_ctx_case_ccra hw node node_id s = Flow.next s1) : init_ctx_keeps s s1 := by
  unfold init_ctx_case_ccra at h
  simp only at h
  split_ifs at h
  split at h
  · cases h
  · rename_i table hwr
    cases h
    have hlen := table_write_length _ _ _ _ hwr
    constructor <;> simp [init_ctx_state.set_ctx, hlen]

theorem init_ctx_case_ccha_next (hw : Regs) (node node_id : Nat) (s s1 : init_ctx_state)
    (h : init_ctx_case_ccha hw node node_id s = Flow.next s1) : init_ctx_keeps s s1 := by
  unfold init_ctx_case_ccha at h
  simp only at h
  split_ifs at h
  split at h
  · cases h
  · rename_i table hwr
    cases h
    have hlen := table_write_length _ _ _ _ hwr
    constructor <;> simp [init_ctx_state.set_ctx, hlen]

theorem init_ctx_case_ccla_next (hw : Regs) (node node_id : Nat) (s s1 : init_ctx_state)
    (h : init_ctx_case_ccla hw node node_id s = Flow.next s1) : init_ctx_keeps s s1 := by
  unfold init_ctx_case_ccla at h
  simp only at h
  split at h
  · cases h
  · rename_i table hwr
    cases h
    have hlen := table_write_length _ _ _ _ hwr
    constructor <;> simp [init_ctx_state.set_ctx, hlen]

theorem init_ctx_internal_node_next (hw : Regs) (xp node node_id xp_port : Nat)
    (s s1 : init_ctx_state)
    (h : init_ctx_internal_node hw xp node node_id xp_port s = Flow.next s1) :
    init_ctx_keeps s s1 := by
  unfold init_ctx_internal_node at h
  simp only at h
  split_ifs at h
  · exact init_ctx_case_rn_sam_next node s s1 h
  · exact init_ctx_case_hn_s_next hw xp node xp_port s s1 h
  · exact init_ctx_case_ccra_next hw node node_id s s1 h
  · exact init_ctx_case_ccha_next hw node node_id s s1 h
  · exact init_ctx_case_ccla_next hw node node_id s s1 h
  · cases h
    exact init_ctx_keeps_refl s

theorem init_ctx_node_next (hw : Regs) (xp i : Nat) (s s1 : init_ctx_state)
    (h : init_ctx_node hw xp i s = Flow.next s1) : init_ctx_keeps s s1 := by
  unfold init_ctx_node at h
  simp only at h
  split_ifs at h
  · cases h
    exact init_ctx_keeps_refl s
  · exact init_ctx_internal_node_next hw xp _ _ _ s s1 h
  · cases h
    exact init_ctx_keeps_refl s

theorem init_ctx_internal_node_no_ret (hw : Regs) (xp node node_id xp_port : Nat)
    (s s1 : init_ctx_state) (st : Int) :
    init_ctx_internal_node hw xp node node_id xp_port s ≠ Flow.ret st s1 := by
  intro h
  unfold init_ctx_internal_node init_ctx_case_rn_sam init_ctx_case_hn_s init_ctx_case_ccra
    init_ctx_case_ccha init_ctx_case_ccla at h
  simp only at h
  split_ifs at h <;> split at h <;> cases h

theorem init_ctx_node_no_ret (hw : Regs) (xp i : Nat) (s s1 : init_ctx_state) (st : Int) :
    init_ctx_node hw xp i s ≠ Flow.ret st s1 := by
  intro h
  unfold init_ctx_node at h
  simp only at h
  split_ifs at h
  exact init_ctx_internal_node_no_ret hw xp _ _ _ s s1 st h

theorem init_ctx_xp_next (hw : Regs) (i : Nat) (s s1 : init_ctx_state)
    (h : init_ctx_xp hw i s = Flow.next s1) : init_ctx_keeps s s1 := by
  unfold init_ctx_xp at h
  simp only at h
  split_ifs at h
  exact for_loop_next_rec _ (fun _ s s1 => init_ctx_keeps s s1) init_ctx_keeps_refl
    (fun j _ a b c hb hq => init_ctx_keeps_trans (init_ctx_node_next hw _ j a b hb) hq) _ s s1 h

theorem init_ctx_xp_no_ret (hw : Regs) (i : Nat) (s s1 : init_ctx_state) (st : Int) :
    init_ctx_xp hw i s ≠ Flow.ret st s1 := by
  intro h
  unfold init_ctx_xp at h
  simp only at h
  split_ifs at h
  exact for_loop_ret _ (fun _ => False)
    (fun j a st1 b hb => init_ctx_node_no_ret hw _ j a b st1 hb) _ s st s1 h

theorem cmn_cyprus_init_ctx_keeps (hw : Regs) (sys sys1 : Machine)
    (h : cmn_cyprus_init_ctx hw sys = .ok sys1) :
    init_ctx_keeps { sys := sys, rnsam_entry := 0 } { sys := sys1, rnsam_entry := 0 } := by
  unfold cmn_cyprus_init_ctx at h
  simp only at h
  split_ifs at h
  split at h
  · rename_i s hloop
    cases h
    have hk := for_loop_next_rec _ (fun _ s s1 => init_ctx_keeps s s1) init_ctx_keeps_refl
      (fun j _ a b c hb hq => init_ctx_keeps_trans (init_ctx_xp_next hw j a b hb) hq) _ _ s hloop
    exact ⟨hk.config, hk.root, hk.flag, hk.hns_count, hk.rnsam_count, hk.ccg_node_count,
      hk.hns_len, hk.rnsam_len, hk.ra_len, hk.ha_len, hk.la_len⟩
  · rename_i st s hloop
    exact absurd hloop (fun hl => for_loop_ret _ (fun _ => False)
      (fun j a st1 b hb => init_ctx_xp_no_ret hw j a b st1 hb) _ _ st s hl)
  · cases h

theorem discover_checks_flag (d : discover_state) :
    (discover_checks d).2.ctx.is_initialized = d.sys.ctx.is_initialized := by
  unfold discover_checks
  simp only
  split_ifs <;> rfl

theorem discover_mesh_topology_success_flag (hw : Regs) (sys sys1 : Machine)
    (h : discover_mesh_topology hw sys = .ok (FWK_SUCCESS, sys1)) :
    sys1.ctx.is_initialized = sys.ctx.is_initialized := by
  obtain ⟨d, hwalk, hchk⟩ := discover_success_walk hw sys sys1 h
  have h1 := (discover_walk_next hw sys d hwalk).flag
  have h2 := discover_checks_flag d
  rw [hchk] at h2
  rw [h2, h1, discover_start_ctx]

theorem cmn_cyprus_discovery_keeps_flag (hw : Regs) (sys sys1 : Machine)
    (h : cmn_cyprus_discovery hw sys = .ok sys1) :
    sys1.ctx.is_initialized = sys.ctx.is_initialized := by
  unfold cmn_cyprus_discovery at h
  split_ifs at h with hinit
  · cases h
    rfl
  · cases hd : discover_mesh_topology hw sys with
    | error f => rw [hd] at h; cases h
    | ok r =>
      obtain ⟨st, sys2⟩ := r
      rw [hd] at h
      simp only at h
      by_cases hst : st ≠ FWK_SUCCESS
      · rw [if_pos hst] at h
        cases h
      · rw [if_neg hst] at h
        simp only [not_not] at hst
        subst hst
        have h1 := discover_mesh_topology_success_flag hw sys sys2 hd
        have h2 := (cmn_cyprus_init_ctx_keeps hw _ sys1 h).flag
        rw [h2, ← h1]
        dsimp only
        split_ifs <;> rfl

theorem for_loop_fault_inv {σ : Type} (body : Nat → σ → Flow σ) (I : σ → Prop)
    (hnext : ∀ i s s1, I s → body i s = Flow.next s1 → I s1) (f : Fault) :
    ∀ (l : List Nat) (s : σ), I s → for_loop body l s = Flow.fault f →
      ∃ i ∈ l, ∃ s0, I s0 ∧ body i s0 = Flow.fault f := by
  intro l
  induction l with
  | nil => intro s _ h; simp only [for_loop] at h; cases h
  | cons i l ih =>
    intro s hs h
    simp only [for_loop] at h
    cases hb : body i s with
    | next s1 =>
      rw [hb] at h
      obtain ⟨j, hj, s0, hs0, hf⟩ := ih s1 (hnext i s s1 hs hb) h
      exact ⟨j, List.mem_cons_of_mem i hj, s0, hs0, hf⟩
    | ret st s1 => rw [hb] at h; cases h
    | fault f1 =>
      rw [hb] at h
      cases h
      exact ⟨i, List.mem_cons_self i l, s, hs, hb⟩

/-- The allocated lengths of the four tables written under an assertion are the
counts the assertions compare with. -/
theorem init_ctx_asserted_writes_in_bounds (hw : Regs) (xp node node_id xp_port : Nat)
    (s : init_ctx_state)
    (hrnsam : s.sys.ctx.rnsam_table.length = s.sys.ctx.rnsam_count)
    (hhns : s.sys.ctx.hns_table.length = s.sys.ctx.hns_count)
    (hra : s.sys.ctx.ccg_ra_reg_table.length = s.sys.ctx.ccg_node_count)
    (hha : s.sys.ctx.ccg_ha_reg_table.length = s.sys.ctx.ccg_node_count)
    (h : init_ctx_internal_node hw xp node node_id xp_port s = Flow.fault Fault.out_of_bounds) :
    get_node_type hw node = NODE_TYPE_CCLA ∧
      s.sys.ctx.ccla_reg_table.length ≤ get_node_logical_id hw node := by
  unfold init_ctx_internal_node at h
  simp only at h
  split_ifs at h with h1 h2 h3 h4 h5
  · exfalso
    unfold init_ctx_case_rn_sam at h
    split_ifs at h with hlt
    · split at h
      · rename_i hwr
        exact table_write_in_bounds _ _ _ (hrnsam ▸ hlt) hwr
      · cases h
    · cases h
  · exfalso
    unfold init_ctx_case_hn_s at h
    simp only at h
    split_ifs at h with hlt
    · split at h
      · rename_i hwr
        exact table_write_in_bounds _ _ _ (hhns ▸ hlt) hwr
      · cases h
    · cases h
  · exfalso
    unfold init_ctx_case_ccra at h
    simp only at h
    split_ifs at h with hlt
    · split at h
      · rename_i hwr
        exact table_write_in_bounds _ _ _ (hra ▸ hlt) hwr
      · cases h
    · cases h
  · exfalso
    unfold init_ctx_case_ccha at h
    simp only at h
    split_ifs at h with hlt
    · split at h
      · rename_i hwr
        exact table_write_in_bounds _ _ _ (hha ▸ hlt) hwr
      · cases h
    · cases h
  · refine ⟨h5, ?_⟩
    unfold init_ctx_case_ccla at h
    simp only at h
    split at h
    · rename_i hwr
      unfold table_write at hwr
      split_ifs at hwr with hlt
      exact Nat.not_lt.mp hlt
    · cases h

/-- When the four asserted tables have the length of their counts, the only
write of `cmn_cyprus_init_ctx` that can fall outside a table is the one of the
CCLA branch, for a CCLA node whose logical id is not below the length of
`ccla_reg_table`. -/
theorem cmn_cyprus_init_ctx_out_of_bounds_only_ccla (hw : Regs) (sys : Machine)
    (hrnsam : sys.ctx.rnsam_table.length = sys.ctx.rnsam_count)
    (hhns : sys.ctx.hns_table.length = sys.ctx.hns_count)
    (hra : sys.ctx.ccg_ra_reg_table.length = sys.ctx.ccg_node_count)
    (hha : sys.ctx.ccg_ha_reg_table.length = sys.ctx.ccg_node_count)
    (h : cmn_cyprus_init_ctx hw sys = .error Fault.out_of_bounds) :
    ∃ xp_idx node_idx,
      get_node_type hw
        (get_child_node hw sys.ctx.config.base
          (get_child_node hw sys.ctx.config.base sys.ctx.root xp_idx) node_idx) =
        NODE_TYPE_CCLA ∧
      sys.ctx.ccla_reg_table.length ≤
        get_node_logical_id hw
          (get_child_node hw sys.ctx.config.base
            (get_child_node hw sys.ctx.config.base sys.ctx.root xp_idx) node_idx) := by
  unfold cmn_cyprus_init_ctx at h
  simp only at h
  split_ifs at h with hroot
  · cases h
  split at h
  · cases h
  · cases h
  rename_i f hloop
  cases h
  obtain ⟨xp_idx, -, s0, hk0, hxp⟩ := for_loop_fault_inv (init_ctx_xp hw)
    (fun s => init_ctx_keeps { sys := sys, rnsam_entry := 0 } s)
    (fun i a b ha hb => init_ctx_keeps_trans ha (init_ctx_xp_next hw i a b hb)) _ _ _
    (init_ctx_keeps_refl _) hloop
  have c0 : s0.sys.ctx.config = sys.ctx.config := hk0.config
  have r0 : s0.sys.ctx.root = sys.ctx.root := hk0.root
  unfold init_ctx_xp at hxp
  simp only at hxp
  rw [c0, r0] at hxp
  split_ifs at hxp with hty
  · cases hxp
  obtain ⟨node_idx, -, s1, hk1, hnode⟩ := for_loop_fault_inv (init_ctx_node hw _)
    (fun s => init_ctx_keeps { sys := sys, rnsam_entry := 0 } s)
    (fun i a b ha hb => init_ctx_keeps_trans ha (init_ctx_node_next hw _ i a b hb)) _ _ _ hk0 hxp
  have c1 : s1.sys.ctx.config = sys.ctx.config := hk1.config
  unfold init_ctx_node at hnode
  simp only at hnode
  rw [c1] at hnode
  split_ifs at hnode with hiso hext
  have hin := init_ctx_asserted_writes_in_bounds hw _ _ _ _ s1
    (by rw [hk1.rnsam_len, hk1.rnsam_count]; exact hrnsam)
    (by rw [hk1.hns_len, hk1.hns_count]; exact hhns)
    (by rw [hk1.ra_len, hk1.ccg_node_count]; exact hra)
    (by rw [hk1.ha_len, hk1.ccg_node_count]; exact hha) hnode
  rw [hk1.la_len] at hin
  exact ⟨xp_idx, node_idx, hin⟩

/-! ## Witnesses and evaluations on the concrete meshes -/

theorem example_mesh_typed (hw : Regs) (isolated : List isolated_hns_node_info)
    (hroot : get_node_type hw 0x1000 = NODE_TYPE_CFG)
    (hcount : get_node_child_count hw 0x1000 = 1)
    (hxp : get_node_type hw (get_child_node hw 0x1000 0x1000 0) = NODE_TYPE_XP) :
    mesh_typed hw (example_system isolated).ctx := by
  refine ⟨hroot, ?_⟩
  intro i hi
  have h0 : i = 0 := by
    have : i < 1 := hcount ▸ hi
    omega
  subst h0
  exact hxp

/-- Worked instance on `example_mesh_b`: three HN-S nodes, no isolation. -/
theorem discover_mesh_topology_rejects_non_power_of_two_witness :
    hns_population example_mesh_b (example_system []).ctx = 3 ∧
    cmn_cyprus_discovery example_mesh_b (example_system []) = .error Fault.trap :=
  ⟨by decide,
    (discover_mesh_topology_rejects_non_power_of_two example_mesh_b (example_system [])
      ⟨rfl, rfl, rfl, rfl, rfl⟩
      (by
        have hp : hns_population example_mesh_b (example_system []).ctx = 3 := by decide
        rw [hp]
        rintro ⟨k, hk⟩
        match k, hk with
        | 0, hk => simp at hk
        | 1, hk => simp at hk
        | k + 2, hk =>
          have : 4 ≤ 2 ^ (k + 2) := by
            rw [pow_add]
            have : 1 ≤ 2 ^ k := Nat.one_le_two_pow
            omega
          omega)).2.2.2.2 rfl
      (example_mesh_typed example_mesh_b [] (by decide) (by decide) (by decide))⟩

/-- C1 (evaluation at the failing input): `cmn_cyprus_discovery` never sets
`is_initialized`: whenever a call completes, the flag is what it was before the
call.  On a mesh with one HN-S node and one RN-SAM node the first call leaves
the flag false with `hns_count = 1` and `rnsam_count = 1`; the second call
therefore walks the mesh again and leaves `hns_count = 2`, `rnsam_count = 2` and
tables of two entries. -/
theorem cmn_cyprus_discovery_second_call_not_noop :
    (∀ (hw : Regs) (sys sys1 : Machine), cmn_cyprus_discovery hw sys = .ok sys1 →
      sys1.ctx.is_initialized = sys.ctx.is_initialized) ∧
    (cmn_cyprus_discovery example_mesh_a (example_system [])).toOption.map
      (fun s => (s.ctx.is_initialized, s.ctx.hns_count, s.ctx.rnsam_count,
        s.ctx.hns_table.length, s.ctx.rnsam_table.length)) = some (false, 1, 1, 1, 1) ∧
    ((cmn_cyprus_discovery example_mesh_a (example_system [])).toOption.bind
      (fun s => (cmn_cyprus_discovery example_mesh_a s).toOption)).map
      (fun s => (s.ctx.is_initialized, s.ctx.hns_count, s.ctx.rnsam_count,
        s.ctx.hns_table.length, s.ctx.rnsam_table.length)) = some (false, 2, 2, 2, 2) :=
  ⟨cmn_cyprus_discovery_keeps_flag, by decide, by decide⟩

/-- C5 (evaluation at the failing input): the CCLA branch of
`cmn_cyprus_init_ctx` writes `ccla_reg_table[ldid]` without any check.  When
the RN-SAM, HN-S, CCRA and CCHA tables have the length of their counts, an
out-of-bounds write can only come from a CCLA node whose logical id is not below
the length of `ccla_reg_table`; and it does come: on a mesh with one CCRA node
and a CCLA node whose logical id is 1, discovery succeeds with
`ccg_node_count = 1`, the tables get one entry each, and the write of entry 1
falls outside `ccla_reg_table`. -/
theorem cmn_cyprus_init_ctx_ccla_write_unchecked :
    (∀ (hw : Regs) (sys : Machine),
      sys.ctx.rnsam_table.length = sys.ctx.rnsam_count →
      sys.ctx.hns_table.length = sys.ctx.hns_count →
      sys.ctx.ccg_ra_reg_table.length = sys.ctx.ccg_node_count →
      sys.ctx.ccg_ha_reg_table.length = sys.ctx.ccg_node_count →
      cmn_cyprus_init_ctx hw sys = .error Fault.out_of_bounds →
      ∃ xp_idx node_idx,
        get_node_type hw
          (get_child_node hw sys.ctx.config.base
            (get_child_node hw sys.ctx.config.base sys.ctx.root xp_idx) node_idx) =
          NODE_TYPE_CCLA ∧
        sys.ctx.ccla_reg_table.length ≤
          get_node_logical_id hw
            (get_child_node hw sys.ctx.config.base
              (get_child_node hw sys.ctx.config.base sys.ctx.root xp_idx) node_idx)) ∧
    (discover_mesh_topology example_mesh_d (example_system [])).toOption.map
      (fun r => (r.1, r.2.ctx.ccg_node_count)) = some (FWK_SUCCESS, 1) ∧
    get_node_type example_mesh_d 0x41000 = NODE_TYPE_CCLA ∧
    get_node_logical_id example_mesh_d 0x41000 = 1 ∧
    cmn_cyprus_discovery example_mesh_d (example_system []) = .error Fault.out_of_bounds :=
  ⟨cmn_cyprus_init_ctx_out_of_bounds_only_ccla, by decide, by decide, by decide, rfl⟩

/-! ## Isolation -/

/-- C6 (counterexample): the isolation table holds one entry whose `hns_pos` is
(0, 0, port 1, device 0) and whose `hns_base` is another address.  The HN-S node
at `0x31000` sits at that very position without having that base address;
`discover_mesh_topology` counts it (two counted nodes plus one isolated entry
give `hns_count = 3`) and `cmn_cyprus_init_ctx` stores it in `hns_table[1]`. -/
theorem isolation_by_position_counterexample :
    is_hns_isolated { pos_x := 0, pos_y := 0, port_num := 1, device_num := 0 }
      (example_system
        [{ hns_pos := { pos_x := 0, pos_y := 0, port_num := 1, device_num := 0 }
           hns_base := 0x99000 }]).ctx = true ∧
    hns_population example_mesh_c
      (example_system
        [{ hns_pos := { pos_x := 0, pos_y := 0, port_num := 1, device_num := 0 }
           hns_base := 0x99000 }]).ctx = 2 ∧
    (cmn_cyprus_discovery example_mesh_c
        (example_system
          [{ hns_pos := { pos_x := 0, pos_y := 0, port_num := 1, device_num := 0 }
             hns_base := 0x99000 }])).toOption.map
      (fun s => (s.ctx.hns_count, s.ctx.hns_table[1]?)) =
      some (3, some
        { hns := 0x31000
          node_pos := { pos_x := 0, pos_y := 0, port_num := 1, device_num := 0 }
          xp := 0x11000 }) := by
  decide

/-- C6 (amended): for every crosspoint child whose base address equals the
`hns_base` of an entry of the isolation table, the iteration of
`discover_mesh_topology` for that child leaves every counter (and the whole
state) unchanged, the iteration of `cmn_cyprus_init_ctx` leaves every table (and
the whole state) unchanged, and the child adds nothing to any population. -/
theorem isolated_base_node_skipped (hw : Regs) (config : mod_cmn_cyprus_config)
    (xp node_idx : Nat) (entry : isolated_hns_node_info)
    (hentry : entry ∈ config.isolated_hns_table)
    (hbase : get_child_node hw config.base xp node_idx = entry.hns_base) :
    (∀ d : discover_state, d.sys.ctx.config = config →
      discover_node hw xp node_idx d = Flow.next d) ∧
    (∀ s : init_ctx_state, s.sys.ctx.config = config →
      init_ctx_node hw xp node_idx s = Flow.next s) ∧
    (∀ ctx : cmn_cyprus_ctx, ctx.config = config →
      (∀ node_type, type_weight node_type hw ctx xp node_idx = 0) ∧
      rnf_weight hw ctx xp node_idx = 0) := by
  have hiso : ∀ ctx : cmn_cyprus_ctx, ctx.config = config →
      is_node_isolated (get_child_node hw ctx.config.base xp node_idx) ctx = true := by
    intro ctx hctx
    unfold is_node_isolated
    rw [hctx, List.any_eq_true]
    exact ⟨entry, hentry, by rw [hbase]; exact beq_self_eq_true _⟩
  refine ⟨?_, ?_, ?_⟩
  · intro d hd
    unfold discover_node
    rw [if_pos (hiso d.sys.ctx hd)]
  · intro s hs
    unfold init_ctx_node
    simp only
    rw [if_pos (hiso s.sys.ctx hs)]
  · intro ctx hctx
    have h := hiso ctx hctx
    refine ⟨fun node_type => ?_, ?_⟩
    · simp [type_weight, node_counted, h]
    · simp [rnf_weight, node_counted, h]

/-- Worked instance on `example_mesh_b`: the child at `0x41000` is listed in the
isolation table by its base address. -/
theorem isolated_base_node_skipped_witness :
    discover_node example_mesh_b 0x11000 2
      (discover_start (example_system
        [{ hns_pos := { pos_x := 0, pos_y := 0, port_num := 0, device_num := 1 }
           hns_base := 0x41000 }])) =
    Flow.next
      (discover_start (example_system
        [{ hns_pos := { pos_x := 0, pos_y := 0, port_num := 0, device_num := 1 }
           hns_base := 0x41000 }])) :=
  (isolated_base_node_skipped example_mesh_b
    (example_config
      [{ hns_pos := { pos_x := 0, pos_y := 0, port_num := 0, device_num := 1 }
         hns_base := 0x41000 }])
    0x11000 2
    { hns_pos := { pos_x := 0, pos_y := 0, port_num := 0, device_num := 1 }
      hns_base := 0x41000 }
    (List.mem_singleton.mpr rfl) (by decide)).1 _ rfl

/-! ## Rectangle membership, size encoding, configuration validation -/

/-- C7 (counterexample): with start = (0, 0, port 0) and end = (2, 2, port 0),
the position (1, 1, port 1) lies on an interior row inside the x and y bounds,
so every condition of the claim holds, yet `is_hns_inside_rect` is false; and
with start = (0, 0, port 1), end = (1, 1, port 0) the start position itself is
not a member. -/
theorem is_hns_inside_rect_interior_port_counterexample :
    let region : mod_cmn_cyprus_mem_region_map :=
      { base := 0, size := 0, node_id := 0
        hns_pos_start := { pos_x := 0, pos_y := 0, port_num := 0, device_num := 0 }
        hns_pos_end := { pos_x := 2, pos_y := 2, port_num := 0, device_num := 0 } }
    let P : node_pos := { pos_x := 1, pos_y := 1, port_num := 1, device_num := 0 }
    let region1 : mod_cmn_cyprus_mem_region_map :=
      { base := 0, size := 0, node_id := 0
        hns_pos_start := { pos_x := 0, pos_y := 0, port_num := 1, device_num := 0 }
        hns_pos_end := { pos_x := 1, pos_y := 1, port_num := 0, device_num := 0 } }
    (region.hns_pos_start.pos_x ≤ P.pos_x ∧ P.pos_x ≤ region.hns_pos_end.pos_x ∧
      region.hns_pos_start.pos_y ≤ P.pos_y ∧ P.pos_y ≤ region.hns_pos_end.pos_y ∧
      (P.pos_y = region.hns_pos_start.pos_y → region.hns_pos_start.port_num ≤ P.port_num) ∧
      (P.pos_y = region.hns_pos_end.pos_y → P.port_num ≤ region.hns_pos_end.port_num)) ∧
    is_hns_inside_rect P region = false ∧
    is_hns_inside_rect region1.hns_pos_start region1 = false := by
  decide

/-- C7 (amended): a position inside the x and y bounds whose port is at most the
end port (on every row), and at least the start port when it is on the start
row, is a member of the rectangle.  In particular the end position is a member
of every rectangle with start.x <= end.x, start.y <= end.y whose start port is
at most the end port when both lie on one row, and the start position is a
member when moreover start.port <= end.port. -/
theorem is_hns_inside_rect_of_bounds (P : node_pos) (region : mod_cmn_cyprus_mem_region_map)
    (hx : region.hns_pos_start.pos_x ≤ P.pos_x ∧ P.pos_x ≤ region.hns_pos_end.pos_x)
    (hy : region.hns_pos_start.pos_y ≤ P.pos_y ∧ P.pos_y ≤ region.hns_pos_end.pos_y)
    (hport_end : P.port_num ≤ region.hns_pos_end.port_num)
    (hport_start :
      P.pos_y = region.hns_pos_start.pos_y → region.hns_pos_start.port_num ≤ P.port_num) :
    is_hns_inside_rect P region = true ∧
    ((region.hns_pos_end.pos_y = region.hns_pos_start.pos_y →
        region.hns_pos_start.port_num ≤ region.hns_pos_end.port_num) →
      is_hns_inside_rect region.hns_pos_end region = true) ∧
    (region.hns_pos_start.port_num ≤ region.hns_pos_end.port_num →
      is_hns_inside_rect region.hns_pos_start region = true) := by
  have key : ∀ Q : node_pos,
      region.hns_pos_start.pos_x ≤ Q.pos_x → Q.pos_x ≤ region.hns_pos_end.pos_x →
      region.hns_pos_start.pos_y ≤ Q.pos_y → Q.pos_y ≤ region.hns_pos_end.pos_y →
      Q.port_num ≤ region.hns_pos_end.port_num →
      (Q.pos_y = region.hns_pos_start.pos_y → region.hns_pos_start.port_num ≤ Q.port_num) →
      is_hns_inside_rect Q region = true := by
    intro Q h1 h2 h3 h4 h5 h6
    unfold is_hns_inside_rect
    simp only [ge_iff_le, h1, h2, h3, h4, h5, decide_True, Bool.and_self, if_true]
    split_ifs <;> simp_all
  have hxx : region.hns_pos_start.pos_x ≤ region.hns_pos_end.pos_x := hx.1.trans hx.2
  have hyy : region.hns_pos_start.pos_y ≤ region.hns_pos_end.pos_y := hy.1.trans hy.2
  refine ⟨key P hx.1 hx.2 hy.1 hy.2 hport_end hport_start, ?_, ?_⟩
  · intro h
    exact key _ hxx (le_refl _) hyy (le_refl _) (le_refl _) h
  · intro h
    exact key _ (le_refl _) hxx (le_refl _) hyy h (fun _ => le_refl _)

/-- Worked instance: a position on the start row at the start port. -/
theorem is_hns_inside_rect_of_bounds_witness :
    is_hns_inside_rect { pos_x := 1, pos_y := 0, port_num := 1, device_num := 0 }
      { base := 0, size := 0, node_id := 0
        hns_pos_start := { pos_x := 0, pos_y := 0, port_num := 1, device_num := 0 }
        hns_pos_end := { pos_x := 2, pos_y := 2, port_num := 1, device_num := 0 } } = true :=
  (is_hns_inside_rect_of_bounds { pos_x := 1, pos_y := 0, port_num := 1, device_num := 0 }
    { base := 0, size := 0, node_id := 0
      hns_pos_start := { pos_x := 0, pos_y := 0, port_num := 1, device_num := 0 }
      hns_pos_end := { pos_x := 2, pos_y := 2, port_num := 1, device_num := 0 } }
    (by decide) (by decide) (by decide) (by decide)).1

/-- C8: a member of the rectangle lies inside the x and y bounds, has a port at
least the start port when on the start row and at most the end port when on the
end row; so a position on the start row below the start port, and a position on
the end row above the end port, are not members. -/
theorem is_hns_inside_rect_bounds (P : node_pos) (region : mod_cmn_cyprus_mem_region_map) :
    (is_hns_inside_rect P region = true →
      region.hns_pos_start.pos_x ≤ P.pos_x ∧ P.pos_x ≤ region.hns_pos_end.pos_x ∧
      region.hns_pos_start.pos_y ≤ P.pos_y ∧ P.pos_y ≤ region.hns_pos_end.pos_y ∧
      (P.pos_y = region.hns_pos_start.pos_y → region.hns_pos_start.port_num ≤ P.port_num) ∧
      (P.pos_y = region.hns_pos_end.pos_y → P.port_num ≤ region.hns_pos_end.port_num)) ∧
    (P.pos_y = region.hns_pos_start.pos_y → P.port_num < region.hns_pos_start.port_num →
      is_hns_inside_rect P region = false) ∧
    (P.pos_y = region.hns_pos_end.pos_y → region.hns_pos_end.port_num < P.port_num →
      is_hns_inside_rect P region = false) := by
  have key : is_hns_inside_rect P region = true →
      region.hns_pos_start.pos_x ≤ P.pos_x ∧ P.pos_x ≤ region.hns_pos_end.pos_x ∧
      region.hns_pos_start.pos_y ≤ P.pos_y ∧ P.pos_y ≤ region.hns_pos_end.pos_y ∧
      (P.pos_y = region.hns_pos_start.pos_y → region.hns_pos_start.port_num ≤ P.port_num) ∧
      (P.pos_y = region.hns_pos_end.pos_y → P.port_num ≤ region.hns_pos_end.port_num) := by
    intro h
    unfold is_hns_inside_rect at h
    simp only [ge_iff_le, Bool.and_eq_true, decide_eq_true_eq] at h
    split_ifs at h <;> simp_all
  refine ⟨key, ?_, ?_⟩
  · intro hy hp
    cases hin : is_hns_inside_rect P region with
    | false => rfl
    | true =>
      have := (key hin).2.2.2.2.1 hy
      omega
  · intro hy hp
    cases hin : is_hns_inside_rect P region with
    | false => rfl
    | true =>
      have := (key hin).2.2.2.2.2 hy
      omega

/-- Worked instances: one port before start on the start row, one port after
end on the end row, and a member on an interior row. -/
theorem is_hns_inside_rect_bounds_witness :
    is_hns_inside_rect { pos_x := 1, pos_y := 0, port_num := 0, device_num := 0 }
      { base := 0, size := 0, node_id := 0
        hns_pos_start := { pos_x := 0, pos_y := 0, port_num := 1, device_num := 0 }
        hns_pos_end := { pos_x := 2, pos_y := 2, port_num := 1, device_num := 0 } } = false ∧
    is_hns_inside_rect { pos_x := 1, pos_y := 2, port_num := 1, device_num := 0 }
      { base := 0, size := 0, node_id := 0
        hns_pos_start := { pos_x := 0, pos_y := 0, port_num := 0, device_num := 0 }
        hns_pos_end := { pos_x := 2, pos_y := 2, port_num := 0, device_num := 0 } } = false ∧
    (0 ≤ 1 ∧ 1 ≤ 2 ∧ 0 ≤ 1 ∧ 1 ≤ 2 ∧ (1 = 0 → 0 ≤ 1) ∧ (1 = 2 → 1 ≤ 1)) :=
  ⟨(is_hns_inside_rect_bounds { pos_x := 1, pos_y := 0, port_num := 0, device_num := 0 }
      { base := 0, size := 0, node_id := 0
        hns_pos_start := { pos_x := 0, pos_y := 0, port_num := 1, device_num := 0 }
        hns_pos_end := { pos_x := 2, pos_y := 2, port_num := 1, device_num := 0 } }).2.1
      (by decide) (by decide),
    (is_hns_inside_rect_bounds { pos_x := 1, pos_y := 2, port_num := 1, device_num := 0 }
      { base := 0, size := 0, node_id := 0
        hns_pos_start := { pos_x := 0, pos_y := 0, port_num := 0, device_num := 0 }
        hns_pos_end := { pos_x := 2, pos_y := 2, port_num := 0, device_num := 0 } }).2.2
      (by decide) (by decide),
    (is_hns_inside_rect_bounds { pos_x := 1, pos_y := 1, port_num := 1, device_num := 0 }
      { base := 0, size := 0, node_id := 0
        hns_pos_start := { pos_x := 0, pos_y := 0, port_num := 0, device_num := 0 }
        hns_pos_end := { pos_x := 2, pos_y := 2, port_num := 1, device_num := 0 } }).1
      (by decide)⟩

/-- C9: for a size `S` (a `uint64_t`) that is a power of two and a multiple of
`SAM_GRANULARITY` (64 MiB), both assertions of `sam_encode_region_size` hold,
the function returns `log2 (S / SAM_GRANULARITY)`, and decoding gives the size
back: `SAM_GRANULARITY * 2 ^ result = S`. -/
theorem sam_encode_region_size_roundtrip (S : Nat) (hS : S < 2 ^ 64) (hpow : ∃ k, S = 2 ^ k)
    (hmul : S % SAM_GRANULARITY = 0) :
    sam_encode_region_size S = .ok (Nat.log2 (S / SAM_GRANULARITY)) ∧
    SAM_GRANULARITY = 64 * 1024 * 1024 ∧
    SAM_GRANULARITY * 2 ^ (Nat.log2 (S / SAM_GRANULARITY)) = S := by
  obtain ⟨k, rfl⟩ := hpow
  have hG : SAM_GRANULARITY = 2 ^ 26 := by norm_num [SAM_GRANULARITY, FWK_MIB]
  have hk : 26 ≤ k := by
    by_contra hlt
    push_neg at hlt
    have : 2 ^ k < 2 ^ 26 := Nat.pow_lt_pow_right (by norm_num) hlt
    rw [hG, Nat.mod_eq_of_lt this] at hmul
    exact absurd hmul (by positivity)
  have hdiv : 2 ^ k / SAM_GRANULARITY = 2 ^ (k - 26) := by
    rw [hG, Nat.pow_div hk (by norm_num)]
  have hwrap : (2 ^ k + 2 ^ 64 - 1) % 2 ^ 64 = 2 ^ k - 1 := by
    have hpos : 0 < 2 ^ k := by positivity
    have : 2 ^ k + 2 ^ 64 - 1 = (2 ^ k - 1) + 2 ^ 64 := by omega
    rw [this, Nat.add_mod_right, Nat.mod_eq_of_lt (by omega)]
  have hand : 2 ^ k &&& (2 ^ k + 2 ^ 64 - 1) % 2 ^ 64 = 0 := by
    rw [hwrap, Nat.and_pow_two_sub_one_eq_mod, Nat.mod_self]
  have h1 : (2 ^ k % SAM_GRANULARITY == 0) = true := by rw [hmul]; rfl
  have h2 : (2 ^ k &&& (2 ^ k + 2 ^ 64 - 1) % 2 ^ 64 == 0) = true := by rw [hand]; rfl
  refine ⟨?_, ?_, ?_⟩
  · unfold sam_encode_region_size fwk_math_log2
    rw [h1, h2]
    simp only [fwk_assert, if_true, bind, Except.bind, pure, Except.pure]
  · norm_num [SAM_GRANULARITY, FWK_MIB]
  · rw [hdiv, Nat.log2_two_pow, hG, ← pow_add, Nat.add_sub_cancel' hk]

/-- Worked instance: a region of 128 MiB. -/
theorem sam_encode_region_size_roundtrip_witness :
    sam_encode_region_size (2 ^ 27) = .ok (Nat.log2 (2 ^ 27 / SAM_GRANULARITY)) ∧
    SAM_GRANULARITY * 2 ^ (Nat.log2 (2 ^ 27 / SAM_GRANULARITY)) = 2 ^ 27 :=
  have h := sam_encode_region_size_roundtrip (2 ^ 27) (by norm_num) ⟨27, rfl⟩
    (by norm_num [SAM_GRANULARITY, FWK_MIB])
  ⟨h.1, h.2.2⟩

/-- C10: when `chip_config_data[chip_id]` is the configuration `config`,
`validate_config_data` returns `FWK_E_DATA` exactly when `config.base` is 0, or
`mesh_size_x` is 0 or above 12, or `mesh_size_y` is 0 or above 12, and
`FWK_SUCCESS` otherwise; and when it returns `FWK_E_DATA` in `cmn_cyprus_start`,
that function returns `FWK_E_DATA` whatever `cmn_cyprus_setup` would do, leaving
the registers as they were (only `chip_id` has been stored in the context). -/
theorem validate_config_data_spec (ctx : cmn_cyprus_ctx) (config : mod_cmn_cyprus_config)
    (hsel : ctx.config_table.chip_config_data[ctx.chip_id]? = some config) :
    (validate_config_data ctx = .ok FWK_E_DATA ↔
      (config.base = 0 ∨ config.mesh_size_x = 0 ∨ config.mesh_size_x > 12 ∨
        config.mesh_size_y = 0 ∨ config.mesh_size_y > 12)) ∧
    (¬ (config.base = 0 ∨ config.mesh_size_x = 0 ∨ config.mesh_size_x > 12 ∨
        config.mesh_size_y = 0 ∨ config.mesh_size_y > 12) →
      validate_config_data ctx = .ok FWK_SUCCESS) ∧
    (validate_config_data ctx = .ok FWK_E_DATA →
      ∀ (hw : Regs) (sys : Machine) (get_system_info : Int × Nat)
        (cmn_cyprus_setup : Regs → Machine → Exec (Int × Machine)) (subscribe : Int),
        get_system_info.1 = FWK_SUCCESS →
        { sys.ctx with chip_id := get_system_info.2 % 2 ^ 8 } = ctx →
        cmn_cyprus_start hw get_system_info cmn_cyprus_setup subscribe sys =
          .ok (FWK_E_DATA, { sys with ctx := ctx })) := by
  have hval : validate_config_data ctx =
      if config.base = 0 then .ok FWK_E_DATA
      else if config.mesh_size_x = 0 ∨ config.mesh_size_x > CMN_CYPRUS_MESH_X_MAX then
        .ok FWK_E_DATA
      else if config.mesh_size_y = 0 ∨ config.mesh_size_y > CMN_CYPRUS_MESH_Y_MAX then
        .ok FWK_E_DATA
      else .ok FWK_SUCCESS := by
    unfold validate_config_data
    rw [hsel]
  have hne : (FWK_SUCCESS : Int) ≠ FWK_E_DATA := by decide
  refine ⟨?_, ?_, ?_⟩
  · rw [hval]
    simp only [CMN_CYPRUS_MESH_X_MAX, CMN_CYPRUS_MESH_Y_MAX]
    constructor
    · intro h
      split_ifs at h with h1 h2 h3
      · exact Or.inl h1
      · rcases h2 with h2 | h2
        · exact Or.inr (Or.inl h2)
        · exact Or.inr (Or.inr (Or.inl h2))
      · rcases h3 with h3 | h3
        · exact Or.inr (Or.inr (Or.inr (Or.inl h3)))
        · exact Or.inr (Or.inr (Or.inr (Or.inr h3)))
      · simp only [Except.ok.injEq] at h
        exact absurd h hne
    · intro h
      split_ifs with h1 h2 h3
      · rfl
      · rfl
      · rfl
      · exfalso
        rcases h with h | h | h | h | h
        · exact h1 h
        · exact h2 (Or.inl h)
        · exact h2 (Or.inr h)
        · exact h3 (Or.inl h)
        · exact h3 (Or.inr h)
  · intro h
    rw [hval]
    simp only [CMN_CYPRUS_MESH_X_MAX, CMN_CYPRUS_MESH_Y_MAX]
    rw [if_neg (fun hc => h (Or.inl hc)),
      if_neg (fun hc => h (hc.elim (fun a => Or.inr (Or.inl a))
        (fun a => Or.inr (Or.inr (Or.inl a))))),
      if_neg (fun hc => h (hc.elim (fun a => Or.inr (Or.inr (Or.inr (Or.inl a))))
        (fun a => Or.inr (Or.inr (Or.inr (Or.inr a))))))]
  · intro hv hw sys get_system_info cmn_cyprus_setup subscribe hst hctx
    unfold cmn_cyprus_start
    simp only
    rw [if_neg (not_not.mpr hst), hctx, hv]
    simp only
    split_ifs with h1 h2
    · rfl
    · rfl
    · exact absurd (by decide) h2

/-- Worked instance: a configuration whose mesh is 13 crosspoints wide. -/
theorem validate_config_data_spec_witness :
    validate_config_data example_system_wide.ctx = .ok FWK_E_DATA ∧
    cmn_cyprus_start example_mesh_a (FWK_SUCCESS, 0)
      (fun hw sys => (cmn_cyprus_discovery hw sys).map (fun s => (FWK_SUCCESS, s))) FWK_SUCCESS
      example_system_wide = .ok (FWK_E_DATA, example_system_wide) :=
  ⟨rfl,
    (validate_config_data_spec example_system_wide.ctx
      { example_config [] with mesh_size_x := 13 } rfl).2.2 rfl example_mesh_a
      example_system_wide (FWK_SUCCESS, 0) _ FWK_SUCCESS rfl rfl⟩

/-! ## Sequencing and loops in `Except` -/

theorem except_bind_ok {ε α β : Type} (x : Except ε α) (f : α → Except ε β) (b : β)
    (h : x >>= f = .ok b) : ∃ a, x = .ok a ∧ f a = .ok b := by
  cases x with
  | error e => cases h
  | ok a => exact ⟨a, rfl, h⟩

theorem for_uint8_never_ok {σ : Type} (n : Nat) (hn : 256 ≤ n) (body : σ → Nat → Exec σ) :
    ∀ (fuel i : Nat) (s s1 : σ), i < 256 →
      for_uint8 (fun i => decide (i < n)) body fuel i s ≠ .ok s1 := by
  intro fuel
  induction fuel with
  | zero => intro i s s1 _ h; simp [for_uint8] at h
  | succ f ih =>
    intro i s s1 hi h
    rw [for_uint8] at h
    have hc : decide (i < n) = true := by simp; omega
    rw [if_pos hc] at h
    cases hb : body s i with
    | error e => rw [hb] at h; cases h
    | ok t =>
      rw [hb] at h
      exact ih ((i + 1) % 256) t s1 (Nat.mod_lt _ (by norm_num)) h

theorem map_io_region_status (fuel : Nat) (hw : Regs) (base size node_id : Nat) (sys : Machine)
    (r : Int × Machine) (h : map_io_region fuel hw base size node_id sys = .ok r) :
    r.1 = FWK_SUCCESS := by
  unfold map_io_region at h
  obtain ⟨s1, _, h⟩ := except_bind_ok _ _ _ h
  obtain ⟨s2, _, h⟩ := except_bind_ok _ _ _ h
  obtain ⟨s3, _, h⟩ := except_bind_ok _ _ _ h
  cases h
  rfl

/-- C12 (not what the code does): `map_io_region` has a single `return`, of
`FWK_SUCCESS`, so whenever it returns, the status is `FWK_SUCCESS` and never
`FWK_E_DATA`.  On RN-SAMs in size-encoded mode a base that is not aligned to
the size (`0x04000000` for 128 MiB) is programmed into slot 0 of every RN-SAM
and reported as success; a size that is not a power-of-two multiple of 64 MiB
(96 MiB) and a call with all 64 slots taken stop in a failed `fwk_assert`
instead of returning a status. -/
theorem map_io_region_never_reports_invalid_region :
    (∀ (fuel : Nat) (hw : Regs) (base size node_id : Nat) (sys : Machine) (r : Int × Machine),
      map_io_region fuel hw base size node_id sys = .ok r → r.1 = FWK_SUCCESS) ∧
    0x04000000 % (128 * FWK_MIB) ≠ 0 ∧
    observe_map
      (map_io_region 0 example_hw_size_mode 0x04000000 (128 * FWK_MIB) 7 example_rnsam_system)
      [0x10C00, 0x20C00] =
      some (FWK_SUCCESS, 1, [Event.stall, Event.unstall],
        [1 ||| (1 <<< 2) ||| (1 <<< 26) ||| (1 <<< 56),
         1 ||| (1 <<< 2) ||| (1 <<< 26) ||| (1 <<< 56)]) ∧
    fault_of
      (map_io_region 0 example_hw_size_mode 0x08000000 (96 * FWK_MIB) 7 example_rnsam_system) =
      some Fault.assertion ∧
    fault_of
      (map_io_region 0 example_hw_size_mode 0x08000000 (128 * FWK_MIB) 7
        example_rnsam_system_full) = some Fault.assertion :=
  ⟨map_io_region_status, by decide, by decide!, by decide!, by decide!⟩

/-- C13 (not what the code does): on RN-SAMs in size-encoded mode, chip 0,
the first `map_io_region(0x08000000, 128 MiB, 7)` programs slot 0 and leaves
`io_region_count` at 1; the second call with the same arguments does not find
that slot (the search compares the base with the whole slot register, which
also holds the valid bit, the node type and the encoded size), takes slot 1
and leaves `io_region_count` at 2. -/
theorem map_io_region_second_call_takes_new_slot :
    observe_map
      (map_io_region 0 example_hw_size_mode 0x08000000 (128 * FWK_MIB) 7 example_rnsam_system)
      [0x10C00, 0x10C08, 0x20C00, 0x20C08] =
      some (FWK_SUCCESS, 1, [Event.stall, Event.unstall],
        [1 ||| (1 <<< 2) ||| (2 <<< 26) ||| (1 <<< 56), 0,
         1 ||| (1 <<< 2) ||| (2 <<< 26) ||| (1 <<< 56), 0]) ∧
    observe_map
      (map_io_region_twice 0 example_hw_size_mode 0x08000000 (128 * FWK_MIB) 7
        example_rnsam_system)
      [0x10C00, 0x10C08, 0x20C00, 0x20C08] =
      some (FWK_SUCCESS, 2, [Event.stall, Event.unstall, Event.stall, Event.unstall],
        [1 ||| (1 <<< 2) ||| (2 <<< 26) ||| (1 <<< 56),
         1 ||| (1 <<< 2) ||| (2 <<< 26) ||| (1 <<< 56),
         1 ||| (1 <<< 2) ||| (2 <<< 26) ||| (1 <<< 56),
         1 ||| (1 <<< 2) ||| (2 <<< 26) ||| (1 <<< 56)]) :=
  ⟨by decide!, by decide!⟩


/-! ## Request-agent ids -/

theorem or_shiftLeft_two (c x : Nat) (hc : c < 4) : c ||| (x <<< 2) = 4 * x + c := by
  have h := Nat.mul_add_lt_is_or (show c < 2 ^ 2 from hc) x
  rw [Nat.lor_comm, Nat.shiftLeft_eq, Nat.mul_comm x, ← h]

/-- C17: in a 4-chip configuration (`offset_id_pos = log2(4) = 2`) with a local
request-agent count `get_local_ra_count` of at most 256, the request-agent id
that the loops of `program_ldid_to_raid_lut` compute on chip `chip` for the
`i`-th node of a sub-type, `chip | ((chip * local_ra_count + i) << 2)` kept in a
`uint16_t`, is injective: two pairs `(chip, i)` with `chip < 4` and
`i < local_ra_count` that get the same id are equal. -/
theorem ldid_to_raid_id_injective (ctx : cmn_cyprus_ctx) (chip chip1 i i1 : Nat)
    (hL : get_local_ra_count ctx ≤ 256) (hc : chip < 4) (hc1 : chip1 < 4)
    (hi : i < get_local_ra_count ctx) (hi1 : i1 < get_local_ra_count ctx)
    (h : ldid_to_raid_id chip ((chip * get_local_ra_count ctx + i) % 2 ^ 16)
          (fwk_math_log2 4 % 2 ^ 8) =
        ldid_to_raid_id chip1 ((chip1 * get_local_ra_count ctx + i1) % 2 ^ 16)
          (fwk_math_log2 4 % 2 ^ 8)) :
    chip = chip1 ∧ i = i1 := by
  have hpos : fwk_math_log2 4 % 2 ^ 8 = 2 := by decide!
  rw [hpos] at h
  unfold ldid_to_raid_id at h
  generalize get_local_ra_count ctx = L at *
  rw [or_shiftLeft_two _ _ hc, or_shiftLeft_two _ _ hc1] at h
  interval_cases chip <;> interval_cases chip1 <;> omega

/-- Worked instance of C17: with 256 request agents per chip (a context with
256 RN-Fs), the last agent of chip 3 gets the id 4095, and the last agent of
chip 0 and the first agent of chip 1 get different ids. -/
theorem ldid_to_raid_id_injective_witness :
    get_local_ra_count { (default : cmn_cyprus_ctx) with rnf_count := 256 } = 256 ∧
    ldid_to_raid_id 3 ((3 * 256 + 255) % 2 ^ 16) (fwk_math_log2 4 % 2 ^ 8) = 4095 ∧
    (3 = 3 ∧ 255 = 255) ∧
    ldid_to_raid_id 0 ((0 * 256 + 255) % 2 ^ 16) (fwk_math_log2 4 % 2 ^ 8) ≠
      ldid_to_raid_id 1 ((1 * 256 + 0) % 2 ^ 16) (fwk_math_log2 4 % 2 ^ 8) :=
  ⟨by decide, by decide!,
    ldid_to_raid_id_injective { (default : cmn_cyprus_ctx) with rnf_count := 256 } 3 3 255 255
      (by decide) (by decide) (by decide) (by decide) (by decide) rfl,
    fun h => absurd
      (ldid_to_raid_id_injective { (default : cmn_cyprus_ctx) with rnf_count := 256 } 0 1 255 0
        (by decide) (by decide) (by decide) (by decide) (by decide) h).1 (by decide)⟩


/-! ## The RAID-to-LDID table of the home gateway -/

theorem configure_ccg_ha_raid_to_ldid_reg_ldid_mod (ctx : cmn_cyprus_ctx)
    (ccg_ldid raid_id ldid_value : Nat) (rw : Regs) :
    configure_ccg_ha_raid_to_ldid_reg ctx ccg_ldid raid_id (ldid_value + 256) rw =
      configure_ccg_ha_raid_to_ldid_reg ctx ccg_ldid raid_id ldid_value rw := by
  unfold configure_ccg_ha_raid_to_ldid_reg
  have e : (ldid_value + 256) % 2 ^ 8 = ldid_value % 2 ^ 8 := by omega
  rw [e]

theorem configure_ccg_ha_raid_to_ldid_reg_raid_mod (ctx : cmn_cyprus_ctx)
    (ccg_ldid raid_id ldid_value : Nat) (rw : Regs) :
    configure_ccg_ha_raid_to_ldid_reg ctx ccg_ldid (raid_id + 256) ldid_value rw =
      configure_ccg_ha_raid_to_ldid_reg ctx ccg_ldid raid_id ldid_value rw := by
  unfold configure_ccg_ha_raid_to_ldid_reg
  have e : (raid_id + 256) % 2 ^ 8 = raid_id % 2 ^ 8 := by omega
  rw [e]

/-- C18 (not what the code does): `configure_ccg_ha_raid_to_ldid_reg` takes
the LDID as a `uint8_t`, so the LDID `v + 256` is stored as `v`.  With 2 chips,
local chip 0 and 129 RN-Fs per chip, RN-F 127 of the remote chip should get
the LDID `129 + 127 = 256`; `program_raid_to_ldid_lut` stores LDID 0 for it
(field 1 of register 0 holds `0 | 0x4000 | 0x8000`), which is below
`rnf_count` and is the LDID of a local RN-F. -/
theorem program_raid_to_ldid_lut_ldid_wraps :
    (∀ (ctx : cmn_cyprus_ctx) (ccg_ldid raid_id ldid_value : Nat) (rw : Regs),
      configure_ccg_ha_raid_to_ldid_reg ctx ccg_ldid raid_id (ldid_value + 256) rw =
        configure_ccg_ha_raid_to_ldid_reg ctx ccg_ldid raid_id ldid_value rw) ∧
    observe_regs
      (program_raid_to_ldid_lut 300 (example_ccg_ctx 2 0 129) (example_ccg_config 1)
        (fun _ => 0))
      [0x300000 + CCG_HA_RNF_EXP_RAID_TO_LDID_REG_OFFSET] =
      some [((0 ||| 0x4000 ||| 0x8000) <<< 16) ||| ((129 ||| 0x4000 ||| 0x8000) <<< 48)] :=
  ⟨configure_ccg_ha_raid_to_ldid_reg_ldid_mod, by decide!⟩

/-- C20 (not what the code does): `configure_ccg_ha_raid_to_ldid_reg` takes
the request-agent id as a `uint8_t`, so the entry of id `r + 256` is filed
under `r`.  With 4 chips and 64 RN-Fs per chip, chip 1 gives its RN-F 0 the id
`1 | ((1 * 64 + 0) << 2) = 257` (field 0 of its `CCG_RA_RNF_LDID_TO_EXP_RAID_REG[0]`
holds `257 | 0x8000`), but on chip 0 `program_raid_to_ldid_lut` leaves entry
257 of the home gateway (register 64, field 1) empty and files the LDID 64 of
that RN-F under id 1 (register 0, field 1). -/
theorem program_raid_to_ldid_lut_entry_mismatch :
    (∀ (ctx : cmn_cyprus_ctx) (ccg_ldid raid_id ldid_value : Nat) (rw : Regs),
      configure_ccg_ha_raid_to_ldid_reg ctx ccg_ldid (raid_id + 256) ldid_value rw =
        configure_ccg_ha_raid_to_ldid_reg ctx ccg_ldid raid_id ldid_value rw) ∧
    ldid_to_raid_id 1 ((1 * get_local_ra_count (example_ccg_ctx 4 1 64) + 0) % 2 ^ 16)
      (fwk_math_log2 4 % 2 ^ 8) = 257 ∧
    (observe_regs
      (program_ldid_to_raid_lut 300 (example_ccg_ctx 4 1 64) (example_ccg_config 0)
        (fun _ => 0))
      [0x200000 + CCG_RA_RNF_LDID_TO_EXP_RAID_REG_OFFSET]).map
        (fun l => l.map (fun v => v % 2 ^ 16)) = some [257 ||| 0x8000] ∧
    (observe_regs
      (program_raid_to_ldid_lut 300 (example_ccg_ctx 4 0 64) (example_ccg_config 1)
        (fun _ => 0))
      [0x300000 + CCG_HA_RNF_EXP_RAID_TO_LDID_REG_OFFSET + 8 * (257 / 4),
       0x300000 + CCG_HA_RNF_EXP_RAID_TO_LDID_REG_OFFSET + 8 * (1 / 4)]).map
        (fun l => l.map (fun v => (v >>> (16 * (257 % 4))) % 2 ^ 16)) =
      some [0, 64 ||| 0x4000 ||| 0x8000] :=
  ⟨configure_ccg_ha_raid_to_ldid_reg_raid_mod, by decide!, by decide!, by decide!⟩


/-! ## Link bring-up: what is on record when a wait fails -/

theorem run_sat_bind (P0 P : List Event → Prop) (E : Fault → List Event → Prop)
    (x : Run Machine) (f : Machine → Run Machine) (hx : run_sat P0 E x)
    (hf : ∀ m, P0 m.trace → run_sat P E (f m)) : run_sat P E (x >>= f) := by
  cases x with
  | error e => exact hx
  | ok m => exact hf m hx

theorem run_sat_foldlM (P : List Event → Prop) (E : Fault → List Event → Prop)
    (body : Machine → Nat → Run Machine)
    (hbody : ∀ i m, P m.trace → run_sat P E (body m i)) :
    ∀ (l : List Nat) (m : Machine), P m.trace → run_sat P E (l.foldlM body m) := by
  intro l
  induction l with
  | nil => intro m hm; exact hm
  | cons i rest ih =>
    intro m hm
    rw [List.foldlM_cons]
    exact run_sat_bind P P E _ _ (hbody i m hm) (fun m1 h1 => ih m1 h1)

theorem run_sat_read {α : Type} (P : List Event → Prop) (E : Fault → List Event → Prop)
    (hPE : ∀ f t, P t → E f t) (m : Machine) (x : Exec α) (f : α → Run Machine)
    (hm : P m.trace) (hf : ∀ a, run_sat P E (f a)) :
    run_sat P E (with_trace m.trace x >>= f) := by
  cases x with
  | error e => exact hPE e m.trace hm
  | ok a => exact hf a

theorem run_sat_on_regs (P : List Event → Prop) (E : Fault → List Event → Prop)
    (hPE : ∀ f t, P t → E f t) (g : Regs → Exec Regs) (m : Machine) (hm : P m.trace) :
    run_sat P E (on_regs g m) := by
  unfold on_regs
  cases g m.rw with
  | error e => exact hPE e m.trace hm
  | ok rw => exact hm

theorem quiet_trace_halt (f : Fault) (t : List Event) (h : quiet_trace t) : quiet_halt f t :=
  ⟨fun e he => (h e he).1, Or.inl (fun e he => (h e he).2)⟩

theorem quiet_trace_append (t : List Event) (e : Event) (h : quiet_trace t)
    (h1 : sets_up_or_dvm e = false) (h2 : failed_bring_up_wait e = false) :
    quiet_trace (t ++ [e]) := by
  intro x hx
  rcases List.mem_append.1 hx with hx | hx
  · exact h x hx
  · rw [List.mem_singleton.1 hx]; exact ⟨h1, h2⟩

theorem link_ctrl_set_quiet (block off linkid mask : Nat) (m : Machine)
    (hmask : (mask.testBit 2 || mask.testBit 3) = false) (hm : quiet_trace m.trace) :
    quiet_trace (link_ctrl_set block off linkid mask m).trace :=
  quiet_trace_append _ _ hm hmask rfl

theorem link_wait_or_trap_quiet (timer : List Event → Int) (cond : Nat) (m : Machine)
    (hm : quiet_trace m.trace) :
    run_sat quiet_trace quiet_halt (link_wait_or_trap timer cond m) := by
  unfold link_wait_or_trap link_wait
  by_cases hs : timer m.trace ≠ FWK_SUCCESS
  · rw [if_pos hs]
    refine ⟨?_, Or.inr rfl⟩
    intro x hx
    rcases List.mem_append.1 hx with hx | hx
    · exact (hm x hx).1
    · rw [List.mem_singleton.1 hx]; rfl
  · rw [if_neg hs]
    refine quiet_trace_append _ _ hm rfl ?_
    have : timer m.trace = FWK_SUCCESS := by simpa using hs
    simp [failed_bring_up_wait, this]

theorem enable_smp_mode_quiet (cfg : mod_cmn_cyprus_ccg_config) (m : Machine)
    (hm : quiet_trace m.trace) : run_sat quiet_trace quiet_halt (enable_smp_mode cfg m) := by
  unfold enable_smp_mode
  refine run_sat_foldlM quiet_trace quiet_halt _ ?_ _ m hm
  intro i s hs
  unfold enable_smp_mode_port
  refine run_sat_read _ _ quiet_trace_halt s _ _ hs (fun _ => ?_)
  refine run_sat_read _ _ quiet_trace_halt s _ _ hs (fun _ => ?_)
  refine run_sat_read _ _ quiet_trace_halt s _ _ hs (fun _ => ?_)
  exact link_ctrl_set_quiet _ _ _ _ _ (by decide) (link_ctrl_set_quiet _ _ _ _ _ (by decide) hs)

theorem enable_ull_to_ull_mode_quiet (timer : List Event → Int)
    (cfg : mod_cmn_cyprus_ccg_config) (m : Machine) (hm : quiet_trace m.trace) :
    run_sat quiet_trace quiet_halt (enable_ull_to_ull_mode timer cfg m) := by
  unfold enable_ull_to_ull_mode
  refine run_sat_foldlM quiet_trace quiet_halt _ ?_ _ m hm
  intro i s hs
  unfold enable_ull_to_ull_mode_port
  refine run_sat_read _ _ quiet_trace_halt s _ _ hs (fun _ => ?_)
  refine run_sat_read _ _ quiet_trace_halt s _ _ hs (fun _ => ?_)
  have hq : quiet_trace (s.trace ++ [Event.ull_wait (timer s.trace)]) :=
    quiet_trace_append _ _ hs rfl rfl
  by_cases hst : timer s.trace ≠ FWK_SUCCESS
  · simp only [if_pos hst]
    exact quiet_trace_halt _ _ hq
  · simp only [if_neg hst]
    exact hq

theorem enable_ccg_link_quiet (timer : List Event → Int) (linkid : Nat)
    (cfg : mod_cmn_cyprus_ccg_config) (m : Machine) (hm : quiet_trace m.trace) :
    run_sat quiet_trace quiet_halt (enable_ccg_link timer linkid cfg m) := by
  unfold enable_ccg_link
  refine run_sat_foldlM quiet_trace quiet_halt _ ?_ _ m hm
  intro i s hs
  unfold enable_ccg_link_port
  refine run_sat_read _ _ quiet_trace_halt s _ _ hs (fun _ => ?_)
  refine run_sat_read _ _ quiet_trace_halt s _ _ hs (fun _ => ?_)
  refine run_sat_read _ _ quiet_trace_halt s _ _ hs (fun _ => ?_)
  exact link_wait_or_trap_quiet _ _ _
    (link_ctrl_set_quiet _ _ _ _ _ (by decide) (link_ctrl_set_quiet _ _ _ _ _ (by decide) hs))

theorem verify_ccg_link_is_down_quiet (timer : List Event → Int)
    (cfg : mod_cmn_cyprus_ccg_config) (m : Machine) (hm : quiet_trace m.trace) :
    run_sat quiet_trace quiet_halt (verify_ccg_link_is_down timer cfg m) := by
  unfold verify_ccg_link_is_down
  refine run_sat_foldlM quiet_trace quiet_halt _ ?_ _ m hm
  intro i s hs
  unfold verify_ccg_link_is_down_port
  refine run_sat_bind quiet_trace _ _ _ _ (link_wait_or_trap_quiet _ _ _ hs) (fun s1 h1 => ?_)
  refine run_sat_bind quiet_trace _ _ _ _ (link_wait_or_trap_quiet _ _ _ h1) (fun s2 h2 => ?_)
  exact link_wait_or_trap_quiet _ _ _ h2

theorem bring_up_ccg_link_quiet (timer : List Event → Int) (linkid : Nat)
    (cfg : mod_cmn_cyprus_ccg_config) (m : Machine) (hm : quiet_trace m.trace) :
    run_sat quiet_trace quiet_halt (bring_up_ccg_link timer linkid cfg m) := by
  unfold bring_up_ccg_link
  refine run_sat_foldlM quiet_trace quiet_halt _ ?_ _ m hm
  intro i s hs
  unfold bring_up_ccg_link_port
  refine run_sat_read _ _ quiet_trace_halt s _ _ hs (fun _ => ?_)
  refine run_sat_read _ _ quiet_trace_halt s _ _ hs (fun _ => ?_)
  refine run_sat_read _ _ quiet_trace_halt s _ _ hs (fun _ => ?_)
  refine run_sat_bind quiet_trace _ _ _ _ (link_wait_or_trap_quiet _ _ _
    (link_ctrl_set_quiet _ _ _ _ _ (by decide) (link_ctrl_set_quiet _ _ _ _ _ (by decide) hs)))
    (fun s1 h1 => ?_)
  exact link_wait_or_trap_quiet _ _ _ h1

theorem bring_up_cml_protocol_links_quiet (timer : List Event → Int) (linkid : Nat)
    (cfg : mod_cmn_cyprus_ccg_config) (m : Machine) (hm : quiet_trace m.trace) :
    run_sat quiet_trace quiet_halt (bring_up_cml_protocol_links timer linkid cfg m) := by
  unfold bring_up_cml_protocol_links
  refine run_sat_bind quiet_trace _ _ _ _ (enable_ccg_link_quiet _ _ _ _ hm) (fun s1 h1 => ?_)
  refine run_sat_bind quiet_trace _ _ _ _ (verify_ccg_link_is_down_quiet _ _ _ h1)
    (fun s2 h2 => ?_)
  exact bring_up_ccg_link_quiet _ _ _ _ h2

theorem cmn_cyprus_setup_cml_body_quiet (timer : List Event → Int) (fuel : Nat) (m : Machine)
    (ccg_idx : Nat) (hm : quiet_trace m.trace) :
    run_sat quiet_trace quiet_halt (cmn_cyprus_setup_cml_body timer fuel m ccg_idx) := by
  unfold cmn_cyprus_setup_cml_body
  refine run_sat_read _ _ quiet_trace_halt m _ _ hm (fun cfg => ?_)
  refine run_sat_bind quiet_trace _ _ _ _ (run_sat_on_regs _ _ quiet_trace_halt _ m hm)
    (fun s1 h1 => ?_)
  refine run_sat_bind quiet_trace _ _ _ _ (?_ : run_sat quiet_trace quiet_halt
    (if cfg.smp_mode = true then enable_smp_mode cfg s1 else .ok s1)) (fun s2 h2 => ?_)
  · split
    · exact enable_smp_mode_quiet _ _ h1
    · exact h1
  refine run_sat_bind quiet_trace _ _ _ _ (?_ : run_sat quiet_trace quiet_halt
    (if cfg.ull_to_ull_mode = true then enable_ull_to_ull_mode timer cfg s2 else .ok s2))
    (fun s3 h3 => ?_)
  · split
    · exact enable_ull_to_ull_mode_quiet _ _ _ h2
    · exact h2
  exact bring_up_cml_protocol_links_quiet _ _ _ _ h3


theorem no_failed_wait_append (t : List Event) (e : Event) (h : no_failed_wait t)
    (h1 : failed_bring_up_wait e = false) : no_failed_wait (t ++ [e]) := by
  intro x hx
  rcases List.mem_append.1 hx with hx | hx
  · exact h x hx
  · rw [List.mem_singleton.1 hx]; exact h1

theorem link_ctrl_set_no_failed_wait (block off linkid mask : Nat) (m : Machine)
    (hm : no_failed_wait m.trace) : no_failed_wait (link_ctrl_set block off linkid mask m).trace :=
  no_failed_wait_append _ _ hm rfl

theorem link_wait_or_trap_no_failed_wait (timer : List Event → Int) (cond : Nat) (m : Machine)
    (hc : cond = CCG_LINK_STATUS_HA_DVMDOMAIN_ACK_BIT_SET ∨
      cond = CCG_LINK_STATUS_RA_DVMDOMAIN_ACK_BIT_SET)
    (hm : no_failed_wait m.trace) :
    run_sat no_failed_wait (fun _ t => no_failed_wait t) (link_wait_or_trap timer cond m) := by
  have he : failed_bring_up_wait (Event.link_wait cond (timer m.trace)) = false := by
    rcases hc with hc | hc <;> rw [hc] <;>
      simp [failed_bring_up_wait, CCG_LINK_STATUS_HA_DVMDOMAIN_ACK_BIT_SET,
        CCG_LINK_STATUS_RA_DVMDOMAIN_ACK_BIT_SET, CCG_LINK_CTRL_EN_BIT_SET,
        CCG_LINK_CTRL_UP_BIT_CLR, CCG_LINK_STATUS_DWN_BIT_SET, CCG_LINK_STATUS_ACK_BIT_CLR,
        CCG_LINK_STATUS_ACK_BIT_SET, CCG_LINK_STATUS_DWN_BIT_CLR]
  unfold link_wait_or_trap link_wait
  by_cases hs : timer m.trace ≠ FWK_SUCCESS
  · rw [if_pos hs]
    exact no_failed_wait_append _ _ hm he
  · rw [if_neg hs]
    exact no_failed_wait_append _ _ hm he

theorem setup_cml_protocol_links_no_failed_wait (timer : List Event → Int) (m : Machine)
    (hm : no_failed_wait m.trace) :
    run_sat no_failed_wait (fun _ t => no_failed_wait t) (setup_cml_protocol_links timer m) := by
  have hPE : ∀ (f : Fault) (t : List Event), no_failed_wait t →
      (fun (_ : Fault) t => no_failed_wait t) f t := fun _ _ h => h
  unfold setup_cml_protocol_links
  refine run_sat_foldlM _ _ _ ?_ _ m hm
  intro i s hs
  unfold setup_cml_protocol_link
  refine run_sat_read _ _ hPE s _ _ hs (fun cfg => ?_)
  refine run_sat_bind no_failed_wait _ _ _ _ ?_ (fun s1 h1 => ?_)
  · unfold ccg_exchange_protocol_credit
    refine run_sat_foldlM _ _ _ ?_ _ s hs
    intro j u hu
    unfold ccg_exchange_protocol_credit_port
    refine run_sat_read _ _ hPE u _ _ hu (fun _ => ?_)
    refine run_sat_read _ _ hPE u _ _ hu (fun _ => ?_)
    refine run_sat_read _ _ hPE u _ _ hu (fun _ => ?_)
    exact link_ctrl_set_no_failed_wait _ _ _ _ _ (link_ctrl_set_no_failed_wait _ _ _ _ _ hu)
  refine run_sat_bind no_failed_wait _ _ _ _ ?_ (fun s2 h2 => ?_)
  · unfold ccg_enter_system_coherency
    refine run_sat_foldlM _ _ _ ?_ _ s1 h1
    intro j u hu
    unfold ccg_enter_system_coherency_port
    refine run_sat_read _ _ hPE u _ _ hu (fun _ => ?_)
    refine run_sat_read _ _ hPE u _ _ hu (fun _ => ?_)
    exact link_wait_or_trap_no_failed_wait _ _ _ (Or.inl rfl)
      (link_ctrl_set_no_failed_wait _ _ _ _ _ hu)
  · unfold ccg_enter_dvm_domain
    refine run_sat_foldlM _ _ _ ?_ _ s2 h2
    intro j u hu
    unfold ccg_enter_dvm_domain_port
    refine run_sat_read _ _ hPE u _ _ hu (fun _ => ?_)
    refine run_sat_read _ _ hPE u _ _ hu (fun _ => ?_)
    exact link_wait_or_trap_no_failed_wait _ _ _ (Or.inr rfl)
      (link_ctrl_set_no_failed_wait _ _ _ _ _ hu)

/-- C19: start `cmn_cyprus_setup_cml` with an empty record of events, for any
behaviour of the timer.  If the record at the end of the run (returned or
stopped) holds a wait of `bring_up_cml_protocol_links` that did not return
`FWK_SUCCESS` (any of the six link conditions, the cleared link-down status
bit among them), then the run stopped in `fwk_trap`, and up to that point no
statement `CCG_CCPRTCL_LINK_CTRL |= mask` was run with the link-up bit (bit 2)
or the DVM-domain request bit (bit 3) in `mask`: the credit exchange and the
two domain entries were not reached. -/
theorem cmn_cyprus_setup_cml_traps_before_credit_exchange (timer : List Event → Int)
    (fuel : Nat) (sys : Machine) (h0 : sys.trace = [])
    (hfail : ∃ e ∈ final_trace (cmn_cyprus_setup_cml timer fuel sys),
      failed_bring_up_wait e = true) :
    ∃ trace, cmn_cyprus_setup_cml timer fuel sys = .error (Fault.trap, trace) ∧
      ∀ e ∈ trace, sets_up_or_dvm e = false := by
  have hq : quiet_trace sys.trace := by rw [h0]; intro e he; cases he
  unfold cmn_cyprus_setup_cml at hfail ⊢
  have h1 := run_sat_foldlM quiet_trace quiet_halt (cmn_cyprus_setup_cml_body timer fuel)
    (fun i m hm => cmn_cyprus_setup_cml_body_quiet timer fuel m i hm)
    (List.range sys.ctx.config.ccg_table_count)
    { sys with ctx := { sys.ctx with remote_rnf_ldid_value := sys.ctx.rnf_count } } hq
  simp only [] at hfail ⊢
  cases hloop : (List.range sys.ctx.config.ccg_table_count).foldlM
      (cmn_cyprus_setup_cml_body timer fuel)
      { sys with ctx := { sys.ctx with remote_rnf_ldid_value := sys.ctx.rnf_count } } with
  | error e =>
    rw [hloop] at h1 hfail
    obtain ⟨f, t⟩ := e
    obtain ⟨ev, hev, hev1⟩ := hfail
    have h2 : quiet_halt f t := h1
    rcases h2.2 with hno | hf
    · have := hno ev hev
      rw [this] at hev1
      cases hev1
    · rw [hf]
      exact ⟨t, rfl, h2.1⟩
  | ok m =>
    rw [hloop] at h1 hfail
    have h2 : quiet_trace m.trace := h1
    have h3 := setup_cml_protocol_links_no_failed_wait timer m (fun e he => (h2 e he).2)
    obtain ⟨ev, hev, hev1⟩ := hfail
    exfalso
    have hev2 : ev ∈ final_trace (setup_cml_protocol_links timer m) := hev
    cases hs : setup_cml_protocol_links timer m with
    | error e =>
      rw [hs] at h3 hev2
      obtain ⟨f, t⟩ := e
      have := (h3 : no_failed_wait t) ev hev2
      rw [this] at hev1
      cases hev1
    | ok m1 =>
      rw [hs] at h3 hev2
      have := (h3 : no_failed_wait m1.trace) ev hev2
      rw [this] at hev1
      cases hev1

/-- Worked instance of C19: one link group whose sixth wait, the one for the
link-down status bits to clear, times out. -/
theorem cmn_cyprus_setup_cml_traps_before_credit_exchange_witness :
    example_cml_system.trace = [] ∧
    Event.link_wait CCG_LINK_STATUS_DWN_BIT_CLR FWK_E_TIMEOUT ∈
      final_trace (cmn_cyprus_setup_cml example_timer 300 example_cml_system) ∧
    ∃ trace, cmn_cyprus_setup_cml example_timer 300 example_cml_system =
        .error (Fault.trap, trace) ∧
      ∀ e ∈ trace, sets_up_or_dvm e = false :=
  ⟨rfl, by decide!,
    cmn_cyprus_setup_cml_traps_before_credit_exchange example_timer 300 example_cml_system rfl
      ⟨Event.link_wait CCG_LINK_STATUS_DWN_BIT_CLR FWK_E_TIMEOUT, by decide!, rfl⟩⟩


theorem foldlM_range'_total {ε σ : Type} (body : σ → Nat → Except ε σ) (I : Nat → σ → Prop) :
    ∀ (len start : Nat) (s : σ), I start s →
      (∀ k, start ≤ k → k < start + len → ∀ t, I k t → ∃ t1, body t k = .ok t1 ∧ I (k + 1) t1) →
      ∃ s1, (List.range' start len).foldlM body s = .ok s1 ∧ I (start + len) s1 := by
  intro len
  induction len with
  | zero =>
    intro start s hs _
    exact ⟨s, rfl, hs⟩
  | succ n ih =>
    intro start s hs hstep
    obtain ⟨t, ht, hIt⟩ := hstep start (Nat.le_refl _) (by omega) s hs
    obtain ⟨s1, hs1, hI1⟩ := ih (start + 1) t hIt (fun k hk1 hk2 => hstep k (by omega) (by omega))
    refine ⟨s1, ?_, ?_⟩
    · rw [List.range', List.foldlM_cons, ht]
      exact hs1
    · have e : start + 1 + n = start + (n + 1) := by omega
      rw [e] at hI1
      exact hI1

theorem foldlM_range_total {ε σ : Type} (body : σ → Nat → Except ε σ) (I : Nat → σ → Prop)
    (n : Nat) (s : σ) (h0 : I 0 s)
    (hstep : ∀ k, k < n → ∀ t, I k t → ∃ t1, body t k = .ok t1 ∧ I (k + 1) t1) :
    ∃ s1, (List.range n).foldlM body s = .ok s1 ∧ I n s1 := by
  rw [List.range_eq_range']
  have := foldlM_range'_total body I n 0 s h0 (fun k _ hk => hstep k (by omega))
  simpa using this

/-! ## Bits of the RN-SAM `STATUS` register -/

theorem testBit_not64 (m i : Nat) :
    (not64 m).testBit i = (decide (i < 64) && !(m % 2 ^ 64).testBit i) := by
  unfold not64
  have h : m % 2 ^ 64 < 2 ^ 64 := Nat.mod_lt _ (by norm_num)
  have e : 2 ^ 64 - 1 - m % 2 ^ 64 = 2 ^ 64 - (m % 2 ^ 64 + 1) := by omega
  rw [e, Nat.testBit_two_pow_sub_succ h]

theorem reg_write_same (rw : Regs) (addr v : Nat) : reg_write rw addr v addr = v % 2 ^ 64 := by
  simp [reg_write]

theorem reg_write_other (rw : Regs) (addr v a : Nat) (h : a ≠ addr) :
    reg_write rw addr v a = rw a := by
  simp [reg_write, h]


/-! ## Footprint of the RN-SAM region programming -/

theorem example_rnsam_blocks_apart (sys : Machine)
    (h : sys.ctx.rnsam_table = [0x10000, 0x20000]) : rnsam_blocks_apart sys.ctx := by
  intro i j a b hi hj
  rw [h] at hi hj
  have ha := List.getElem?_mem hi
  have hb := List.getElem?_mem hj
  simp only [List.mem_cons, List.mem_singleton, List.not_mem_nil, or_false] at ha hb
  simp only [RNSAM_REG_SIZE]
  omega

theorem sam_encode_region_size_128_mib : sam_encode_region_size (128 * FWK_MIB) = .ok 1 := by
  have h : fwk_math_log2 (128 * FWK_MIB / SAM_GRANULARITY) = 1 := by decide!
  have h1 : ((128 * FWK_MIB) % SAM_GRANULARITY == 0) = true := by decide
  have h2 : ((128 * FWK_MIB) &&& ((128 * FWK_MIB + 2 ^ 64 - 1) % 2 ^ 64) == 0) = true := by
    decide
  unfold sam_encode_region_size
  rw [h1, h2]
  show Except.ok (fwk_math_log2 (128 * FWK_MIB / SAM_GRANULARITY)) = Except.ok 1
  rw [h]

theorem configure_rnsam_region_example (hw : Regs) (rnsam : Nat) (rw : Regs) (hr : rnsam ≠ 0)
    (hm : get_rnsam_nonhash_range_comp_en_mode hw rnsam = false) :
    configure_rnsam_region hw rnsam 0 0x08000000 (128 * FWK_MIB) SAM_NODE_TYPE_HN_I
        SAM_TYPE_NON_HASH_MEM_REGION rw =
      .ok (reg_write rw (rnsam + NON_HASH_MEM_REGION_OFFSET)
        (1 ||| (1 <<< 2) ||| (2 <<< 26) ||| (1 <<< 56))) := by
  have ha : fwk_assert (rnsam != 0) = .ok () := by
    unfold fwk_assert
    simp [hr]
  have hg : get_non_hashed_region_registers rnsam 0 =
      .ok (rnsam + NON_HASH_MEM_REGION_OFFSET, rnsam + NON_HASH_MEM_REGION_CFG2_OFFSET) := by
    unfold get_non_hashed_region_registers
    rfl
  have hc : check_region_alignment false 0x08000000 (128 * FWK_MIB) = .ok () := by
    unfold check_region_alignment
    rfl
  have hw1 : ∀ mask, write_rnsam_region false mask (rnsam + NON_HASH_MEM_REGION_OFFSET)
      (rnsam + NON_HASH_MEM_REGION_CFG2_OFFSET) 0x08000000 (128 * FWK_MIB) SAM_NODE_TYPE_HN_I
      rw = .ok (reg_write rw (rnsam + NON_HASH_MEM_REGION_OFFSET)
        (1 ||| (1 <<< 2) ||| (2 <<< 26) ||| (1 <<< 56))) := by
    intro mask
    unfold write_rnsam_region
    rw [sam_encode_region_size_128_mib]
    rfl
  unfold configure_rnsam_region
  rw [ha]
  have hs : ¬ (SAM_TYPE_NON_HASH_MEM_REGION ≠ SAM_TYPE_NON_HASH_MEM_REGION ∧
      SAM_TYPE_NON_HASH_MEM_REGION ≠ SAM_TYPE_SYS_CACHE_GRP_REGION) := by decide
  simp only [bind, Except.bind, if_neg hs, if_true, hg, hm, hc]
  exact hw1 _

theorem table_read_lt {α : Type} (table : List α) (idx : Nat) (h : idx < table.length) :
    ∃ v, table_read table idx = .ok v ∧ table[idx]? = some v := by
  refine ⟨table[idx], ?_, List.getElem?_eq_getElem h⟩
  unfold table_read
  rw [List.getElem?_eq_getElem h]

theorem set_non_hashed_region_target_zero (rnsam node_id : Nat) (rw : Regs) :
    set_non_hashed_region_target rnsam 0 node_id rw (rnsam + NON_HASH_TGT_NODEID_OFFSET) % 2 ^ 12 =
        node_id % 2 ^ 12 ∧
      ∀ a, a ≠ rnsam + NON_HASH_TGT_NODEID_OFFSET →
        set_non_hashed_region_target rnsam 0 node_id rw a = rw a := by
  unfold set_non_hashed_region_target
  simp only [Nat.zero_div, Nat.zero_mod, Nat.mul_zero, Nat.add_zero, Nat.shiftLeft_zero]
  refine ⟨?_, fun a ha => ?_⟩
  · rw [reg_write_same, reg_write_same]
    apply Nat.eq_of_testBit_eq
    intro i
    have hm : CMN_CYPRUS_RNSAM_NON_HASH_TGT_NODEID_ENTRY_MASK = 2 ^ 12 - 1 := by decide
    have hm1 : (2 ^ 12 - 1) % 2 ^ 64 = 2 ^ 12 - 1 := by norm_num
    simp only [Nat.testBit_mod_two_pow, Nat.testBit_or, Nat.testBit_and, testBit_not64, hm, hm1,
      Nat.testBit_two_pow_sub_one]
    by_cases h12 : i < 12
    · have h64 : i < 64 := by omega
      simp [h12, h64]
    · simp [h12]
  · rw [reg_write_other _ _ _ _ ha, reg_write_other _ _ _ _ ha]

theorem rnsam_stall_total (sys : Machine)
    (hlen : sys.ctx.rnsam_count ≤ sys.ctx.rnsam_table.length) :
    ∃ s1, rnsam_stall sys = .ok s1 ∧ s1.ctx = sys.ctx ∧
      ∀ a, (∀ (k r : Nat), sys.ctx.rnsam_table[k]? = some r → a ≠ r + RNSAM_STATUS_OFFSET) →
        s1.rw a = sys.rw a := by
  obtain ⟨rw1, hfold, hinv⟩ := foldlM_range_total (rnsam_stall_body sys.ctx)
    (fun _ t => ∀ a, (∀ (k r : Nat), sys.ctx.rnsam_table[k]? = some r →
      a ≠ r + RNSAM_STATUS_OFFSET) → t a = sys.rw a)
    sys.ctx.rnsam_count sys.rw (fun _ _ => rfl)
    (by
      intro k hk t ht
      obtain ⟨r, hr, hr1⟩ := table_read_lt sys.ctx.rnsam_table k (by omega)
      refine ⟨_, by unfold rnsam_stall_body; rw [hr]; rfl, ?_⟩
      intro a ha
      rw [reg_write_other _ _ _ _ (ha k r hr1)]
      exact ht a ha)
  refine ⟨{ sys with rw := rw1, trace := sys.trace ++ [Event.stall] },
    by unfold rnsam_stall; rw [hfold]; rfl, rfl, hinv⟩

theorem rnsam_unstall_total (sys : Machine)
    (hlen : sys.ctx.rnsam_count ≤ sys.ctx.rnsam_table.length) :
    ∃ s1, rnsam_unstall sys = .ok s1 ∧ s1.ctx = sys.ctx ∧
      ∀ a, (∀ (k r : Nat), sys.ctx.rnsam_table[k]? = some r → a ≠ r + RNSAM_STATUS_OFFSET) →
        s1.rw a = sys.rw a := by
  obtain ⟨rw1, hfold, hinv⟩ := foldlM_range_total (rnsam_unstall_body sys.ctx)
    (fun _ t => ∀ a, (∀ (k r : Nat), sys.ctx.rnsam_table[k]? = some r →
      a ≠ r + RNSAM_STATUS_OFFSET) → t a = sys.rw a)
    sys.ctx.rnsam_count sys.rw (fun _ _ => rfl)
    (by
      intro k hk t ht
      obtain ⟨r, hr, hr1⟩ := table_read_lt sys.ctx.rnsam_table k (by omega)
      refine ⟨_, by unfold rnsam_unstall_body; rw [hr]; rfl, ?_⟩
      intro a ha
      rw [reg_write_other _ _ _ _ (ha k r hr1)]
      exact ht a ha)
  refine ⟨{ sys with rw := rw1, trace := sys.trace ++ [Event.unstall] },
    by unfold rnsam_unstall; rw [hfold]; rfl, rfl, hinv⟩

theorem configure_non_hashed_region_example (hw : Regs) (ctx : cmn_cyprus_ctx) (rw : Regs)
    (hchip : ctx.chip_id = 0) (hlen : ctx.rnsam_count ≤ ctx.rnsam_table.length)
    (hnz : ∀ (k r : Nat), ctx.rnsam_table[k]? = some r → r ≠ 0)
    (hmode : ∀ (k r : Nat), ctx.rnsam_table[k]? = some r →
      get_rnsam_nonhash_range_comp_en_mode hw r = false)
    (hsep : rnsam_blocks_apart ctx) :
    ∃ rw1, configure_non_hashed_region hw ctx 0x08000000 (128 * FWK_MIB) 0 7 rw = .ok rw1 ∧
      (∀ (k r : Nat), k < ctx.rnsam_count → ctx.rnsam_table[k]? = some r →
        rw1 (r + NON_HASH_MEM_REGION_OFFSET) = 1 ||| (1 <<< 2) ||| (2 <<< 26) ||| (1 <<< 56) ∧
        rw1 (r + NON_HASH_TGT_NODEID_OFFSET) % 2 ^ 12 = 7) ∧
      ∀ a, (∀ (k r : Nat), ctx.rnsam_table[k]? = some r →
        a ≠ r + NON_HASH_MEM_REGION_OFFSET ∧ a ≠ r + NON_HASH_TGT_NODEID_OFFSET) →
        rw1 a = rw a := by
  have hbase : ((ctx.config.chip_addr_space * ctx.chip_id) % 2 ^ 64 + 0x08000000) % 2 ^ 64 =
      0x08000000 := by
    rw [hchip]
    norm_num
  obtain ⟨rw1, hfold, hinv⟩ := foldlM_range_total
    (configure_non_hashed_region_body hw ctx 0x08000000 (128 * FWK_MIB) 0 7)
    (fun n t =>
      (∀ (k r : Nat), k < n → ctx.rnsam_table[k]? = some r →
        t (r + NON_HASH_MEM_REGION_OFFSET) = 1 ||| (1 <<< 2) ||| (2 <<< 26) ||| (1 <<< 56) ∧
        t (r + NON_HASH_TGT_NODEID_OFFSET) % 2 ^ 12 = 7) ∧
      ∀ a, (∀ (k r : Nat), ctx.rnsam_table[k]? = some r →
        a ≠ r + NON_HASH_MEM_REGION_OFFSET ∧ a ≠ r + NON_HASH_TGT_NODEID_OFFSET) →
        t a = rw a)
    ctx.rnsam_count rw ⟨fun k _ hk => absurd hk (Nat.not_lt_zero _), fun _ _ => rfl⟩
    (by
      intro n hn t ht
      obtain ⟨q, hq, hq1⟩ := table_read_lt ctx.rnsam_table n (by omega)
      have hcfg := configure_rnsam_region_example hw q t (hnz n q hq1) (hmode n q hq1)
      obtain ⟨hfield, hframe⟩ := set_non_hashed_region_target_zero q 7
        (reg_write t (q + NON_HASH_MEM_REGION_OFFSET) (1 ||| (1 <<< 2) ||| (2 <<< 26) ||| (1 <<< 56)))
      refine ⟨_, by unfold configure_non_hashed_region_body; rw [hq]; simp only [bind, Except.bind]; rw [hcfg]; rfl, ?_, ?_⟩
      · intro k r hk hr
        have hs := hsep k n r q hr hq1
        simp only [RNSAM_REG_SIZE] at hs
        by_cases hrq : r = q
        · rw [hrq]
          refine ⟨?_, hfield⟩
          rw [hframe _ (by simp only [NON_HASH_MEM_REGION_OFFSET, NON_HASH_TGT_NODEID_OFFSET]; omega),
            reg_write_same]
          decide
        · have hkn : k < n := by
            rcases Nat.lt_succ_iff_lt_or_eq.1 hk with h | h
            · exact h
            · exfalso
              rw [h, hq1] at hr
              cases hr
              exact hrq rfl
          have e1 : ∀ off, off < 0x3500 →
              set_non_hashed_region_target q 0 7
                (reg_write t (q + NON_HASH_MEM_REGION_OFFSET)
                  (1 ||| (1 <<< 2) ||| (2 <<< 26) ||| (1 <<< 56))) (r + off) = t (r + off) := by
            intro off hoff
            rw [hframe _ (by simp only [NON_HASH_TGT_NODEID_OFFSET]; omega),
              reg_write_other _ _ _ _ (by simp only [NON_HASH_MEM_REGION_OFFSET]; omega)]
          have := ht.1 k r hkn hr
          rw [e1 _ (by decide), e1 _ (by decide)]
          exact this
      · intro a ha
        rw [hframe _ (ha n q hq1).2, reg_write_other _ _ _ _ (ha n q hq1).1]
        exact ht.2 a ha)
  refine ⟨rw1, ?_, hinv⟩
  unfold configure_non_hashed_region
  have hu : unexpected_if (decide (0 ≥ MAX_NON_HASH_REGION_COUNT)) = .ok () := rfl
  rw [hu]
  simp only [bind, Except.bind]
  rw [hbase]
  exact hfold


/-! ## C14: `cmn_cyprus_setup_rnsam` on a memory map with one I/O region -/

theorem rnsam_offsets_apart (ctx : cmn_cyprus_ctx) (hsep : rnsam_blocks_apart ctx)
    (k j r q o1 o2 : Nat) (hr : ctx.rnsam_table[k]? = some r) (hq : ctx.rnsam_table[j]? = some q)
    (h1 : o1 < RNSAM_REG_SIZE) (h2 : o2 < RNSAM_REG_SIZE) (hne : o1 ≠ o2) : r + o1 ≠ q + o2 := by
  have hs := hsep k j r q hr hq
  omega

theorem foldlM_range_one {ε σ : Type} (body : σ → Nat → Except ε σ) (s s1 : σ)
    (h : body s 0 = .ok s1) : (List.range 1).foldlM body s = .ok s1 := by
  show (body s 0 >>= fun t => pure t) = _
  rw [h]
  rfl

/-- Claim C14: with chip id 0, every RN-SAM of the table in size-encoded mode,
no CCG configuration, no slot taken yet and a memory map holding only the I/O
region at `0x08000000` of 128 MiB with target 7, `cmn_cyprus_setup_rnsam`
returns, and in the state it leaves `NON_HASH_MEM_REGION[0]` of every RN-SAM
is `1 | (1 << 2) | (2 << 26) | (1 << 56)`, field 0 of `NON_HASH_TGT_NODEID[0]`
is 7, none of the four `SYS_CACHE_GRP_REGION` registers has changed, and
outside these two registers and `STATUS` of the RN-SAMs no register has
changed. -/
theorem cmn_cyprus_setup_rnsam_single_io_region (fuel : Nat) (hw : Regs) (sys : Machine)
    (hchip : sys.ctx.chip_id = 0)
    (hlen : sys.ctx.rnsam_count ≤ sys.ctx.rnsam_table.length)
    (hnz : ∀ (k r : Nat), sys.ctx.rnsam_table[k]? = some r → r ≠ 0)
    (hmode : ∀ (k r : Nat), sys.ctx.rnsam_table[k]? = some r →
      get_rnsam_nonhash_range_comp_en_mode hw r = false)
    (hsep : rnsam_blocks_apart sys.ctx)
    (hccg : sys.ctx.config.ccg_table_count = 0)
    (hmap : sys.ctx.config.mmap_table = [example_io_region])
    (hcount : sys.ctx.config.mmap_count = 1)
    (hio : sys.ctx.io_region_count = 0) :
    ∃ sys1, cmn_cyprus_setup_rnsam fuel hw sys = .ok sys1 ∧
      (∀ (k r : Nat), k < sys.ctx.rnsam_count → sys.ctx.rnsam_table[k]? = some r →
        sys1.rw (r + NON_HASH_MEM_REGION_OFFSET) = 1 ||| (1 <<< 2) ||| (2 <<< 26) ||| (1 <<< 56) ∧
        sys1.rw (r + NON_HASH_TGT_NODEID_OFFSET) % 2 ^ 12 = 7 ∧
        ∀ i, i < 4 →
          sys1.rw (r + SYS_CACHE_GRP_REGION_OFFSET + 8 * i) =
            sys.rw (r + SYS_CACHE_GRP_REGION_OFFSET + 8 * i)) ∧
      ∀ a, (∀ (k r : Nat), sys.ctx.rnsam_table[k]? = some r →
          a ≠ r + NON_HASH_MEM_REGION_OFFSET ∧ a ≠ r + NON_HASH_TGT_NODEID_OFFSET ∧
          a ≠ r + RNSAM_STATUS_OFFSET) →
        sys1.rw a = sys.rw a := by
  obtain ⟨s1, h1, hctx1, hfr1⟩ := rnsam_stall_total sys hlen
  obtain ⟨rw2, h2, hval2, hfr2⟩ := configure_non_hashed_region_example hw
    { sys.ctx with io_region_count := (sys.ctx.io_region_count + 1) % UINT_MOD } s1.rw
    hchip hlen hnz hmode hsep
  have hbody : ∃ s2, cmn_cyprus_setup_rnsam_body fuel hw s1 0 = .ok s2 ∧
      s2.ctx.rnsam_count = sys.ctx.rnsam_count ∧ s2.ctx.rnsam_table = sys.ctx.rnsam_table ∧
      s2.ctx.config = sys.ctx.config ∧ s2.rw = rw2 := by
    refine ⟨{ s1 with
        ctx := { sys.ctx with io_region_count := (sys.ctx.io_region_count + 1) % UINT_MOD }
        rw := rw2 }, ?_, rfl, rfl, rfl, rfl⟩
    unfold cmn_cyprus_setup_rnsam_body
    rw [hctx1, hmap]
    show program_rnsam_region fuel hw example_io_region s1 = _
    unfold program_rnsam_region
    rw [if_neg (by decide), if_pos (by decide), hctx1, hio]
    rw [hio] at h2
    show (configure_non_hashed_region hw _ 0x08000000 (128 * FWK_MIB) 0 7 s1.rw >>= _) = _
    rw [h2]
    rfl
  obtain ⟨s2, hbody, hc2, ht2, hcfg2, hrw2⟩ := hbody
  have hloop := foldlM_range_one (cmn_cyprus_setup_rnsam_body fuel hw) s1 s2 hbody
  obtain ⟨s3, h3, _, hfr3⟩ := rnsam_unstall_total s2 (by rw [hc2, ht2]; exact hlen)
  rw [ht2, hrw2] at hfr3
  have hc : setup_rnsam_ccg_regions hw s2 = .ok s2 := by
    unfold setup_rnsam_ccg_regions
    rw [hcfg2, hccg]
    rfl
  have hrun : cmn_cyprus_setup_rnsam fuel hw sys = .ok s3 := by
    unfold cmn_cyprus_setup_rnsam
    rw [h1]
    show ((List.range s1.ctx.config.mmap_count).foldlM (cmn_cyprus_setup_rnsam_body fuel hw) s1 >>=
      fun t => setup_rnsam_ccg_regions hw t >>= fun t1 => rnsam_unstall t1) = _
    rw [hctx1, hcount, hloop]
    show (setup_rnsam_ccg_regions hw s2 >>= fun t1 => rnsam_unstall t1) = _
    rw [hc]
    exact h3
  have hst : ∀ (k j r q o : Nat), sys.ctx.rnsam_table[k]? = some r →
      sys.ctx.rnsam_table[j]? = some q → o < RNSAM_REG_SIZE → o ≠ RNSAM_STATUS_OFFSET →
      r + o ≠ q + RNSAM_STATUS_OFFSET := fun k j r q o hr hq ho hne =>
    rnsam_offsets_apart sys.ctx hsep k j r q o RNSAM_STATUS_OFFSET hr hq ho (by decide) hne
  refine ⟨s3, hrun, ?_, ?_⟩
  · intro k r hk hr
    obtain ⟨v1, v2⟩ := hval2 k r hk hr
    refine ⟨?_, ?_, ?_⟩
    · rw [hfr3 _ (fun j q hq => hst k j r q _ hr hq (by decide) (by decide))]
      exact v1
    · rw [hfr3 _ (fun j q hq => hst k j r q _ hr hq (by decide) (by decide))]
      exact v2
    · intro i hi
      have e0 : r + SYS_CACHE_GRP_REGION_OFFSET + 8 * i = r + (SYS_CACHE_GRP_REGION_OFFSET + 8 * i) :=
        Nat.add_assoc _ _ _
      have hlt : SYS_CACHE_GRP_REGION_OFFSET + 8 * i < RNSAM_REG_SIZE := by
        simp only [SYS_CACHE_GRP_REGION_OFFSET, RNSAM_REG_SIZE]
        omega
      rw [e0, hfr3 _ (fun j q hq => hst k j r q _ hr hq hlt
          (by simp only [SYS_CACHE_GRP_REGION_OFFSET, RNSAM_STATUS_OFFSET]; omega)),
        hfr2 _ (fun j q hq =>
          ⟨rnsam_offsets_apart sys.ctx hsep k j r q _ _ hr hq hlt (by decide)
              (by simp only [SYS_CACHE_GRP_REGION_OFFSET, NON_HASH_MEM_REGION_OFFSET]; omega),
            rnsam_offsets_apart sys.ctx hsep k j r q _ _ hr hq hlt (by decide)
              (by simp only [SYS_CACHE_GRP_REGION_OFFSET, NON_HASH_TGT_NODEID_OFFSET]; omega)⟩),
        hfr1 _ (fun j q hq => hst k j r q _ hr hq hlt
          (by simp only [SYS_CACHE_GRP_REGION_OFFSET, RNSAM_STATUS_OFFSET]; omega))]
  · intro a ha
    rw [hfr3 _ (fun j q hq => (ha j q hq).2.2), hfr2 _ (fun j q hq => ⟨(ha j q hq).1, (ha j q hq).2.1⟩),
      hfr1 _ (fun j q hq => (ha j q hq).2.2)]

/-- Worked instance of C14: two RN-SAMs at `0x10000` and `0x20000`, all
registers zero. -/
theorem cmn_cyprus_setup_rnsam_single_io_region_witness :
    ∃ sys1, cmn_cyprus_setup_rnsam 0 example_hw_size_mode example_rnsam_system = .ok sys1 ∧
      (∀ (k r : Nat), k < example_rnsam_system.ctx.rnsam_count →
        example_rnsam_system.ctx.rnsam_table[k]? = some r →
        sys1.rw (r + NON_HASH_MEM_REGION_OFFSET) = 1 ||| (1 <<< 2) ||| (2 <<< 26) ||| (1 <<< 56) ∧
        sys1.rw (r + NON_HASH_TGT_NODEID_OFFSET) % 2 ^ 12 = 7 ∧
        ∀ i, i < 4 →
          sys1.rw (r + SYS_CACHE_GRP_REGION_OFFSET + 8 * i) =
            example_rnsam_system.rw (r + SYS_CACHE_GRP_REGION_OFFSET + 8 * i)) ∧
      ∀ a, (∀ (k r : Nat), example_rnsam_system.ctx.rnsam_table[k]? = some r →
          a ≠ r + NON_HASH_MEM_REGION_OFFSET ∧ a ≠ r + NON_HASH_TGT_NODEID_OFFSET ∧
          a ≠ r + RNSAM_STATUS_OFFSET) →
        sys1.rw a = example_rnsam_system.rw a :=
  cmn_cyprus_setup_rnsam_single_io_region 0 example_hw_size_mode example_rnsam_system rfl
    (by decide)
    (fun k r h => by
      have hm := List.getElem?_mem h
      simp only [example_rnsam_system, List.mem_cons, List.mem_singleton, List.not_mem_nil,
        or_false] at hm
      omega)
    (fun _ _ _ => by simp [get_rnsam_nonhash_range_comp_en_mode, example_hw_size_mode])
    (example_rnsam_blocks_apart example_rnsam_system rfl) rfl rfl rfl rfl


/-! ## C16: `SAM_CONTROL` under hierarchical hashing -/

theorem node_id_decode (b x y low : Nat) (hb : b = 2 ∨ b = 3 ∨ b = 4) (hx : x < 2 ^ b)
    (hy : y < 2 ^ b) (hlow : low < 8) :
    (((x <<< (3 + b)) ||| (y <<< 3) ||| low) >>> (3 + b)) &&& ((1 <<< b) - 1) = x ∧
      (((x <<< (3 + b)) ||| (y <<< 3) ||| low) >>> 3) &&& ((1 <<< b) - 1) = y := by
  have e1 : (y <<< 3) ||| low = 2 ^ 3 * y + low := by
    rw [Nat.shiftLeft_eq, Nat.mul_comm y, Nat.mul_add_lt_is_or (show low < 2 ^ 3 from hlow)]
  have hlt : 2 ^ 3 * y + low < 2 ^ (3 + b) := by
    rcases hb with h | h | h <;> subst h <;> omega
  have e2 : (x <<< (3 + b)) ||| (y <<< 3) ||| low = 2 ^ (3 + b) * x + (2 ^ 3 * y + low) := by
    rw [Nat.lor_assoc, e1, Nat.shiftLeft_eq, Nat.mul_comm x, Nat.mul_add_lt_is_or hlt]
  rw [e2, Nat.shiftRight_eq_div_pow, Nat.shiftRight_eq_div_pow, Nat.one_shiftLeft,
    Nat.and_pow_two_sub_one_eq_mod, Nat.and_pow_two_sub_one_eq_mod]
  rcases hb with h | h | h <;> subst h <;> omega

/-- Claim C26: for a mesh of at most 12 by 12 crosspoints
`set_encoding_and_masking_bits` takes 2 coordinate bits when both sizes are at
most 4, 3 when the larger size is 5 to 8, and 4 when a size exceeds 8, with
the mask `2^b - 1`; and for `x < mesh_size_x`, `y < mesh_size_y` and
`low < 8` the node id `(x << (3 + b)) | (y << 3) | low` is decoded by
`get_node_pos_x` to `x` and by `get_node_pos_y` to `y`. -/
theorem set_encoding_and_masking_bits_decodes (sys : Machine) (x y low : Nat)
    (hmx : sys.ctx.config.mesh_size_x ≤ 12) (hmy : sys.ctx.config.mesh_size_y ≤ 12)
    (hx : x < sys.ctx.config.mesh_size_x) (hy : y < sys.ctx.config.mesh_size_y)
    (hlow : low < 8) :
    (sys.ctx.config.mesh_size_x ≤ 4 ∧ sys.ctx.config.mesh_size_y ≤ 4 →
        (set_encoding_and_masking_bits sys).encoding_bits = 2) ∧
      (¬ (sys.ctx.config.mesh_size_x ≤ 4 ∧ sys.ctx.config.mesh_size_y ≤ 4) ∧
          sys.ctx.config.mesh_size_x ≤ 8 ∧ sys.ctx.config.mesh_size_y ≤ 8 →
        (set_encoding_and_masking_bits sys).encoding_bits = 3) ∧
      (8 < sys.ctx.config.mesh_size_x ∨ 8 < sys.ctx.config.mesh_size_y →
        (set_encoding_and_masking_bits sys).encoding_bits = 4) ∧
      (set_encoding_and_masking_bits sys).mask_bits =
        2 ^ (set_encoding_and_masking_bits sys).encoding_bits - 1 ∧
      get_node_pos_x (set_encoding_and_masking_bits sys)
        ((x <<< (3 + (set_encoding_and_masking_bits sys).encoding_bits)) ||| (y <<< 3) ||| low) =
          x ∧
      get_node_pos_y (set_encoding_and_masking_bits sys)
        ((x <<< (3 + (set_encoding_and_masking_bits sys).encoding_bits)) ||| (y <<< 3) ||| low) =
          y := by
  unfold get_node_pos_x get_node_pos_y
  have hb : (set_encoding_and_masking_bits sys).encoding_bits =
      (if sys.ctx.config.mesh_size_x > 8 ∨ sys.ctx.config.mesh_size_y > 8 then 4
        else if sys.ctx.config.mesh_size_x > 4 ∨ sys.ctx.config.mesh_size_y > 4 then 3 else 2) :=
    rfl
  have hm : (set_encoding_and_masking_bits sys).mask_bits =
      (1 <<< (set_encoding_and_masking_bits sys).encoding_bits) - 1 := rfl
  generalize (set_encoding_and_masking_bits sys).encoding_bits = b at hb hm ⊢
  have hcases : (b = 2 ∧ sys.ctx.config.mesh_size_x ≤ 4 ∧ sys.ctx.config.mesh_size_y ≤ 4) ∨
      (b = 3 ∧ sys.ctx.config.mesh_size_x ≤ 8 ∧ sys.ctx.config.mesh_size_y ≤ 8 ∧
        ¬ (sys.ctx.config.mesh_size_x ≤ 4 ∧ sys.ctx.config.mesh_size_y ≤ 4)) ∨
      (b = 4 ∧ (8 < sys.ctx.config.mesh_size_x ∨ 8 < sys.ctx.config.mesh_size_y)) := by
    rw [hb]
    split_ifs <;> omega
  have hx2 : x < 2 ^ b := by
    rcases hcases with ⟨h, _⟩ | ⟨h, _⟩ | ⟨h, _⟩ <;> subst h <;> omega
  have hy2 : y < 2 ^ b := by
    rcases hcases with ⟨h, _⟩ | ⟨h, _⟩ | ⟨h, _⟩ <;> subst h <;> omega
  have hb3 : b = 2 ∨ b = 3 ∨ b = 4 := by
    rcases hcases with ⟨h, _⟩ | ⟨h, _⟩ | ⟨h, _⟩ <;> simp [h]
  obtain ⟨dx, dy⟩ := node_id_decode b x y low hb3 hx2 hy2 hlow
  refine ⟨?_, ?_, ?_, ?_, ?_, ?_⟩
  · intro h
    rcases hcases with ⟨h1, _⟩ | ⟨_, _, _, h2⟩ | ⟨_, h2⟩
    · exact h1
    · exact absurd h h2
    · omega
  · intro h
    rcases hcases with ⟨_, h1, h2⟩ | ⟨h1, _⟩ | ⟨_, h2⟩
    · exact absurd ⟨h1, h2⟩ h.1
    · exact h1
    · omega
  · intro h
    rcases hcases with ⟨_, h1, h2⟩ | ⟨_, h1, h2, _⟩ | ⟨h1, _⟩
    · omega
    · omega
    · exact h1
  · rw [hm, Nat.one_shiftLeft]
  · rw [hm]
    exact dx
  · rw [hm]
    exact dy

/-- Worked instance of C26: a mesh of 12 by 9 crosspoints takes 4 coordinate
bits, and the node id of the crosspoint (11, 8) with low bits 7 is decoded to
x = 11 and y = 8. -/
theorem set_encoding_and_masking_bits_decodes_witness :
    (example_system_12x9.ctx.config.mesh_size_x ≤ 4 ∧
        example_system_12x9.ctx.config.mesh_size_y ≤ 4 →
        (set_encoding_and_masking_bits example_system_12x9).encoding_bits = 2) ∧
      (¬ (example_system_12x9.ctx.config.mesh_size_x ≤ 4 ∧
            example_system_12x9.ctx.config.mesh_size_y ≤ 4) ∧
          example_system_12x9.ctx.config.mesh_size_x ≤ 8 ∧
          example_system_12x9.ctx.config.mesh_size_y ≤ 8 →
        (set_encoding_and_masking_bits example_system_12x9).encoding_bits = 3) ∧
      (8 < example_system_12x9.ctx.config.mesh_size_x ∨
          8 < example_system_12x9.ctx.config.mesh_size_y →
        (set_encoding_and_masking_bits example_system_12x9).encoding_bits = 4) ∧
      (set_encoding_and_masking_bits example_system_12x9).mask_bits =
        2 ^ (set_encoding_and_masking_bits example_system_12x9).encoding_bits - 1 ∧
      get_node_pos_x (set_encoding_and_masking_bits example_system_12x9)
        ((11 <<< (3 + (set_encoding_and_masking_bits example_system_12x9).encoding_bits)) |||
          (8 <<< 3) ||| 7) = 11 ∧
      get_node_pos_y (set_encoding_and_masking_bits example_system_12x9)
        ((11 <<< (3 + (set_encoding_and_masking_bits example_system_12x9).encoding_bits)) |||
          (8 <<< 3) ||| 7) = 8 :=
  set_encoding_and_masking_bits_decodes example_system_12x9 11 8 7 (by decide) (by decide)
    (by decide) (by decide) (by decide)


/-! ## C22: the port whose device type gives the RN-F count -/

theorem to_bool_port_ge_two (port : Nat) (h : 2 ≤ port) : to_bool_port port = to_bool_port 1 := by
  unfold to_bool_port
  rw [if_neg (by omega), if_neg (by omega)]

/-- C22 (not what the code does): `is_device_type_rnf` and `is_cal_connected`
take the port as a `bool`, so for a node on port 2 or 3 they read
`PORT_CONNECT_INFO[1]`.  In `example_mesh_e` the RN-SAM node is on port 2,
whose device type is RN-F with the CAL bit clear, so the claim has it add 1;
`discover_mesh_topology` returns `FWK_SUCCESS` with one RN-SAM counted and
`rnf_count = 0`. -/
theorem discover_mesh_topology_rnf_port_read_as_bool :
    (∀ (hw : Regs) (xp port : Nat), 2 ≤ port →
      is_device_type_rnf hw xp port = is_device_type_rnf hw xp 1 ∧
      is_cal_connected hw xp port = is_cal_connected hw xp 1) ∧
    get_port_number (get_node_id example_mesh_e 0x31000)
      (get_node_device_port_count example_mesh_e 0x11000) = 2 ∧
    get_device_type example_mesh_e 0x11000 2 = DEVICE_TYPE_RN_F_CHIE_ESAM ∧
    (example_mesh_e (0x11000 + PORT_CONNECT_INFO_OFFSET + 8 * 2) &&& 0x80) = 0 ∧
    (discover_mesh_topology example_mesh_e (example_system [])).toOption.map
      (fun r => (r.1, r.2.ctx.rnsam_count, r.2.ctx.rnf_count)) = some (FWK_SUCCESS, 1, 0) := by
  refine ⟨?_, by decide, by decide, by decide, by decide⟩
  intro hw xp port h
  unfold is_device_type_rnf is_cal_connected
  rw [to_bool_port_ge_two port h]
  exact ⟨rfl, rfl⟩

/-! ## C24: the port recorded for a home node -/

/-- The entry that one step of the node loop of `cmn_cyprus_init_ctx` writes
for a child of the crosspoint `xp` that is not isolated, is internal and is an
HN-S node: the node's address, the x, y and device number decoded from the
node's own id, and the port number `get_port_number(get_child_node_id(xp,
node_idx), get_node_device_port_count(xp))`. -/
theorem init_ctx_node_records_hns_position (hw : Regs) (xp node_idx : Nat)
    (s s1 : init_ctx_state)
    (hiso : is_node_isolated (get_child_node hw s.sys.ctx.config.base xp node_idx) s.sys.ctx =
      false)
    (hint : is_child_external hw xp node_idx = false)
    (hty : get_node_type hw (get_child_node hw s.sys.ctx.config.base xp node_idx) =
      NODE_TYPE_HN_S)
    (hstep : init_ctx_node hw xp node_idx s = Flow.next s1) :
    s1.sys.ctx.hns_table[get_node_logical_id hw
        (get_child_node hw s.sys.ctx.config.base xp node_idx)]? =
      some
        { hns := get_child_node hw s.sys.ctx.config.base xp node_idx
          node_pos :=
            { pos_x := get_node_pos_x s.sys
                (get_node_id hw (get_child_node hw s.sys.ctx.config.base xp node_idx))
              pos_y := get_node_pos_y s.sys
                (get_node_id hw (get_child_node hw s.sys.ctx.config.base xp node_idx))
              port_num := get_port_number (get_child_node_id hw xp node_idx)
                (get_node_device_port_count hw xp)
              device_num := get_device_number
                (get_node_id hw (get_child_node hw s.sys.ctx.config.base xp node_idx)) }
          xp := xp } := by
  unfold init_ctx_node at hstep
  simp only [hiso, hint, Bool.not_false, if_true, Bool.false_eq_true, if_false] at hstep
  unfold init_ctx_internal_node at hstep
  simp only at hstep
  rw [if_neg (by rw [hty]; decide), if_pos hty] at hstep
  unfold init_ctx_case_hn_s at hstep
  simp only at hstep
  split_ifs at hstep
  split at hstep
  · cases hstep
  · rename_i table hwr
    cases hstep
    unfold table_write at hwr
    split_ifs at hwr with hlt
    cases hwr
    show (List.set _ _ _)[_]? = _
    rw [List.getElem?_set_self hlt]

/-- C24 (not what the code does): for every child, `cmn_cyprus_init_ctx`
takes the port from `get_child_node_id(xp, node_idx)`, the node pointer field
(bits 16 to 29) of the crosspoint's child pointer, where
`discover_mesh_topology` takes the port of an internal node from
`get_node_id(node)`; so the port it records for a non-isolated internal HN-S
node is `get_port_number(get_child_node_id(xp, node_idx), ...)` whatever the
node's own id is.  In `example_mesh_f` the HN-S node at `0x21000` has node id
4, which gives port 1, and child pointer `0x20000`, which gives port 0;
`cmn_cyprus_discovery` records port 0 for it. -/
theorem cmn_cyprus_init_ctx_port_from_child_pointer :
    (∀ (hw : Regs) (xp node_idx : Nat) (s s1 : init_ctx_state),
      is_node_isolated (get_child_node hw s.sys.ctx.config.base xp node_idx) s.sys.ctx = false →
      is_child_external hw xp node_idx = false →
      get_node_type hw (get_child_node hw s.sys.ctx.config.base xp node_idx) = NODE_TYPE_HN_S →
      init_ctx_node hw xp node_idx s = Flow.next s1 →
      (s1.sys.ctx.hns_table[get_node_logical_id hw
          (get_child_node hw s.sys.ctx.config.base xp node_idx)]?).map
          (fun e => e.node_pos.port_num) =
        some (get_port_number (get_child_node_id hw xp node_idx)
          (get_node_device_port_count hw xp))) ∧
    get_child_node example_mesh_f (example_system []).ctx.config.base 0x11000 0 = 0x21000 ∧
    is_child_external example_mesh_f 0x11000 0 = false ∧
    get_port_number (get_node_id example_mesh_f 0x21000)
      (get_node_device_port_count example_mesh_f 0x11000) = 1 ∧
    get_port_number (get_child_node_id example_mesh_f 0x11000 0)
      (get_node_device_port_count example_mesh_f 0x11000) = 0 ∧
    (cmn_cyprus_discovery example_mesh_f (example_system [])).toOption.map
      (fun s => s.ctx.hns_table) =
      some [{ hns := 0x21000
              node_pos := { pos_x := 0, pos_y := 0, port_num := 0, device_num := 0 }
              xp := 0x11000 }] := by
  refine ⟨?_, by decide, by decide, by decide, by decide, by decide⟩
  intro hw xp node_idx s s1 hiso hint hty hstep
  rw [init_ctx_node_records_hns_position hw xp node_idx s s1 hiso hint hty hstep]
  rfl


/-! ## C21: isolated entries of the HN-S table -/

/-- C21 (not what the code does): `program_hns_ldid_to_chi_node_id` takes as
register block the ADDRESS of the field `hns` of the table entry, so its
result does not depend on the pointers stored in `hns_table`, its test for an
isolated entry never holds for a table that is not at address zero, and its
writes go to the memory of the table.  With the table at `0x20001000`, an
isolated first entry and a second entry with registers at `0x100000`, slot 1
(`HNS_RN_CLUSTER_PHYSID[1][0]`, offset `0x3C20`) is written relative to the
addresses of both entries, `0x20001000` and `0x20001018`, and not at
`0x103C20`.  The two other passes skip an entry whose pointer is null. -/
theorem program_hns_ldid_to_chi_node_id_ignores_stored_pointer :
    (∀ (ctx : cmn_cyprus_ctx) (table : List hns_info) (ccg_config : mod_cmn_cyprus_ccg_config)
        (register_idx : Nat) (rw : Regs),
      program_hns_ldid_to_chi_node_id { ctx with hns_table := table } ccg_config register_idx rw =
        program_hns_ldid_to_chi_node_id ctx ccg_config register_idx rw) ∧
    observe_regs
      (program_hns_ldid_to_chi_node_id example_hns_by_address_ctx (example_ccg_config 1) 1
        (fun _ => 0))
      [0x20001000 + HNS_RN_CLUSTER_PHYSID_OFFSET + 32 * 1,
       0x20001018 + HNS_RN_CLUSTER_PHYSID_OFFSET + 32 * 1,
       0x100000 + HNS_RN_CLUSTER_PHYSID_OFFSET + 32 * 1] =
      some [0x49 ||| (1 <<< 16) ||| (1 <<< 31), 0x49 ||| (1 <<< 16) ||| (1 <<< 31), 0] ∧
    (∀ (hw : Regs) (ctx : cmn_cyprus_ctx) (rw : Regs) (k : Nat) (entry : hns_info),
      ctx.hns_table[k]? = some entry → entry.hns = 0 →
      cmn_cyprus_setup_hnf_sam_body hw ctx rw k = .ok rw) ∧
    (∀ (hw : Regs) (ctx : cmn_cyprus_ctx) (rnsam : Nat) (region : mod_cmn_cyprus_mem_region_map)
        (st : scg_target_state) (k : Nat) (entry : hns_info),
      ctx.hns_table[k]? = some entry → entry.hns = 0 →
      configure_scg_target_node hw ctx rnsam region st k = .ok st) := by
  refine ⟨fun _ _ _ _ _ => rfl, by decide, ?_, ?_⟩
  · intro hw ctx rw k entry he h0
    unfold cmn_cyprus_setup_hnf_sam_body table_read
    rw [he]
    show (if entry.hns = 0 then _ else _) = _
    rw [if_pos h0]
    rfl
  · intro hw ctx rnsam region st k entry he h0
    unfold configure_scg_target_node table_read
    rw [he]
    show (if entry.hns = 0 then _ else _) = _
    rw [if_pos h0]
    rfl

/-! ## C23: the hierarchical hashing control register of a cache group -/

theorem shl_uint_16_low (x : Nat) : shl_uint x 16 % 2 ^ 16 = 0 ∧ shl_uint x 16 < 2 ^ 64 := by
  unfold shl_uint
  rw [Nat.shiftLeft_eq]
  have hU : UINT_MOD = 2 ^ 32 := rfl
  rw [hU]
  omega

/-- C23 (not what the code does): `configure_scg_hier_hashing` assigns
`HASHED_TARGET_GRP_HASH_CNTL[g]` four times with `=`, so after a call that
returns (`g` below `MAX_SCG_COUNT`) the register holds only the last value,
the nodes-per-cluster count at bit 16: bits 0 to 15 are zero, the enable bit
(bit 2) among them.  With 8 home nodes, 2 clusters and 1 cache group the
register is `4 << 16` and not
`(1 << 2) | (log2(4) << 3) | (2 << 8) | (4 << 16)`. -/
theorem configure_scg_hier_hashing_keeps_last_field :
    (∀ (ctx : cmn_cyprus_ctx) (rnsam g : Nat) (cfg : mod_cmn_cyprus_hierarchical_hashing)
        (rw rw1 : Regs), g < MAX_SCG_COUNT →
      configure_scg_hier_hashing ctx rnsam g cfg rw = .ok rw1 →
      rw1 (rnsam + HASHED_TARGET_GRP_HASH_CNTL_OFFSET + 8 * g) =
          shl_uint
            (((if ctx.config.hns_cal_mode then ctx.hns_count / 2 else ctx.hns_count) /
              cfg.hns_cluster_count) / ctx.scg_count) 16 ∧
        rw1 (rnsam + HASHED_TARGET_GRP_HASH_CNTL_OFFSET + 8 * g) % 2 ^ 16 = 0 ∧
        (rw1 (rnsam + HASHED_TARGET_GRP_HASH_CNTL_OFFSET + 8 * g)).testBit 2 = false) ∧
    observe_regs
      (configure_scg_hier_hashing example_hier_ctx 0x10000 0
        example_hier_ctx.config.hierarchical_hashing_config (fun _ => 0))
      [0x10000 + HASHED_TARGET_GRP_HASH_CNTL_OFFSET] = some [4 <<< 16] ∧
    (4 <<< 16 ≠ (1 <<< 2) ||| (fwk_math_log2 4 <<< 3) ||| (2 <<< 8) ||| (4 <<< 16)) := by
  refine ⟨?_, by decide!, by decide!⟩
  intro ctx rnsam g cfg rw rw1 hg hrun
  have hg4 : g < 4 := hg
  unfold configure_scg_hier_hashing at hrun
  dsimp only at hrun
  by_cases hz : cfg.hns_cluster_count = 0 ∨ ctx.scg_count = 0
  · rw [if_pos hz] at hrun
    cases hrun
  rw [if_neg hz] at hrun
  have hval : rw1 (rnsam + HASHED_TARGET_GRP_HASH_CNTL_OFFSET + 8 * g) =
      shl_uint
        (((if ctx.config.hns_cal_mode then ctx.hns_count / 2 else ctx.hns_count) /
          cfg.hns_cluster_count) / ctx.scg_count) 16 := by
    cases hrun
    have ha : rnsam + HASHED_TARGET_GRP_HASH_CNTL_OFFSET + 8 * g ≠
        rnsam + SYS_CACHE_GRP_SN_ATTR_OFFSET + 8 * (g / 4) := by
      simp only [HASHED_TARGET_GRP_HASH_CNTL_OFFSET, SYS_CACHE_GRP_SN_ATTR_OFFSET]
      omega
    have hc : rnsam + HASHED_TARGET_GRP_HASH_CNTL_OFFSET + 8 * g ≠
        rnsam + SYS_CACHE_GRP_SN_SAM_CFG_OFFSET + 8 * (g / 2) := by
      simp only [HASHED_TARGET_GRP_HASH_CNTL_OFFSET, SYS_CACHE_GRP_SN_SAM_CFG_OFFSET]
      omega
    show reg_write _ _ _ _ = _
    rw [reg_write_other _ _ _ _ hc, reg_write_other _ _ _ _ hc, reg_write_other _ _ _ _ hc,
      reg_write_other _ _ _ _ ha, reg_write_same]
    exact Nat.mod_eq_of_lt (shl_uint_16_low _).2
  have hlow := (shl_uint_16_low
    (((if ctx.config.hns_cal_mode then ctx.hns_count / 2 else ctx.hns_count) /
      cfg.hns_cluster_count) / ctx.scg_count)).1
  refine ⟨hval, by rw [hval]; exact hlow, ?_⟩
  rw [hval]
  have h2 := Nat.testBit_mod_two_pow
    (shl_uint
      (((if ctx.config.hns_cal_mode then ctx.hns_count / 2 else ctx.hns_count) /
        cfg.hns_cluster_count) / ctx.scg_count) 16) 16 2
  rw [hlow] at h2
  simpa using h2.symm

/-! ## C27: the CAL mode bit of a cache group -/

/-- C27 (not what the code does): `configure_scg_cal_mode` multiplies the
enable bit by the flag `scg_enabled[g]`, and `configure_scg_region` sets that
flag only after its loop over the RN-SAMs; while the flag is clear the call
leaves `SYS_CACHE_GRP_CAL_MODE` as it was.  On a freshly initialised context
with `hns_cal_mode` set, `configure_scg_region` for group 0 returns with the
flag of the group set and `SYS_CACHE_GRP_CAL_MODE` of the RN-SAM still zero
(the count of home nodes of the group, 3, has been written). -/
theorem configure_scg_region_cal_mode_bit_not_set :
    (∀ (ctx : cmn_cyprus_ctx) (rnsam g : Nat) (rw : Regs),
      ctx.scg_enabled[g]? = some false →
      ∃ rw1, configure_scg_cal_mode ctx rnsam g rw = .ok rw1 ∧
        rw1 (rnsam + SYS_CACHE_GRP_CAL_MODE_OFFSET) =
          rw (rnsam + SYS_CACHE_GRP_CAL_MODE_OFFSET) % 2 ^ 64) ∧
    example_cal_system.ctx.config.hns_cal_mode = true ∧
    example_cal_system.ctx.scg_enabled = [false, false, false, false] ∧
    observe_scg (configure_scg_region 6 example_scg_hw example_scg_region 0 example_cal_system)
      [0x10000 + SYS_CACHE_GRP_CAL_MODE_OFFSET, 0x10000 + SYS_CACHE_GRP_HN_COUNT_OFFSET] =
      some ([true, false, false, false], [0, 3]) := by
  refine ⟨?_, rfl, rfl, by decide!⟩
  intro ctx rnsam g rw hflag
  refine ⟨_, by unfold configure_scg_cal_mode table_read; rw [hflag]; rfl, ?_⟩
  rw [reg_write_same]
  simp

/-! ## C28: the HN-S slots marked as remote -/

/-- C28 (not what the code does): `program_hns_ldid_to_rn_nodeid` starts its
slots at `remote_chip_id[0] * rnf_count` and not at the value
`remote_rnf_ldid_value = rnf_count` that `cmn_cyprus_setup_cml` prepares.  On
chip 1 of 2 with two local RN-Fs and a link to chip 0, `program_raid_to_ldid_lut`
gives the two remote RN-Fs the logical ids 2 and 3 (fields 0 and 2 of the first
home gateway register), while `program_hns_ldid_to_rn_nodeid` marks as remote
the slots 0 and 1, which are the slots of the local RN-Fs, and leaves the slots
2 and 3 empty. -/
theorem program_hns_ldid_to_rn_nodeid_marks_local_slots :
    observe_regs
      (program_raid_to_ldid_lut 300 example_remote_slots_ctx (example_ccg_config 0) (fun _ => 0))
      [0x300000 + CCG_HA_RNF_EXP_RAID_TO_LDID_REG_OFFSET] =
      some [(2 ||| 0x4000 ||| 0x8000) ||| ((3 ||| 0x4000 ||| 0x8000) <<< 32)] ∧
    observe_regs
      (program_hns_ldid_to_rn_nodeid 300 example_remote_slots_ctx (example_ccg_config 0)
        (fun _ => 0))
      [0x20001000 + HNS_RN_CLUSTER_PHYSID_OFFSET + 32 * 0,
       0x20001000 + HNS_RN_CLUSTER_PHYSID_OFFSET + 32 * 1,
       0x20001000 + HNS_RN_CLUSTER_PHYSID_OFFSET + 32 * 2,
       0x20001000 + HNS_RN_CLUSTER_PHYSID_OFFSET + 32 * 3] =
      some [0x49 ||| (1 <<< 16) ||| (1 <<< 31), 0x49 ||| (1 <<< 16) ||| (1 <<< 31), 0, 0] :=
  ⟨by decide!, by decide!⟩

/-! ## C29: loops with an 8-bit index -/

theorem foldlM_cpag_ports_never_ok (ccg_config : mod_cmn_cyprus_ccg_config)
    (f : Regs → Nat → Exec Regs) (rw r : Regs) (h : ∀ rw1 r1, f rw1 0 ≠ .ok r1) :
    (cpag_ports ccg_config).foldlM f rw ≠ .ok r := by
  unfold cpag_ports
  obtain ⟨m, hm⟩ : ∃ m, max ccg_config.num_ports_in_cpag 1 = m + 1 :=
    ⟨max ccg_config.num_ports_in_cpag 1 - 1, by omega⟩
  rw [hm, List.range_succ_eq_map, List.foldlM_cons]
  intro hc
  obtain ⟨a, ha, _⟩ := except_bind_ok _ _ _ hc
  exact h rw a ha

theorem bind_never_ok {α β : Type} (x : Exec α) (f : α → Exec β) (b : β)
    (h : ∀ a, x ≠ .ok a) : x >>= f ≠ .ok b := by
  intro hc
  obtain ⟨a, ha, _⟩ := except_bind_ok _ _ _ hc
  exact h a ha

/-- C29 (not what the code does): the loops whose index is a `uint8_t` never
end when their bound cannot be reached by an 8-bit value.  For every iteration
budget `fuel`, `program_hns_ldid_to_rn_nodeid` and `program_ldid_to_raid_lut`
do not return when `rnf_count` is 256 or more, `program_agentid_to_linkid_lut`
(loop test `rnf_idx <= rnf_count`) does not return when `rnf_count` is 255 or
more, and `configure_scg_target_nodes` does not return when `hns_count` is 256
or more.  With 256 RN-Fs and no HN-S node, a budget of 1000 iterations is used
up without a fault in the loop body. -/
theorem uint8_index_loops_never_return :
    (∀ (fuel : Nat) (ctx : cmn_cyprus_ctx) (ccg_config : mod_cmn_cyprus_ccg_config)
        (rw r : Regs), 256 ≤ ctx.rnf_count →
      program_hns_ldid_to_rn_nodeid fuel ctx ccg_config rw ≠ .ok r) ∧
    (∀ (fuel : Nat) (ctx : cmn_cyprus_ctx) (ccg_config : mod_cmn_cyprus_ccg_config)
        (rw r : Regs), 256 ≤ ctx.rnf_count →
      program_ldid_to_raid_lut fuel ctx ccg_config rw ≠ .ok r) ∧
    (∀ (fuel : Nat) (ctx : cmn_cyprus_ctx) (ccg_config : mod_cmn_cyprus_ccg_config)
        (rw r : Regs), 255 ≤ ctx.rnf_count →
      program_agentid_to_linkid_lut fuel ctx ccg_config rw ≠ .ok r) ∧
    (∀ (fuel : Nat) (hw : Regs) (ctx : cmn_cyprus_ctx) (rnsam : Nat)
        (region : mod_cmn_cyprus_mem_region_map) (g : Nat) (rw r : Regs), 256 ≤ ctx.hns_count →
      configure_scg_target_nodes fuel hw ctx rnsam region g rw ≠ .ok r) ∧
    fault_of
      (program_hns_ldid_to_rn_nodeid 1000 (example_ccg_ctx 2 0 256) (example_ccg_config 1)
        (fun _ => 0)) = some Fault.out_of_fuel := by
  refine ⟨?_, ?_, ?_, ?_, by decide!⟩
  · intro fuel ctx ccg_config rw r hn
    unfold program_hns_ldid_to_rn_nodeid
    exact bind_never_ok _ _ _ (fun a => for_uint8_never_ok ctx.rnf_count hn _ fuel 0 _ a
      (by norm_num))
  · intro fuel ctx ccg_config rw r hn
    unfold program_ldid_to_raid_lut
    refine foldlM_cpag_ports_never_ok ccg_config _ rw r ?_
    intro rw1 r1
    unfold program_ldid_to_raid_port
    exact bind_never_ok _ _ _ (fun a => for_uint8_never_ok ctx.rnf_count hn _ fuel 0 _ a
      (by norm_num))
  · intro fuel ctx ccg_config rw r hn
    unfold program_agentid_to_linkid_lut
    refine foldlM_cpag_ports_never_ok ccg_config _ rw r ?_
    intro rw1 r1
    have hcond : (fun rnf_idx => decide (rnf_idx ≤ ctx.rnf_count)) =
        (fun rnf_idx => decide (rnf_idx < ctx.rnf_count + 1)) := by
      funext i
      simp [Nat.lt_succ_iff]
    rw [hcond]
    exact bind_never_ok _ _ _ (fun a => for_uint8_never_ok (ctx.rnf_count + 1) (by omega) _
      fuel 0 _ a (by norm_num))
  · intro fuel hw ctx rnsam region g rw r hn
    unfold configure_scg_target_nodes
    exact bind_never_ok _ _ _ (fun a => for_uint8_never_ok ctx.hns_count hn _ fuel 0 _ a
      (by norm_num))

/-! ## C30: indices and the divisor of `setup_hierarchichal_hashing` -/

/-- C30 (not what the code does): the check `snf_count / hns_cluster_count == 3`
bounds neither the table index nor the divisor.  With 5 home nodes, 2 clusters
and 6 SN-F nodes the check passes, the home node with logical id 4 is in
cluster `4 / (5 / 2) = 2`, and the read of `snf_table[3 * 2]` is past the 6
entries of the table; with 1 home node and 2 clusters the check passes and
`hns_count / hns_cluster_count` is zero, so the cluster index is a division by
zero. -/
theorem setup_hierarchichal_hashing_unchecked_index_and_divisor :
    (example_hier_hns_ctx 5).config.snf_count /
      (example_hier_hns_ctx 5).config.hierarchical_hashing_config.hns_cluster_count = 3 ∧
    4 < (example_hier_hns_ctx 5).hns_count ∧
    (example_hier_hns_ctx 5).config.snf_count ≤
      3 * (4 / ((example_hier_hns_ctx 5).hns_count /
        (example_hier_hns_ctx 5).config.hierarchical_hashing_config.hns_cluster_count)) + 0 ∧
    fault_of
      (setup_hierarchichal_hashing (example_hier_hns_ctx 5) 0x100000 4
        (example_hier_hns_ctx 5).config.hierarchical_hashing_config (fun _ => 0)) =
      some Fault.out_of_bounds ∧
    0 < (example_hier_hns_ctx 1).hns_count ∧
    (example_hier_hns_ctx 1).hns_count /
      (example_hier_hns_ctx 1).config.hierarchical_hashing_config.hns_cluster_count = 0 ∧
    fault_of
      (setup_hierarchichal_hashing (example_hier_hns_ctx 1) 0x100000 0
        (example_hier_hns_ctx 1).config.hierarchical_hashing_config (fun _ => 0)) =
      some Fault.division_by_zero :=
  ⟨by decide, by decide, by decide, by decide!, by decide, by decide, by decide!⟩

end CmnCyprus
